import Mathlib

/-!
Exam proctoring system: session lifecycle and warning store.

A shallow embedding of the violation-tracking core of the repository:

* `shared/schema.ts`   : the four relations and the insert schemas;
* `server/storage.ts`  : `DatabaseStorage`, one function per method;
* `server/routes.ts`   : the HTTP handlers over the storage layer, and the
  socket handlers of `connection` and `message` over the set `clients`;
* `client/src/pages/student-exam.tsx` : `initSession`, `handleViolation`,
  `handleSubmit`, the client flows that drive the handlers.

Modelling conventions.

* A table is a list of rows in insertion order.  The integrity constraints that
  `schema.ts` declares (primary keys, the unique e-mail, the foreign keys) are
  checked on the table contents a statement would produce; a statement that
  would break one raises a database error and leaves the store as it was.
* `gen_random_uuid()` and `defaultNow()` are inputs of the statement that uses
  them (`Env`).
* An `integer` column holds the integers from -2147483648 to 2147483647; a
  statement that would store another value raises and leaves the store as it
  was.  A body that an insert schema accepts carries `integer` values only.
  `timestamp` columns are natural numbers.
* A request body is parsed JSON: under a timestamp key it holds text or `null`,
  never a `Date`.  The encoder of a `timestamp` column accepts a `Date` only; an
  update whose body carries text under such a key raises before it reaches the
  database.
* `orderBy: desc(joinedAt)` is a stable sort, so rows with equal `joinedAt` keep
  their insertion order.
* Handlers and client functions run one at a time, to completion.
* Identifiers travel unchanged in URLs and JSON; a body whose values have the
  wrong JSON type for a column that is no timestamp makes the statement fail and
  is not a `Partial...` value of the model.
-/

namespace ExamProctoring

/-! ## shared/schema.ts -/

abbrev Timestamp := Nat

/-- Row of `students`. -/
structure Student where
  id : String
  name : String
  email : String
  createdAt : Timestamp
deriving DecidableEq, Repr

/-- Row of `exam_sessions`. -/
structure ExamSession where
  id : String
  title : String
  description : Option String
  duration : Int
  isActive : Bool
  startedAt : Timestamp
  endedAt : Option Timestamp
deriving DecidableEq, Repr

/-- Row of `student_sessions`. -/
structure StudentSession where
  id : String
  studentId : String
  sessionId : String
  warningCount : Int
  isActive : Bool
  joinedAt : Timestamp
  leftAt : Option Timestamp
deriving DecidableEq, Repr

/-- Row of `violations`. -/
structure Violation where
  id : String
  studentSessionId : String
  type : String
  details : Option String
  timestamp : Timestamp
deriving DecidableEq, Repr

/-- Output of `insertStudentSchema`: `students` without `id`, `createdAt`. -/
structure InsertStudent where
  name : String
  email : String
deriving DecidableEq, Repr

/-- Output of `insertExamSessionSchema`: `exam_sessions` without `id`,
`startedAt`, `endedAt`; columns with a default are optional. -/
structure InsertExamSession where
  title : String
  description : Option String
  duration : Int
  isActive : Option Bool
deriving DecidableEq, Repr

/-- Output of `insertStudentSessionSchema`: `student_sessions` without `id`,
`joinedAt`, `leftAt`.  `warningCount` and `isActive` are not omitted: they are
optional keys of the body because their columns have a default.  The schema
refuses a `warningCount` outside the range of `integer`. -/
structure InsertStudentSession where
  studentId : String
  sessionId : String
  warningCount : Option Int
  isActive : Option Bool
deriving DecidableEq, Repr

/-- Output of `insertViolationSchema`: `violations` without `id`, `timestamp`. -/
structure InsertViolation where
  studentSessionId : String
  type : String
  details : Option String
deriving DecidableEq, Repr

/-- What an update can hold under a timestamp key: a `Date`, which is what the
type `Partial<...>` of `storage.ts` promises; text, which is what a `Date` has
become in a JSON body (any other JSON value that is not `null` behaves as text
does); or `null`. -/
inductive TimeInput where
  | date (t : Timestamp)
  | text (s : String)
  | null
deriving DecidableEq, Repr

/-- The type `Partial<ExamSession>` as an update receives it: every column may be
given or not. -/
structure PartialExamSession where
  id : Option String
  title : Option String
  description : Option (Option String)
  duration : Option Int
  isActive : Option Bool
  startedAt : Option TimeInput
  endedAt : Option TimeInput
deriving DecidableEq, Repr

/-- The type `Partial<StudentSession>` as an update receives it: every column may
be given or not. -/
structure PartialStudentSession where
  id : Option String
  studentId : Option String
  sessionId : Option String
  warningCount : Option Int
  isActive : Option Bool
  joinedAt : Option TimeInput
  leftAt : Option TimeInput
deriving DecidableEq, Repr

/-- The type `StudentSessionWithDetails`: a row of `student_sessions` with its
`student`, `session` and `violations` relations loaded. -/
structure StudentSessionWithDetails extends StudentSession where
  student : Option Student
  session : Option ExamSession
  violations : List Violation
deriving DecidableEq, Repr

/-! ## The database behind `db` -/

/-- Contents of the four relations. -/
structure Store where
  students : List Student
  examSessions : List ExamSession
  studentSessions : List StudentSession
  violations : List Violation
deriving DecidableEq, Repr

/-- What the database supplies to one inserting statement. -/
structure Env where
  uuid : String
  now : Timestamp
deriving DecidableEq, Repr

/-- What makes a statement raise: a constraint of the schema, a value outside
the range of an `integer` column, `null` for a column that is `notNull`, an
update without values, or a value that the encoder of its column cannot take. -/
inductive DbError where
  | primaryKey
  | uniqueEmail
  | foreignKey
  | integerRange
  | notNull
  | noValues
  | encoder
deriving DecidableEq, Repr

/-- Text of `error.message` for each error. -/
def DbError.message : DbError → String
  | .primaryKey => "duplicate key value violates unique constraint"
  | .uniqueEmail => "duplicate key value violates unique constraint students_email_unique"
  | .foreignKey => "violates foreign key constraint"
  | .integerRange => "integer out of range"
  | .notNull => "violates not-null constraint"
  | .noValues => "No values to set"
  | .encoder => "value.toISOString is not a function"

/-- Results of statements can be compared. -/
instance {ε α : Type} [DecidableEq ε] [DecidableEq α] : DecidableEq (Except ε α)
  | .ok a, .ok b =>
    if h : a = b then isTrue (by rw [h]) else isFalse (fun e => h (Except.ok.inj e))
  | .error a, .error b =>
    if h : a = b then isTrue (by rw [h]) else isFalse (fun e => h (Except.error.inj e))
  | .ok _, .error _ => isFalse (fun e => by cases e)
  | .error _, .ok _ => isFalse (fun e => by cases e)

/-- Largest value of an `integer` column. -/
def int4Max : Int := 2147483647

/-- Smallest value of an `integer` column. -/
def int4Min : Int := -2147483648

/-- The value fits an `integer` column. -/
def inInt4 (n : Int) : Prop := int4Min ≤ n ∧ n ≤ int4Max

instance (n : Int) : Decidable (inInt4 n) := by
  unfold inInt4; infer_instance

/-- The encoder of a `timestamp` column (`value.toISOString()`) raises on the
value: it is text. -/
def TimeInput.isText : TimeInput → Bool
  | .text _ => true
  | _ => false

/-- Primary keys: `id` is unique in each relation. -/
def Store.primaryKeysOk (st : Store) : Prop :=
  (st.students.map (fun s => s.id)).Nodup ∧
  (st.examSessions.map (fun e => e.id)).Nodup ∧
  (st.studentSessions.map (fun s => s.id)).Nodup ∧
  (st.violations.map (fun v => v.id)).Nodup

/-- The constraint `students.email` unique. -/
def Store.uniqueEmailOk (st : Store) : Prop :=
  (st.students.map (fun s => s.email)).Nodup

/-- Foreign keys: `student_sessions.student_id`, `student_sessions.session_id`
and `violations.student_session_id` reference existing rows. -/
def Store.foreignKeysOk (st : Store) : Prop :=
  (∀ s ∈ st.studentSessions, s.studentId ∈ st.students.map (fun x => x.id)) ∧
  (∀ s ∈ st.studentSessions, s.sessionId ∈ st.examSessions.map (fun e => e.id)) ∧
  (∀ v ∈ st.violations, v.studentSessionId ∈ st.studentSessions.map (fun s => s.id))

instance (st : Store) : Decidable st.primaryKeysOk := by
  unfold Store.primaryKeysOk; infer_instance

instance (st : Store) : Decidable st.uniqueEmailOk := by
  unfold Store.uniqueEmailOk; infer_instance

instance (st : Store) : Decidable st.foreignKeysOk := by
  unfold Store.foreignKeysOk; infer_instance

/-- All integrity constraints of `schema.ts` hold. -/
def Store.WF (st : Store) : Prop :=
  st.primaryKeysOk ∧ st.uniqueEmailOk ∧ st.foreignKeysOk

instance (st : Store) : Decidable st.WF := by
  unfold Store.WF; infer_instance

/-- The empty database. -/
def Store.empty : Store :=
  { students := [], examSessions := [], studentSessions := [], violations := [] }

/-- End of a statement: the contents it produced are kept when every constraint
holds, otherwise the statement raises. -/
def commit (new : Store) : Except DbError Store :=
  if ¬ new.primaryKeysOk then .error .primaryKey
  else if ¬ new.uniqueEmailOk then .error .uniqueEmail
  else if ¬ new.foreignKeysOk then .error .foreignKey
  else .ok new

/-! ## server/storage.ts -/

/-- The method `getStudent`. -/
def getStudent (st : Store) (id : String) : Option Student :=
  (st.students.filter (fun s => s.id = id)).head?

/-- The method `getStudentByEmail`. -/
def getStudentByEmail (st : Store) (email : String) : Option Student :=
  (st.students.filter (fun s => s.email = email)).head?

/-- The method `createStudent`. -/
def createStudent (st : Store) (env : Env) (insertStudent : InsertStudent) :
    Except DbError (Student × Store) :=
  let student : Student :=
    { id := env.uuid, name := insertStudent.name, email := insertStudent.email,
      createdAt := env.now }
  match commit { st with students := st.students ++ [student] } with
  | .error e => .error e
  | .ok st' => .ok (student, st')

/-- The method `getExamSession`. -/
def getExamSession (st : Store) (id : String) : Option ExamSession :=
  (st.examSessions.filter (fun e => e.id = id)).head?

/-- The method `createExamSession`. -/
def createExamSession (st : Store) (env : Env) (insertSession : InsertExamSession) :
    Except DbError (ExamSession × Store) :=
  let session : ExamSession :=
    { id := env.uuid, title := insertSession.title,
      description := insertSession.description, duration := insertSession.duration,
      isActive := insertSession.isActive.getD true, startedAt := env.now,
      endedAt := none }
  match commit { st with examSessions := st.examSessions ++ [session] } with
  | .error e => .error e
  | .ok st' => .ok (session, st')

/-- The value a `notNull` timestamp column gets from an update: the date under
the key, else the value it had. -/
def TimeInput.orKeep (v : Option TimeInput) (old : Timestamp) : Timestamp :=
  match v with
  | some (.date t) => t
  | _ => old

/-- The value a nullable timestamp column gets from an update: the date under
the key, NULL for `null`, else the value it had. -/
def TimeInput.orKeepNullable (v : Option TimeInput) (old : Option Timestamp) :
    Option Timestamp :=
  match v with
  | some (.date t) => some t
  | some .null => none
  | _ => old

/-- The key is present and holds text. -/
def TimeInput.refused (v : Option TimeInput) : Bool :=
  match v with
  | some x => x.isText
  | none => false

/-- The clause `.set(sessionUpdate)` on one row of `exam_sessions`. -/
def PartialExamSession.applyTo (u : PartialExamSession) (e : ExamSession) : ExamSession :=
  { id := u.id.getD e.id, title := u.title.getD e.title,
    description := u.description.getD e.description,
    duration := u.duration.getD e.duration, isActive := u.isActive.getD e.isActive,
    startedAt := TimeInput.orKeep u.startedAt e.startedAt,
    endedAt := TimeInput.orKeepNullable u.endedAt e.endedAt }

/-- The update carries no value at all. -/
def PartialExamSession.isEmpty (u : PartialExamSession) : Bool :=
  u.id.isNone && u.title.isNone && u.description.isNone && u.duration.isNone &&
    u.isActive.isNone && u.startedAt.isNone && u.endedAt.isNone

/-- The method `updateExamSession`.  `.set` raises on an update without values;
building the statement raises on text under a timestamp key; the database
raises on a `duration` outside `integer`, on `null` for `startedAt` of a row it
updates, and on a broken constraint. -/
def updateExamSession (st : Store) (id : String) (sessionUpdate : PartialExamSession) :
    Except DbError (Option ExamSession × Store) :=
  let rows := st.examSessions.map
    (fun e => if e.id = id then sessionUpdate.applyTo e else e)
  let returning := (st.examSessions.filter (fun e => e.id = id)).map sessionUpdate.applyTo
  if sessionUpdate.isEmpty then .error .noValues
  else if TimeInput.refused sessionUpdate.startedAt || TimeInput.refused sessionUpdate.endedAt then
    .error .encoder
  else if ¬ (∀ d ∈ sessionUpdate.duration, inInt4 d) then .error .integerRange
  else if sessionUpdate.startedAt = some .null ∧ id ∈ st.examSessions.map (fun e => e.id) then
    .error .notNull
  else
    match commit { st with examSessions := rows } with
    | .error e => .error e
    | .ok st' => .ok (returning.head?, st')

/-- Loading of the relations `student`, `session`, `violations` of one row. -/
def withDetails (st : Store) (s : StudentSession) : StudentSessionWithDetails :=
  { toStudentSession := s,
    student := getStudent st s.studentId,
    session := getExamSession st s.sessionId,
    violations := st.violations.filter (fun v => v.studentSessionId = s.id) }

/-- The clause `orderBy: desc(studentSessions.joinedAt)`. -/
def orderByJoinedAtDesc (rows : List StudentSession) : List StudentSession :=
  rows.insertionSort (fun a b => b.joinedAt ≤ a.joinedAt)

/-- The method `getStudentSession`. -/
def getStudentSession (st : Store) (id : String) : Option StudentSessionWithDetails :=
  ((st.studentSessions.filter (fun s => s.id = id)).map (withDetails st)).head?

/-- The method `getActiveStudentSessions`. -/
def getActiveStudentSessions (st : Store) : List StudentSessionWithDetails :=
  (orderByJoinedAtDesc (st.studentSessions.filter (fun s => s.isActive = true))).map
    (withDetails st)

/-- The method `getStudentSessionsByStudentAndExam`. -/
def getStudentSessionsByStudentAndExam (st : Store) (studentId sessionId : String) :
    List StudentSessionWithDetails :=
  (orderByJoinedAtDesc (st.studentSessions.filter
    (fun s => s.studentId = studentId ∧ s.sessionId = sessionId))).map (withDetails st)

/-- The method `createStudentSession`. -/
def createStudentSession (st : Store) (env : Env) (insertSession : InsertStudentSession) :
    Except DbError (StudentSession × Store) :=
  let session : StudentSession :=
    { id := env.uuid, studentId := insertSession.studentId,
      sessionId := insertSession.sessionId,
      warningCount := insertSession.warningCount.getD 0,
      isActive := insertSession.isActive.getD true,
      joinedAt := env.now, leftAt := none }
  match commit { st with studentSessions := st.studentSessions ++ [session] } with
  | .error e => .error e
  | .ok st' => .ok (session, st')

/-- The clause `.set(sessionUpdate)` on one row of `student_sessions`. -/
def PartialStudentSession.applyTo (u : PartialStudentSession) (s : StudentSession) :
    StudentSession :=
  { id := u.id.getD s.id, studentId := u.studentId.getD s.studentId,
    sessionId := u.sessionId.getD s.sessionId,
    warningCount := u.warningCount.getD s.warningCount,
    isActive := u.isActive.getD s.isActive,
    joinedAt := TimeInput.orKeep u.joinedAt s.joinedAt,
    leftAt := TimeInput.orKeepNullable u.leftAt s.leftAt }

/-- The update carries no value at all. -/
def PartialStudentSession.isEmpty (u : PartialStudentSession) : Bool :=
  u.id.isNone && u.studentId.isNone && u.sessionId.isNone && u.warningCount.isNone &&
    u.isActive.isNone && u.joinedAt.isNone && u.leftAt.isNone

/-- The method `updateStudentSession`.  `.set` raises on an update without
values; building the statement raises on text under a timestamp key; the
database raises on a `warningCount` outside `integer`, on `null` for `joinedAt`
of a row it updates, and on a broken constraint. -/
def updateStudentSession (st : Store) (id : String) (sessionUpdate : PartialStudentSession) :
    Except DbError (Option StudentSession × Store) :=
  let rows := st.studentSessions.map
    (fun s => if s.id = id then sessionUpdate.applyTo s else s)
  let returning := (st.studentSessions.filter (fun s => s.id = id)).map sessionUpdate.applyTo
  if sessionUpdate.isEmpty then .error .noValues
  else if TimeInput.refused sessionUpdate.joinedAt || TimeInput.refused sessionUpdate.leftAt then
    .error .encoder
  else if ¬ (∀ w ∈ sessionUpdate.warningCount, inInt4 w) then .error .integerRange
  else if sessionUpdate.joinedAt = some .null ∧ id ∈ st.studentSessions.map (fun s => s.id) then
    .error .notNull
  else
    match commit { st with studentSessions := rows } with
    | .error e => .error e
    | .ok st' => .ok (returning.head?, st')

/-- The assignment `warningCount: warningCount + 1` on one row. -/
def bumpWarning (s : StudentSession) : StudentSession :=
  { s with warningCount := s.warningCount + 1 }

/-- The method `incrementWarningCount`.  The database raises when the sum leaves
the range of `integer` on a row it updates. -/
def incrementWarningCount (st : Store) (id : String) :
    Except DbError (Option StudentSession × Store) :=
  let rows := st.studentSessions.map (fun s => if s.id = id then bumpWarning s else s)
  let returning := (st.studentSessions.filter (fun s => s.id = id)).map bumpWarning
  if ∃ s ∈ st.studentSessions, s.id = id ∧ int4Max < s.warningCount + 1 then
    .error .integerRange
  else .ok (returning.head?, { st with studentSessions := rows })

/-- The method `createViolation`. -/
def createViolation (st : Store) (env : Env) (insertViolation : InsertViolation) :
    Except DbError (Violation × Store) :=
  let violation : Violation :=
    { id := env.uuid, studentSessionId := insertViolation.studentSessionId,
      type := insertViolation.type, details := insertViolation.details,
      timestamp := env.now }
  match commit { st with violations := st.violations ++ [violation] } with
  | .error e => .error e
  | .ok st' => .ok (violation, st')

/-! ## server/routes.ts -/

/-- The field `role` of a socket. -/
inductive Role where
  | student
  | admin
deriving DecidableEq, Repr

/-- The field `readyState` of a socket. -/
inductive ReadyState where
  | connecting
  | isOpen
  | closing
  | closed
deriving DecidableEq, Repr

/-- A value read from a parsed frame.  Numbers are whole numbers; arrays and
objects are kept as their text. -/
inductive JsonValue where
  | undefined
  | null
  | bool (b : Bool)
  | number (n : Int)
  | string (s : String)
  | composite (text : String)
deriving DecidableEq, Repr

/-- Truthiness of a value, as the test `&& ws.sessionId` takes it. -/
def JsonValue.truthy : JsonValue → Bool
  | .undefined => false
  | .null => false
  | .bool b => b
  | .number n => decide (n ≠ 0)
  | .string s => decide (s ≠ "")
  | .composite _ => true

/-- The interface `WebSocketClient`; `conn` identifies the socket object.  The
field `sessionId` holds whatever a `join_exam` frame carried. -/
structure WebSocketClient where
  conn : Nat
  isAlive : Bool
  sessionId : JsonValue
  role : Option Role
  readyState : ReadyState
deriving DecidableEq, Repr

/-- Frames the server pushes to sockets: `violation_alert` from the socket
handler, `violation_created` from `POST /api/violations`. -/
inductive ServerMessage where
  | violationCreated (violation : Violation)
  | violationAlert (sessionId violationType details warningCount : JsonValue)
      (timestamp : Timestamp)
deriving DecidableEq, Repr

/-- A frame as the handler of `message` sees it: `malformed` when `JSON.parse`
throws, `other` when the parsed value has none of the three types (or has no
`type` to read), else the fields the handler reads. -/
inductive Incoming where
  | malformed
  | other
  | joinExam (sessionId : JsonValue)
  | adminConnect
  | violation (violationType details warningCount : JsonValue)
deriving DecidableEq, Repr

/-- A socket as the `connection` event leaves it: alive, open, no role and no
sessionId. -/
def newSocket (conn : Nat) : WebSocketClient :=
  { conn := conn, isAlive := true, sessionId := .undefined, role := none,
    readyState := .isOpen }

/-- Handler of `connection`: `ws.isAlive = true; clients.add(ws)`.  The set
`clients` is the list of its members in insertion order. -/
def onConnection (clients : List WebSocketClient) (conn : Nat) : List WebSocketClient :=
  if conn ∈ clients.map (fun c => c.conn) then clients else clients ++ [newSocket conn]

/-- The loop `clients.forEach` of the `violation` branch: one `violation_alert`
frame for each socket that is an admin and open. -/
def broadcastViolationAlert (clients : List WebSocketClient) (alert : ServerMessage) :
    List (Nat × ServerMessage) :=
  (clients.filter (fun c => c.role = some Role.admin ∧ c.readyState = ReadyState.isOpen)).map
    (fun c => (c.conn, alert))

/-- The write of the fields of `ws` into the member of `clients` that is `ws`. -/
def storeSocket (clients : List WebSocketClient) (ws : WebSocketClient) :
    List WebSocketClient :=
  clients.map (fun c => if c.conn = ws.conn then ws else c)

/-- Handler of `message` on the socket `ws`; `now` is the `new Date()` of the
alert.  The result is `ws` after the handler, the set `clients` after it, and the
frames sent with the socket each one goes to. -/
def onMessage (clients : List WebSocketClient) (ws : WebSocketClient) (frame : Incoming)
    (now : Timestamp) : WebSocketClient × List WebSocketClient × List (Nat × ServerMessage) :=
  match frame with
  | .malformed => (ws, clients, [])
  | .other => (ws, clients, [])
  | .joinExam sessionId =>
    ({ ws with sessionId := sessionId, role := some .student },
     storeSocket clients { ws with sessionId := sessionId, role := some .student }, [])
  | .adminConnect =>
    ({ ws with role := some .admin }, storeSocket clients { ws with role := some .admin }, [])
  | .violation violationType details warningCount =>
    if ws.sessionId.truthy then
      (ws, clients,
        broadcastViolationAlert clients
          (.violationAlert ws.sessionId violationType details warningCount now))
    else (ws, clients, [])

/-- The fields of a parsed frame that the handler of `message` reads; a field
that the frame lacks is `undefined`. -/
structure FrameData where
  type : JsonValue
  sessionId : JsonValue
  violationType : JsonValue
  details : JsonValue
  warningCount : JsonValue
deriving DecidableEq, Repr

/-- A frame as it arrives: text that `JSON.parse` rejects, the value `null` (the
read of `data.type` throws), or a value with fields. -/
inductive RawFrame where
  | unparsable
  | nullValue
  | data (d : FrameData)
deriving DecidableEq, Repr

/-- The `try` block of the handler of `message` up to its branches: which branch
a frame takes. -/
def classify : RawFrame → Incoming
  | .unparsable => .malformed
  | .nullValue => .malformed
  | .data d =>
    if d.type = .string "join_exam" then .joinExam d.sessionId
    else if d.type = .string "admin_connect" then .adminConnect
    else if d.type = .string "violation" then .violation d.violationType d.details d.warningCount
    else .other

/-- Handler of `message` on the socket `ws`, from the frame as it arrives. -/
def onFrame (clients : List WebSocketClient) (ws : WebSocketClient) (raw : RawFrame)
    (now : Timestamp) : WebSocketClient × List WebSocketClient × List (Nat × ServerMessage) :=
  onMessage clients ws (classify raw) now

/-- Handler of `pong` on the socket `conn`: `ws.isAlive = true`. -/
def onPong (clients : List WebSocketClient) (conn : Nat) : List WebSocketClient :=
  clients.map (fun c => if c.conn = conn then { c with isAlive := true } else c)

/-- Handler of `close` on the socket `conn`: `clients.delete(ws)`. -/
def onClose (clients : List WebSocketClient) (conn : Nat) : List WebSocketClient :=
  clients.filter (fun c => c.conn ≠ conn)

/-- One run of the `setInterval` callback.  The result is the set `clients` after
it, the sockets it removed and terminated, and the sockets it pinged. -/
def sweep (clients : List WebSocketClient) : List WebSocketClient × List Nat × List Nat :=
  ((clients.filter (fun c => c.isAlive)).map (fun c => { c with isAlive := false }),
   (clients.filter (fun c => !c.isAlive)).map (fun c => c.conn),
   (clients.filter (fun c => c.isAlive)).map (fun c => c.conn))

/-- JSON bodies the handlers answer with. -/
inductive Payload where
  | error (message : String)
  | student (student : Student)
  | students (students : List Student)
  | examSession (session : ExamSession)
  | studentSession (session : StudentSession)
  | studentSessionWithDetails (session : StudentSessionWithDetails)
  | studentSessions (sessions : List StudentSessionWithDetails)
  | violation (violation : Violation)
  | terminated (error : String) (terminated : Bool) (session : StudentSessionWithDetails)
deriving DecidableEq, Repr

/-- An HTTP answer: `res.status(status).json(body)`. -/
structure Response where
  status : Nat
  body : Payload
deriving DecidableEq, Repr

/-- Text of `error.message` when a schema rejects the body. -/
def zodMessage : String := "invalid request body"

/-- Handler of `GET /api/students`; `email` is the query parameter when it is a
string. -/
def getStudentsHandler (st : Store) (email : Option String) : Response :=
  match email with
  | some e =>
    if e ≠ "" then
      match getStudentByEmail st e with
      | some student => { status := 200, body := .students [student] }
      | none => { status := 200, body := .students [] }
    else { status := 200, body := .students [] }
  | none => { status := 200, body := .students [] }

/-- Handler of `POST /api/students`; `body` is `none` when `insertStudentSchema`
rejects the request body. -/
def postStudentsHandler (st : Store) (env : Env) (body : Option InsertStudent) :
    Response × Store :=
  match body with
  | none => ({ status := 400, body := .error zodMessage }, st)
  | some validatedData =>
    match createStudent st env validatedData with
    | .ok (student, st') => ({ status := 201, body := .student student }, st')
    | .error e => ({ status := 400, body := .error e.message }, st)

/-- Handler of `POST /api/exam-sessions`. -/
def postExamSessionsHandler (st : Store) (env : Env) (body : Option InsertExamSession) :
    Response × Store :=
  match body with
  | none => ({ status := 400, body := .error zodMessage }, st)
  | some validatedData =>
    match createExamSession st env validatedData with
    | .ok (session, st') => ({ status := 201, body := .examSession session }, st')
    | .error e => ({ status := 400, body := .error e.message }, st)

/-- Handler of `PATCH /api/exam-sessions/:id`. -/
def patchExamSessionHandler (st : Store) (id : String) (body : PartialExamSession) :
    Response × Store :=
  match updateExamSession st id body with
  | .ok (some session, st') => ({ status := 200, body := .examSession session }, st')
  | .ok (none, st') => ({ status := 404, body := .error "Exam session not found" }, st')
  | .error e => ({ status := 500, body := .error e.message }, st)

/-- Handler of `GET /api/student-sessions/by-student-exam`; the arguments are the
query parameters when they are strings. -/
def getStudentSessionsByStudentExamHandler (st : Store) (studentId sessionId : Option String) :
    Response :=
  match studentId, sessionId with
  | some sid, some eid =>
    if sid = "" ∨ eid = "" then
      { status := 400, body := .error "Missing studentId or sessionId" }
    else { status := 200, body := .studentSessions (getStudentSessionsByStudentAndExam st sid eid) }
  | _, _ => { status := 400, body := .error "Missing studentId or sessionId" }

/-- Handler of `GET /api/student-sessions/active`. -/
def getActiveStudentSessionsHandler (st : Store) : Response :=
  { status := 200, body := .studentSessions (getActiveStudentSessions st) }

/-- Handler of `GET /api/student-sessions/:id`. -/
def getStudentSessionHandler (st : Store) (id : String) : Response :=
  match getStudentSession st id with
  | none => { status := 404, body := .error "Student session not found" }
  | some session => { status := 200, body := .studentSessionWithDetails session }

/-- The answer to `GET /api/student-sessions/<segment>` without a query: the
routes `/active` and `/by-student-exam` are registered before `/:id` and answer
for their segment. -/
def getStudentSessionsPath (st : Store) (segment : String) : Response :=
  if segment = "active" then getActiveStudentSessionsHandler st
  else if segment = "by-student-exam" then getStudentSessionsByStudentExamHandler st none none
  else getStudentSessionHandler st segment

/-- Handler of `POST /api/student-sessions`; `body` is `none` when
`insertStudentSessionSchema` rejects the request body. -/
def postStudentSessionsHandler (st : Store) (env : Env) (body : Option InsertStudentSession) :
    Response × Store :=
  match body with
  | none => ({ status := 400, body := .error zodMessage }, st)
  | some validatedData =>
    let existingSessions :=
      getStudentSessionsByStudentAndExam st validatedData.studentId validatedData.sessionId
    match existingSessions.find? (fun s => !s.isActive && decide (s.warningCount ≥ 3)) with
    | some terminatedSession =>
      ({ status := 403,
         body := .terminated "Student has been terminated from this exam due to violations"
           true terminatedSession }, st)
    | none =>
      match createStudentSession st env validatedData with
      | .ok (session, st') => ({ status := 201, body := .studentSession session }, st')
      | .error e => ({ status := 400, body := .error e.message }, st)

/-- Handler of `PATCH /api/student-sessions/:id`; the body goes to the storage
layer as it is. -/
def patchStudentSessionHandler (st : Store) (id : String) (body : PartialStudentSession) :
    Response × Store :=
  match updateStudentSession st id body with
  | .ok (some session, st') => ({ status := 200, body := .studentSession session }, st')
  | .ok (none, st') => ({ status := 404, body := .error "Student session not found" }, st')
  | .error e => ({ status := 500, body := .error e.message }, st)

/-- Handler of `POST /api/student-sessions/:id/warning`. -/
def postWarningHandler (st : Store) (id : String) : Response × Store :=
  match incrementWarningCount st id with
  | .ok (some session, st') => ({ status := 200, body := .studentSession session }, st')
  | .ok (none, st') => ({ status := 404, body := .error "Student session not found" }, st')
  | .error e => ({ status := 500, body := .error e.message }, st)

/-- The loop `clients.forEach` of `POST /api/violations`: one `violation_created`
frame for each socket that is an admin and open. -/
def broadcastViolationCreated (clients : List WebSocketClient) (violation : Violation) :
    List (Nat × ServerMessage) :=
  (clients.filter (fun c => c.role = some Role.admin ∧ c.readyState = ReadyState.isOpen)).map
    (fun c => (c.conn, ServerMessage.violationCreated violation))

/-- Handler of `POST /api/violations`; `body` is `none` when
`insertViolationSchema` rejects the request body.  The third component lists the
frames sent, with the socket each one goes to. -/
def postViolationsHandler (st : Store) (clients : List WebSocketClient) (env : Env)
    (body : Option InsertViolation) : Response × Store × List (Nat × ServerMessage) :=
  match body with
  | none => ({ status := 400, body := .error zodMessage }, st, [])
  | some validatedData =>
    match createViolation st env validatedData with
    | .ok (violation, st') =>
      ({ status := 201, body := .violation violation }, st',
        broadcastViolationCreated clients violation)
    | .error e => ({ status := 400, body := .error e.message }, st, [])

/-! ## client/src/pages/student-exam.tsx -/

/-- Frames the exam page writes to its socket. -/
inductive ClientMessage where
  | joinExam (sessionId : String)
  | violation (violationType : String) (details : String) (warningCount : Int)
deriving DecidableEq, Repr

/-- The frame as the server parses it. -/
def ClientMessage.toIncoming : ClientMessage → Incoming
  | .joinExam sessionId => .joinExam (.string sessionId)
  | .violation violationType details warningCount =>
    .violation (.string violationType) (.string details) (.number warningCount)

/-- State of the component `StudentExam` that its session logic reads or writes:
the route parameter, the browser's `localStorage`, three `useState` cells,
whether `wsRef.current` is open, and logs of the frames sent and of the toast
titles shown. -/
structure ClientState where
  sessionId : String
  localStorage : List (String × String)
  studentSessionId : String
  isSessionActive : Bool
  isTerminated : Bool
  wsOpen : Bool
  sent : List ClientMessage
  toasts : List String
deriving DecidableEq, Repr

/-- The call `localStorage.getItem`. -/
def getItem (ls : List (String × String)) (key : String) : Option String :=
  (ls.find? (fun kv => kv.1 = key)).map (fun kv => kv.2)

/-- The call `localStorage.removeItem`. -/
def removeItem (ls : List (String × String)) (key : String) : List (String × String) :=
  ls.filter (fun kv => kv.1 ≠ key)

/-- The call `localStorage.setItem`. -/
def setItem (ls : List (String × String)) (key value : String) : List (String × String) :=
  removeItem ls key ++ [(key, value)]

/-- The key under which the page caches its StudentSession id for an exam. -/
def cacheKey (sessionId : String) : String := "studentSession_" ++ sessionId

/-- Modelled from the spec: the helper `apiRequest` of `lib/queryClient` is not
among the sources.  It separates the answers that the interface table of the
spec lists as success (2xx) from the failures (4xx, 5xx); on a failure it throws,
as the `catch` blocks of its callers assume, and the message carries the text of
the answer. -/
def apiRequestOk (r : Response) : Bool :=
  decide (200 ≤ r.status) && decide (r.status < 300)

/-- The property `ok` of a `fetch` answer. -/
def fetchOk (r : Response) : Bool :=
  decide (200 ≤ r.status) && decide (r.status < 300)

/-- The three places of `initSession` that show the lockout screen: they set
`isTerminated`, clear `isSessionActive` and toast "Access Denied". -/
def accessDenied (c : ClientState) : ClientState :=
  { c with isTerminated := true, isSessionActive := false,
           toasts := c.toasts ++ ["Access Denied"] }

/-- The outer `catch` of `initSession`. -/
def initFailed (c : ClientState) : ClientState :=
  { c with toasts := c.toasts ++ ["Error"] }

/-- The text `JSON.stringify` writes for a `Date`; the model writes the number
of the instant. -/
def toISOString (t : Timestamp) : String := toString t

/-- Body of the update mutation in `handleViolation`, `handleSubmit` and the
`force_logout` handler, `isActive: false, leftAt: new Date()`, as the request
carries it: `apiRequest` sends JSON, in which the date is its text. -/
def closeBody (now : Timestamp) : PartialStudentSession :=
  { id := none, studentId := none, sessionId := none, warningCount := none,
    isActive := some false, joinedAt := none, leftAt := some (.text (toISOString now)) }

/-- Lines 147-169 of `initSession`: the request `POST /api/student-sessions` with
`warningCount: 0, isActive: true`, and its `catch`.  An error text contains
"terminated" exactly for the 403 answer. -/
def initSessionCreate (c : ClientState) (st : Store) (env : Env) (storedStudentId : String) :
    ClientState × Store :=
  let r := postStudentSessionsHandler st env
    (some { studentId := storedStudentId, sessionId := c.sessionId,
            warningCount := some 0, isActive := some true })
  if apiRequestOk r.1 then
    match r.1.body with
    | .studentSession newSession =>
      ({ c with studentSessionId := newSession.id,
                localStorage := setItem c.localStorage (cacheKey c.sessionId) newSession.id },
        r.2)
    | _ => (initFailed c, r.2)
  else
    match r.1.body with
    | .terminated _ _ _ => (accessDenied c, r.2)
    | _ => (initFailed c, r.2)

/-- Lines 123-169 of `initSession`: look the pair up, stop on a lockout record,
resume an active session, create one otherwise. -/
def initSessionJoin (c : ClientState) (st : Store) (env : Env) (storedStudentId : String) :
    ClientState × Store :=
  let existingSessionsResponse :=
    getStudentSessionsByStudentExamHandler st (some storedStudentId) (some c.sessionId)
  if fetchOk existingSessionsResponse then
    match existingSessionsResponse.body with
    | .studentSessions existingSessions =>
      match existingSessions.find? (fun s => !s.isActive && decide (s.warningCount ≥ 3)) with
      | some _ => (accessDenied c, st)
      | none =>
        match existingSessions.find? (fun s => s.isActive) with
        | some activeSession =>
          ({ c with studentSessionId := activeSession.id,
                    localStorage :=
                      setItem c.localStorage (cacheKey c.sessionId) activeSession.id }, st)
        | none => initSessionCreate c st env storedStudentId
    | _ => initSessionCreate c st env storedStudentId
  else initSessionCreate c st env storedStudentId

/-- Line 97 of `initSession`: the stored student name, or "Anonymous Student". -/
def studentNameOf (c : ClientState) : String :=
  match getItem c.localStorage "studentName" with
  | some n => if n = "" then "Anonymous Student" else n
  | none => "Anonymous Student"

/-- Lines 100-111 of `initSession`: the student id from `localStorage`, else from
`GET /api/students?email=`; the empty string stands for a missing id.
`emailOf` is the template of line 98. -/
def storedStudent (emailOf : String → String) (c : ClientState) (st : Store) :
    String × ClientState :=
  let stored := (getItem c.localStorage "studentId").getD ""
  if stored = "" then
    match (getStudentsHandler st (some (emailOf (studentNameOf c)))).body with
    | .students (s :: _) =>
      (s.id, { c with localStorage := setItem c.localStorage "studentId" s.id })
    | _ => (stored, c)
  else (stored, c)

/-- Lines 97-121 of `initSession`: the student id, from `storedStudent`, else from
`POST /api/students`.  The result is `none` when that request throws. -/
def initSessionStudent (emailOf : String → String) (c : ClientState) (st : Store) (env : Env) :
    Option String × ClientState × Store :=
  let looked := storedStudent emailOf c st
  if looked.1 = "" then
    let r := postStudentsHandler st env
      (some { name := studentNameOf c, email := emailOf (studentNameOf c) })
    if apiRequestOk r.1 then
      match r.1.body with
      | .student student =>
        (some student.id,
          { looked.2 with localStorage := setItem looked.2.localStorage "studentId" student.id },
          r.2)
      | _ => (none, looked.2, r.2)
    else (none, looked.2, r.2)
  else (some looked.1, looked.2, st)

/-- Lines 97-169 of `initSession`: what follows the look at the cached id. -/
def initSessionFresh (emailOf : String → String) (c : ClientState) (st : Store)
    (envStudent envSession : Env) : ClientState × Store :=
  match initSessionStudent emailOf c st envStudent with
  | (some storedStudentId, c2, st2) => initSessionJoin c2 st2 envSession storedStudentId
  | (none, c2, st2) => (initFailed c2, st2)

/-- The function `initSession`.  `envStudent` serves the insert of a student,
`envSession` the insert of a StudentSession.  When the answer to the fetch of
the cached id is a list (the segment was `active`), its `isActive` is
`undefined` and the test of line 79 is true. -/
def initSession (emailOf : String → String) (c : ClientState) (st : Store)
    (envStudent envSession : Env) : ClientState × Store :=
  if c.sessionId = "" then (c, st)
  else
    let cached := (getItem c.localStorage (cacheKey c.sessionId)).getD ""
    let validateResponse := getStudentSessionsPath st cached
    if cached ≠ "" ∧ fetchOk validateResponse = true then
      match validateResponse.body with
      | .studentSessionWithDetails validatedSession =>
        if validatedSession.isActive = false ∨ validatedSession.warningCount ≥ 3 then
          (accessDenied
            { c with localStorage := removeItem c.localStorage (cacheKey c.sessionId) }, st)
        else ({ c with studentSessionId := cached }, st)
      | .studentSessions _ =>
        (accessDenied
          { c with localStorage := removeItem c.localStorage (cacheKey c.sessionId) }, st)
      | _ => (initFailed c, st)
    else
      let c1 : ClientState :=
        if cached ≠ "" then
          { c with localStorage := removeItem c.localStorage (cacheKey c.sessionId) }
        else c
      initSessionFresh emailOf c1 st envStudent envSession

/-- What a run of `handleViolation` does, one entry for each statement that
has an effect outside the function, in the order of the statements: the three
mutations and the refetch (each is awaited before the next statement runs), the
frame written to the socket, `setIsSessionActive(false)`, and the toast. -/
inductive PageEffect where
  | createViolation (body : InsertViolation)
  | incrementWarning (id : String)
  | refetch (id : String)
  | send (m : ClientMessage)
  | setInactive
  | updateStudentSession (id : String) (body : PartialStudentSession)
  | toast (title : String)
deriving DecidableEq, Repr

/-- The function `handleViolation` with the list of its effects.  `env` serves
the insert of the violation, `now` is the `new Date()` of the close request.  A
request that throws ends the function in its `catch`.  The refetch of the query
`/api/student-sessions/:id` is the request GET /api/student-sessions/:id;
`showWarning` and the redirect timers are display only and left out. -/
def handleViolationTraced (c : ClientState) (st : Store) (clients : List WebSocketClient)
    (env : Env) (now : Timestamp) (type details : String) :
    (ClientState × Store × List (Nat × ServerMessage)) × List PageEffect :=
  if c.isSessionActive = false ∨ c.studentSessionId = "" then ((c, st, []), [])
  else
    let body : InsertViolation :=
      { studentSessionId := c.studentSessionId, type := type, details := some details }
    let r1 := postViolationsHandler st clients env (some body)
    if apiRequestOk r1.1 = false then ((c, r1.2.1, r1.2.2), [.createViolation body])
    else
      let r2 := postWarningHandler r1.2.1 c.studentSessionId
      if apiRequestOk r2.1 = false then
        ((c, r2.2, r1.2.2), [.createViolation body, .incrementWarning c.studentSessionId])
      else
        let newWarningCount : Int :=
          match (getStudentSessionHandler r2.2 c.studentSessionId).body with
          | .studentSessionWithDetails updated => updated.warningCount
          | _ => 0
        let c1 : ClientState :=
          if c.wsOpen then
            { c with sent := c.sent ++ [.violation type details newWarningCount] }
          else c
        let first : List PageEffect :=
          [.createViolation body, .incrementWarning c.studentSessionId,
           .refetch c.studentSessionId] ++
            (if c.wsOpen then [.send (.violation type details newWarningCount)] else [])
        if newWarningCount ≥ 3 then
          let r3 := patchStudentSessionHandler r2.2 c.studentSessionId (closeBody now)
          if apiRequestOk r3.1 then
            (({ c1 with isSessionActive := false, toasts := c1.toasts ++ ["Exam Terminated"] },
              r3.2, r1.2.2),
             first ++ [.setInactive, .updateStudentSession c.studentSessionId (closeBody now),
               .toast "Exam Terminated"])
          else
            (({ c1 with isSessionActive := false }, r3.2, r1.2.2),
             first ++ [.setInactive, .updateStudentSession c.studentSessionId (closeBody now)])
        else
          (({ c1 with toasts :=
                c1.toasts ++ ["Warning " ++ toString newWarningCount ++ "/3"] },
            r2.2, r1.2.2),
           first ++ [.toast ("Warning " ++ toString newWarningCount ++ "/3")])

/-- The function `handleViolation`: the page, the store and the frames the server
sent after one run. -/
def handleViolation (c : ClientState) (st : Store) (clients : List WebSocketClient)
    (env : Env) (now : Timestamp) (type details : String) :
    ClientState × Store × List (Nat × ServerMessage) :=
  (handleViolationTraced c st clients env now type details).1

/-- The function `handleSubmit`; `confirmed` is the answer to `confirm(...)`. -/
def handleSubmit (c : ClientState) (st : Store) (confirmed : Bool) (now : Timestamp) :
    ClientState × Store :=
  if confirmed then
    let r := patchStudentSessionHandler st c.studentSessionId (closeBody now)
    if apiRequestOk r.1 then
      ({ c with isSessionActive := false, toasts := c.toasts ++ ["Exam Submitted"] }, r.2)
    else ({ c with isSessionActive := false }, r.2)
  else (c, st)

/-- The method `padStart` with a pad of one character. -/
def padStart (t : String) (targetLength : Nat) (pad : Char) : String :=
  String.mk (List.replicate (targetLength - t.length) pad) ++ t

/-- The function `formatTime`, for a whole number of seconds that is not
negative.  Below 2^53 the arithmetic of the source is exact and `toString` of a
whole number is its decimal notation, as here. -/
def formatTime (seconds : Nat) : String :=
  let hours := seconds / 3600
  let minutes := (seconds % 3600) / 60
  let secs := seconds % 60
  padStart (toString hours) 2 '0' ++ ":" ++ padStart (toString minutes) 2 '0' ++ ":" ++
    padStart (toString secs) 2 '0'

/-! ## Runs of the server -/

/-- A request that can write to the store, with what the database and the socket
registry supply when it is served. -/
inductive Request where
  | postStudents (env : Env) (body : Option InsertStudent)
  | postExamSessions (env : Env) (body : Option InsertExamSession)
  | patchExamSession (id : String) (body : PartialExamSession)
  | postStudentSessions (env : Env) (body : Option InsertStudentSession)
  | patchStudentSession (id : String) (body : PartialStudentSession)
  | postWarning (id : String)
  | postViolations (clients : List WebSocketClient) (env : Env) (body : Option InsertViolation)
deriving DecidableEq, Repr

/-- The answer to one request and the store after it. -/
def serve (st : Store) : Request → Response × Store
  | .postStudents env body => postStudentsHandler st env body
  | .postExamSessions env body => postExamSessionsHandler st env body
  | .patchExamSession id body => patchExamSessionHandler st id body
  | .postStudentSessions env body => postStudentSessionsHandler st env body
  | .patchStudentSession id body => patchStudentSessionHandler st id body
  | .postWarning id => postWarningHandler st id
  | .postViolations clients env body =>
    ((postViolationsHandler st clients env body).1, (postViolationsHandler st clients env body).2.1)

/-- The store after a sequence of requests served one after the other. -/
def serveAll (st : Store) (reqs : List Request) : Store :=
  reqs.foldl (fun s r => (serve s r).2) st

/-! ## Runs driven by the exam page -/

/-- A PATCH body that cannot make a second active session for a pair: it leaves
`studentId` and `sessionId` alone and does not set `isActive` to true. -/
def neverActivates (u : PartialStudentSession) : Prop :=
  u.studentId = none ∧ u.sessionId = none ∧ u.isActive ≠ some true

instance (u : PartialStudentSession) : Decidable (neverActivates u) := by
  unfold neverActivates; infer_instance

/-- Requests other than the join itself; a PATCH of a StudentSession carries a
body that `neverActivates`. -/
def Request.besideJoin : Request → Prop
  | .postStudentSessions _ _ => False
  | .patchStudentSession _ body => neverActivates body
  | _ => True

instance (r : Request) : Decidable r.besideJoin := by
  cases r <;> unfold Request.besideJoin <;> infer_instance

/-- One step of a run in which StudentSessions are created by the exam page only:
a request beside the join, or one call of `initSession` from some page. -/
inductive PageStep where
  | request (r : Request)
  | initSession (emailOf : String → String) (c : ClientState) (envStudent envSession : Env)

/-- The store after one step. -/
def pageStep (st : Store) : PageStep → Store
  | .request r => (serve st r).2
  | .initSession emailOf c envStudent envSession =>
    (initSession emailOf c st envStudent envSession).2

/-- The store after a sequence of steps. -/
def pageRun (st : Store) (steps : List PageStep) : Store :=
  steps.foldl pageStep st

/-- Side conditions of a step: the request is beside the join; the id that
`gen_random_uuid()` gives a new student is not the empty string. -/
def PageStep.ok : PageStep → Prop
  | .request r => r.besideJoin
  | .initSession _ _ envStudent _ => envStudent.uuid ≠ ""

instance (p : PageStep) : Decidable p.ok := by
  cases p <;> unfold PageStep.ok <;> infer_instance

/-- The store after one `recordWarning` call, which is `incrementWarningCount`;
a call that raises leaves the store as it was. -/
def recordWarning (st : Store) (id : String) : Store :=
  match incrementWarningCount st id with
  | .ok (_, st') => st'
  | .error _ => st

/-- The store after `recordWarning` calls, one for each id of the list, in the
order of the list. -/
def recordWarnings (st : Store) (ids : List String) : Store :=
  ids.foldl recordWarning st

/-- One violation signal on the exam page: what the database supplies to the
insert, the `new Date()` of a close request, and the arguments of
`handleViolation`. -/
structure ViolationEvent where
  env : Env
  now : Timestamp
  type : String
  details : String
deriving DecidableEq, Repr

/-- The page and the store after `handleViolation` has run for each event of the
list, in order. -/
def handleViolations (c : ClientState) (st : Store) (clients : List WebSocketClient)
    (events : List ViolationEvent) : ClientState × Store :=
  events.foldl
    (fun p ev =>
      ((handleViolation p.1 p.2 clients ev.env ev.now ev.type ev.details).1,
       (handleViolation p.1 p.2 clients ev.env ev.now ev.type ev.details).2.1))
    (c, st)

/-! ## Runs of the socket registry -/

/-- An event on the socket server; `conn` is the socket it happens on. -/
inductive HubEvent where
  | connection (conn : Nat)
  | pong (conn : Nat)
  | message (conn : Nat) (frame : Incoming) (now : Timestamp)
  | close (conn : Nat)
  | sweep
deriving DecidableEq, Repr

/-- The set `clients` after one event.  A frame from a socket that is no longer
in the set leaves the set as it is. -/
def hubStep (clients : List WebSocketClient) : HubEvent → List WebSocketClient
  | .connection conn => onConnection clients conn
  | .pong conn => onPong clients conn
  | .message conn frame now =>
    match clients.find? (fun c => c.conn = conn) with
    | some ws => (onMessage clients ws frame now).2.1
    | none => clients
  | .close conn => onClose clients conn
  | .sweep => (sweep clients).1

/-- The set `clients` after a sequence of events. -/
def hubRun (clients : List WebSocketClient) (events : List HubEvent) : List WebSocketClient :=
  events.foldl hubStep clients

/-- The events between two sweeps during which the socket `conn` stays silent: no
pong from it, no close of it, no sweep, and no new socket under its name. -/
def silentFor (conn : Nat) (events : List HubEvent) : Prop :=
  ∀ e ∈ events, e ≠ .pong conn ∧ e ≠ .close conn ∧ e ≠ .connection conn ∧ e ≠ .sweep

instance (conn : Nat) (events : List HubEvent) : Decidable (silentFor conn events) := by
  unfold silentFor; infer_instance

/-- The socket `conn`, not closed, answers every ping: scanning the events with
the flag `alive` (a pong from `conn` since the last sweep, or none needed yet),
each sweep finds the flag set. -/
def pongsBeforeEverySweep (conn : Nat) : Bool → List HubEvent → Bool
  | _, [] => true
  | alive, .pong k :: rest => pongsBeforeEverySweep conn (alive || decide (k = conn)) rest
  | alive, .sweep :: rest => alive && pongsBeforeEverySweep conn false rest
  | alive, .close k :: rest => decide (k ≠ conn) && pongsBeforeEverySweep conn alive rest
  | alive, .connection _ :: rest => pongsBeforeEverySweep conn alive rest
  | alive, .message _ _ _ :: rest => pongsBeforeEverySweep conn alive rest

/-! ## Vocabulary of the statements -/

/-- Number of active StudentSessions of a pair. -/
def activeCount (st : Store) (studentId sessionId : String) : Nat :=
  (st.studentSessions.filter
    (fun s => s.studentId = studentId ∧ s.sessionId = sessionId ∧ s.isActive = true)).length

/-- No two rows of the list are active sessions of one pair. -/
def noTwoActive (l : List StudentSession) : Prop :=
  l.Pairwise (fun a b => ¬ (a.isActive = true ∧ b.isActive = true ∧
    a.studentId = b.studentId ∧ a.sessionId = b.sessionId))

/-- The store with one more violation. -/
def withViolation (st : Store) (v : Violation) : Store :=
  { st with violations := st.violations ++ [v] }

/-- The store with `f` applied to the StudentSessions that have the given id. -/
def updateRow (st : Store) (id : String) (f : StudentSession → StudentSession) : Store :=
  { st with studentSessions := st.studentSessions.map (fun x => if x.id = id then f x else x) }

/-- The violation that `createViolation` inserts. -/
def violationRow (env : Env) (b : InsertViolation) : Violation :=
  { id := env.uuid, studentSessionId := b.studentSessionId, type := b.type,
    details := b.details, timestamp := env.now }

/-- The StudentSession that the join of the exam page inserts. -/
def freshRow (env : Env) (studentId sessionId : String) : StudentSession :=
  { id := env.uuid, studentId := studentId, sessionId := sessionId, warningCount := 0,
    isActive := true, joinedAt := env.now, leftAt := none }

/-- The store holds a lockout record for the pair. -/
def lockedOut (st : Store) (studentId sessionId : String) : Prop :=
  ∃ s ∈ st.studentSessions, s.studentId = studentId ∧ s.sessionId = sessionId ∧
    s.isActive = false ∧ s.warningCount ≥ 3

instance (st : Store) (a b : String) : Decidable (lockedOut st a b) := by
  unfold lockedOut; infer_instance

/-- A PATCH body that cannot undo a lockout record: it leaves `studentId` and
`sessionId` alone, does not set `isActive` to true and does not set
`warningCount` below 3. -/
def keepsLockout (u : PartialStudentSession) : Prop :=
  u.studentId = none ∧ u.sessionId = none ∧ u.isActive ≠ some true ∧
    ∀ w ∈ u.warningCount, w ≥ 3

instance (u : PartialStudentSession) : Decidable (keepsLockout u) := by
  unfold keepsLockout; infer_instance

/-- Every request but a PATCH of a StudentSession is unconstrained; a PATCH of a
StudentSession carries a body that `keepsLockout`. -/
def Request.keepsLockout : Request → Prop
  | .patchStudentSession _ body => ExamProctoring.keepsLockout body
  | _ => True

instance (r : Request) : Decidable r.keepsLockout := by
  cases r <;> unfold Request.keepsLockout <;> infer_instance

/-- The close transition as a value of the type `Partial<StudentSession>`:
`isActive: false, leftAt: now` with `now` a `Date`. -/
def closeUpdate (now : Timestamp) : PartialStudentSession :=
  { id := none, studentId := none, sessionId := none, warningCount := none,
    isActive := some false, joinedAt := none, leftAt := some (.date now) }

/-- The store after the update when it succeeds, the store as it was when it
raises. -/
def afterUpdate (st : Store) (id : String) (u : PartialStudentSession) : Store :=
  match updateStudentSession st id u with
  | .ok (_, st') => st'
  | .error _ => st

/-- A PATCH body that sets `isActive` to true and nothing else. -/
def reopenBody : PartialStudentSession :=
  { id := none, studentId := none, sessionId := none, warningCount := none,
    isActive := some true, joinedAt := none, leftAt := none }


/-- A lockout record: a closed StudentSession with three warnings or more. -/
def isLockoutRecord (s : StudentSession) : Prop :=
  s.isActive = false ∧ s.warningCount ≥ 3

instance (s : StudentSession) : Decidable (isLockoutRecord s) := by
  unfold isLockoutRecord; infer_instance

/-- The row belongs to the pair (studentId, sessionId). -/
def ofPair (studentId sessionId : String) (s : StudentSession) : Prop :=
  s.studentId = studentId ∧ s.sessionId = sessionId

instance (a b : String) (s : StudentSession) : Decidable (ofPair a b s) := by
  unfold ofPair; infer_instance

/-- The test of `terminatedSession` in the join handler and in `initSession`. -/
def terminatedTest (s : StudentSession) : Bool :=
  !s.isActive && decide (s.warningCount ≥ 3)

/-- Requests that cannot turn a closed session into an open one: a PATCH of a
StudentSession carries a body that does not set `isActive` to true. -/
def Request.neverReopens : Request → Prop
  | .patchStudentSession _ body => body.isActive ≠ some true
  | _ => True

instance (r : Request) : Decidable r.neverReopens := by
  cases r <;> unfold Request.neverReopens <;> infer_instance

/-- Requests that cannot lower the warningCount of the row `s`: a PATCH of `s`
carries no warningCount below the one of `s`. -/
def Request.keepsCount (s : StudentSession) : Request → Prop
  | .patchStudentSession id body => s.id = id → ∀ w ∈ body.warningCount, s.warningCount ≤ w
  | _ => True

instance (s : StudentSession) (r : Request) : Decidable (r.keepsCount s) := by
  cases r <;> unfold Request.keepsCount <;> infer_instance

/-- A PATCH body that sets `warningCount` to 0 and nothing else. -/
def resetCountBody : PartialStudentSession :=
  { id := none, studentId := none, sessionId := none, warningCount := some 0,
    isActive := none, joinedAt := none, leftAt := none }

/-- The page after a step of `initSession` either holds the StudentSession id it
held before, or holds an id that is also the cache entry of its exam. -/
def cachedOrKept (c : ClientState) (r : ClientState) : Prop :=
  r.studentSessionId = c.studentSessionId ∨
    getItem r.localStorage (cacheKey c.sessionId) = some r.studentSessionId

/-! ## Sample data -/

/-- A student row. -/
def ann : Student := { id := "s1", name := "Ann", email := "ann@exam.test", createdAt := 0 }

/-- An exam row. -/
def algebraExam : ExamSession :=
  { id := "e1", title := "Algebra", description := none, duration := 60, isActive := true,
    startedAt := 0, endedAt := none }

/-- A store with one student and one exam. -/
def baseStore : Store :=
  { students := [ann], examSessions := [algebraExam], studentSessions := [], violations := [] }

/-- A closed session of Ann in the exam, with three warnings. -/
def lockedSession : StudentSession :=
  { id := "x", studentId := "s1", sessionId := "e1", warningCount := 3, isActive := false,
    joinedAt := 5, leftAt := some 9 }

/-- The store `baseStore` with `lockedSession`. -/
def lockedStore : Store := { baseStore with studentSessions := [lockedSession] }

/-- A join body for Ann and the exam with the optional keys absent. -/
def plainJoin : InsertStudentSession :=
  { studentId := "s1", sessionId := "e1", warningCount := none, isActive := none }

/-- The exam page of the exam "e1" right after loading, in a browser with an
empty `localStorage`. -/
def freshPage : ClientState :=
  { sessionId := "e1", localStorage := [], studentSessionId := "", isSessionActive := true,
    isTerminated := false, wsOpen := true, sent := [], toasts := [] }

/-- A run from the empty store: an exam is created, a fresh page joins it (a
student and a session are created), then a second fresh page of the same
student joins it. -/
def sampleRun : List PageStep :=
  [.request (.postExamSessions { uuid := "e1", now := 0 }
      (some { title := "Algebra", description := none, duration := 60, isActive := none })),
   .initSession (fun n => n ++ "@exam.test") freshPage { uuid := "s1", now := 1 }
      { uuid := "a", now := 2 },
   .initSession (fun n => n ++ "@exam.test") freshPage { uuid := "s2", now := 3 }
      { uuid := "b", now := 4 }]

/-- A join body that carries `warningCount: 5, isActive: false`. -/
def loadedJoin : InsertStudentSession :=
  { studentId := "s1", sessionId := "e1", warningCount := some 5, isActive := some false }

/-- An open session of Ann in the exam, with two warnings. -/
def warnedSession : StudentSession :=
  { id := "a", studentId := "s1", sessionId := "e1", warningCount := 2, isActive := true,
    joinedAt := 1, leftAt := none }

/-- A second open session of Ann in the exam, joined later. -/
def otherSession : StudentSession :=
  { id := "b", studentId := "s1", sessionId := "e1", warningCount := 0, isActive := true,
    joinedAt := 2, leftAt := none }

/-- The store `baseStore` with `warnedSession` and `otherSession`. -/
def warnedStore : Store := { baseStore with studentSessions := [warnedSession, otherSession] }

/-- A session of Ann in the exam that was submitted with two warnings. -/
def submittedSession : StudentSession :=
  { id := "a", studentId := "s1", sessionId := "e1", warningCount := 2, isActive := false,
    joinedAt := 1, leftAt := some 6 }

/-- The store `baseStore` with `submittedSession`. -/
def submittedStore : Store := { baseStore with studentSessions := [submittedSession] }

/-- The exam page of the exam "e1" that holds the session "a". -/
def pageOfA : ClientState := { freshPage with studentSessionId := "a" }

/-- A registry with an open admin, an open student bound to the exam "e1", an
admin whose socket is closing, and an open socket that announced no role. -/
def sampleClients : List WebSocketClient :=
  [{ conn := 1, isAlive := true, sessionId := .undefined, role := some .admin,
     readyState := .isOpen },
   { conn := 2, isAlive := true, sessionId := .string "e1", role := some .student,
     readyState := .isOpen },
   { conn := 3, isAlive := true, sessionId := .undefined, role := some .admin,
     readyState := .closing },
   { conn := 4, isAlive := true, sessionId := .undefined, role := none,
     readyState := .isOpen }]

/-- A violation body for the session "a". -/
def tabSwitch : InsertViolation :=
  { studentSessionId := "a", type := "Tab Switch",
    details := some "Student switched away from exam tab" }

/-- The store `baseStore` after Ann has joined the exam by a direct request. -/
def joinedStore : Store :=
  serveAll baseStore [.postStudentSessions { uuid := "a", now := 1 } (some plainJoin)]

/-- A first violation signal. -/
def signal1 : ViolationEvent :=
  { env := { uuid := "v1", now := 2 }, now := 2, type := "Tab Switch",
    details := "Student switched away from exam tab" }

/-- A second violation signal. -/
def signal2 : ViolationEvent :=
  { env := { uuid := "v2", now := 3 }, now := 3, type := "Copy Attempt",
    details := "Student attempted to copy content" }

/-- A third violation signal. -/
def signal3 : ViolationEvent :=
  { env := { uuid := "v3", now := 4 }, now := 4, type := "Paste Attempt",
    details := "Student attempted to paste content" }

/-- An open session of Ann in the exam whose count is the largest `integer`. -/
def fullSession : StudentSession :=
  { id := "m", studentId := "s1", sessionId := "e1", warningCount := 2147483647,
    isActive := true, joinedAt := 1, leftAt := none }

/-- The store `baseStore` with `fullSession`. -/
def fullStore : Store := { baseStore with studentSessions := [fullSession] }

/-- An open session of Ann in the exam with three warnings. -/
def overLimitSession : StudentSession :=
  { id := "a", studentId := "s1", sessionId := "e1", warningCount := 3, isActive := true,
    joinedAt := 1, leftAt := none }

/-- The store `baseStore` with `overLimitSession`. -/
def overLimitStore : Store := { baseStore with studentSessions := [overLimitSession] }

/-- The exam page of the exam "e1" right after loading, in a browser that holds
Ann's student id. -/
def returningPage : ClientState := { freshPage with localStorage := [("studentId", "s1")] }

/-- The template of line 98 without its normalisation of the name. -/
def sampleEmailOf (name : String) : String := name ++ "@exam.test"

/-- The page and the store after `initSession` has run on the page that loaded
in Ann's browser: the session "a" is created. -/
def joinedPage : ClientState × Store :=
  initSession sampleEmailOf returningPage baseStore { uuid := "s9", now := 0 }
    { uuid := "a", now := 1 }

/-- The page and the store after Ann has joined and one violation was handled. -/
def warnedOnce : ClientState × Store :=
  handleViolations joinedPage.1 joinedPage.2 [] [signal1]

/-- A registry with an admin, the socket of the page of session "a" (the page
joins with the id of its exam), and a student socket bound to "a" itself. -/
def examClients : List WebSocketClient :=
  [{ conn := 1, isAlive := true, sessionId := .undefined, role := some .admin,
     readyState := .isOpen },
   { conn := 2, isAlive := true, sessionId := .string "e1", role := some .student,
     readyState := .isOpen },
   { conn := 5, isAlive := true, sessionId := .string "a", role := some .student,
     readyState := .isOpen }]

/-! ## Lemmas on the lookup -/

theorem mem_orderByJoinedAtDesc (x : StudentSession) (l : List StudentSession) :
    x ∈ orderByJoinedAtDesc l ↔ x ∈ l :=
  (List.perm_insertionSort _ l).mem_iff

theorem terminatedTest_iff (s : StudentSession) :
    terminatedTest s = true ↔ isLockoutRecord s := by
  unfold terminatedTest isLockoutRecord
  cases h : s.isActive <;> simp

theorem mem_lookup_rows (st : Store) (sid eid : String) (t : StudentSession) :
    t ∈ orderByJoinedAtDesc (st.studentSessions.filter
      (fun s => s.studentId = sid ∧ s.sessionId = eid)) ↔
    t ∈ st.studentSessions ∧ ofPair sid eid t := by
  rw [mem_orderByJoinedAtDesc, List.mem_filter]
  simp [ofPair]

theorem lookup_find_some (st : Store) (sid eid : String) (p : StudentSession → Bool)
    (d : StudentSessionWithDetails)
    (h : (getStudentSessionsByStudentAndExam st sid eid).find?
      (fun x => p x.toStudentSession) = some d) :
    ∃ t, t ∈ st.studentSessions ∧ ofPair sid eid t ∧ p t = true ∧ d = withDetails st t := by
  unfold getStudentSessionsByStudentAndExam at h
  rw [List.find?_map] at h
  cases hf : (orderByJoinedAtDesc (st.studentSessions.filter
      (fun s => s.studentId = sid ∧ s.sessionId = eid))).find?
      ((fun x => p x.toStudentSession) ∘ withDetails st) with
  | none => rw [hf] at h; simp at h
  | some t =>
    rw [hf] at h
    have hm := List.mem_of_find?_eq_some hf
    have hp := List.find?_some hf
    rw [mem_lookup_rows] at hm
    refine ⟨t, hm.1, hm.2, ?_, ?_⟩
    · simpa [withDetails] using hp
    · simpa using h.symm

theorem lookup_find_none (st : Store) (sid eid : String) (p : StudentSession → Bool) :
    (getStudentSessionsByStudentAndExam st sid eid).find?
      (fun x => p x.toStudentSession) = none ↔
    ∀ t ∈ st.studentSessions, ofPair sid eid t → p t = false := by
  unfold getStudentSessionsByStudentAndExam
  rw [List.find?_map, Option.map_eq_none', List.find?_eq_none]
  constructor
  · intro h t ht hpair
    have := h t ((mem_lookup_rows st sid eid t).2 ⟨ht, hpair⟩)
    simpa [withDetails] using this
  · intro h t ht
    rw [mem_lookup_rows] at ht
    have := h t ht.1 ht.2
    simpa [withDetails] using this

/-! ## Lemmas on statements and handlers -/

theorem commit_ok {new st' : Store} (h : commit new = .ok st') : st' = new ∧ new.WF := by
  unfold commit at h
  split_ifs at h with h1 h2 h3
  simp only [Except.ok.injEq] at h
  exact ⟨h.symm, h1, h2, h3⟩

theorem commit_of_WF {new : Store} (h : new.WF) : commit new = .ok new := by
  unfold commit
  simp [h.1, h.2.1, h.2.2]

theorem createStudent_ok {st st' : Store} {env : Env} {b : InsertStudent} {row : Student}
    (h : createStudent st env b = .ok (row, st')) :
    st' = { st with students := st.students ++ [row] } ∧ st'.WF ∧
      row = { id := env.uuid, name := b.name, email := b.email, createdAt := env.now } := by
  unfold createStudent at h
  simp only at h
  split at h
  · exact absurd h (by simp)
  · rename_i st2 hc
    have := commit_ok hc
    simp only [Except.ok.injEq, Prod.mk.injEq] at h
    obtain ⟨h1, h2⟩ := h
    subst h1 h2
    exact ⟨this.1, this.1 ▸ this.2, rfl⟩

theorem postStudents_sessions (st : Store) (env : Env) (body : Option InsertStudent) :
    (postStudentsHandler st env body).2.studentSessions = st.studentSessions := by
  unfold postStudentsHandler
  cases body with
  | none => rfl
  | some b =>
    simp only
    split
    · rename_i row st' h
      rw [(createStudent_ok h).1]
    · rfl

theorem createExamSession_ok {st st' : Store} {env : Env} {b : InsertExamSession}
    {row : ExamSession} (h : createExamSession st env b = .ok (row, st')) :
    st' = { st with examSessions := st.examSessions ++ [row] } ∧ st'.WF := by
  unfold createExamSession at h
  simp only at h
  split at h
  · exact absurd h (by simp)
  · rename_i st2 hc
    have := commit_ok hc
    simp only [Except.ok.injEq, Prod.mk.injEq] at h
    obtain ⟨h1, h2⟩ := h
    subst h1 h2
    exact ⟨this.1, this.1 ▸ this.2⟩

theorem updateExamSession_ok {st st' : Store} {id : String} {u : PartialExamSession}
    {r : Option ExamSession} (h : updateExamSession st id u = .ok (r, st')) :
    st' = { st with examSessions :=
      st.examSessions.map (fun e => if e.id = id then u.applyTo e else e) } ∧ st'.WF := by
  unfold updateExamSession at h
  simp only at h
  split_ifs at h
  split at h
  · exact absurd h (by simp)
  · rename_i st2 hc
    have := commit_ok hc
    simp only [Except.ok.injEq, Prod.mk.injEq] at h
    obtain ⟨h1, h2⟩ := h
    subst h2
    exact ⟨this.1, this.1 ▸ this.2⟩

theorem createStudentSession_ok {st st' : Store} {env : Env} {b : InsertStudentSession}
    {row : StudentSession} (h : createStudentSession st env b = .ok (row, st')) :
    st' = { st with studentSessions := st.studentSessions ++ [row] } ∧ st'.WF ∧
      row = { id := env.uuid, studentId := b.studentId, sessionId := b.sessionId,
              warningCount := b.warningCount.getD 0, isActive := b.isActive.getD true,
              joinedAt := env.now, leftAt := none } := by
  unfold createStudentSession at h
  simp only at h
  split at h
  · exact absurd h (by simp)
  · rename_i st2 hc
    have := commit_ok hc
    simp only [Except.ok.injEq, Prod.mk.injEq] at h
    obtain ⟨h1, h2⟩ := h
    subst h1 h2
    exact ⟨this.1, this.1 ▸ this.2, rfl⟩

theorem updateStudentSession_ok {st st' : Store} {id : String} {u : PartialStudentSession}
    {r : Option StudentSession} (h : updateStudentSession st id u = .ok (r, st')) :
    st' = { st with studentSessions :=
      st.studentSessions.map (fun s => if s.id = id then u.applyTo s else s) } ∧ st'.WF ∧
      r = ((st.studentSessions.filter (fun s => s.id = id)).map u.applyTo).head? := by
  unfold updateStudentSession at h
  simp only at h
  split_ifs at h
  split at h
  · exact absurd h (by simp)
  · rename_i st2 hc
    have := commit_ok hc
    simp only [Except.ok.injEq, Prod.mk.injEq] at h
    obtain ⟨h1, h2⟩ := h
    subst h2
    exact ⟨this.1, this.1 ▸ this.2, h1.symm⟩

theorem createViolation_ok {st st' : Store} {env : Env} {b : InsertViolation}
    {row : Violation} (h : createViolation st env b = .ok (row, st')) :
    st' = { st with violations := st.violations ++ [row] } ∧ st'.WF ∧
      row = { id := env.uuid, studentSessionId := b.studentSessionId, type := b.type,
              details := b.details, timestamp := env.now } := by
  unfold createViolation at h
  simp only at h
  split at h
  · exact absurd h (by simp)
  · rename_i st2 hc
    have := commit_ok hc
    simp only [Except.ok.injEq, Prod.mk.injEq] at h
    obtain ⟨h1, h2⟩ := h
    subst h1 h2
    exact ⟨this.1, this.1 ▸ this.2, rfl⟩

theorem postExamSessions_sessions (st : Store) (env : Env) (body : Option InsertExamSession) :
    (postExamSessionsHandler st env body).2.studentSessions = st.studentSessions := by
  unfold postExamSessionsHandler
  cases body with
  | none => rfl
  | some b =>
    simp only
    split
    · rename_i row st' h
      rw [(createExamSession_ok h).1]
    · rfl

theorem patchExamSession_sessions (st : Store) (id : String) (body : PartialExamSession) :
    (patchExamSessionHandler st id body).2.studentSessions = st.studentSessions := by
  unfold patchExamSessionHandler
  split
  · rename_i row st' h
    rw [(updateExamSession_ok h).1]
  · rename_i st' h
    rw [(updateExamSession_ok h).1]
  · rfl

theorem postViolations_sessions (st : Store) (clients : List WebSocketClient) (env : Env)
    (body : Option InsertViolation) :
    (postViolationsHandler st clients env body).2.1.studentSessions = st.studentSessions := by
  unfold postViolationsHandler
  cases body with
  | none => rfl
  | some b =>
    simp only
    split
    · rename_i row st' h
      rw [(createViolation_ok h).1]
    · rfl

theorem incrementWarningCount_ok {st st' : Store} {id : String} {r : Option StudentSession}
    (h : incrementWarningCount st id = .ok (r, st')) :
    st' = updateRow st id bumpWarning ∧
    r = ((st.studentSessions.filter (fun s => s.id = id)).map bumpWarning).head? ∧
    ∀ s ∈ st.studentSessions, s.id = id → s.warningCount + 1 ≤ int4Max := by
  unfold incrementWarningCount at h
  simp only at h
  split_ifs at h with hfull
  simp only [Except.ok.injEq, Prod.mk.injEq] at h
  refine ⟨h.2.symm, h.1.symm, ?_⟩
  intro s hs hid
  by_contra hlt
  exact hfull ⟨s, hs, hid, by omega⟩

theorem incrementWarningCount_room (st : Store) (id : String)
    (hroom : ∀ s ∈ st.studentSessions, s.id = id → s.warningCount + 1 ≤ int4Max) :
    incrementWarningCount st id =
      .ok (((st.studentSessions.filter (fun s => s.id = id)).map bumpWarning).head?,
        updateRow st id bumpWarning) := by
  unfold incrementWarningCount
  simp only
  rw [if_neg]
  · rfl
  · rintro ⟨s, hs, hid, hlt⟩
    have := hroom s hs hid
    omega

theorem incrementWarningCount_full (st : Store) (s : StudentSession)
    (hs : s ∈ st.studentSessions) (hfull : int4Max ≤ s.warningCount) :
    incrementWarningCount st s.id = .error .integerRange := by
  unfold incrementWarningCount
  simp only
  rw [if_pos]
  exact ⟨s, hs, rfl, by omega⟩

theorem postWarning_store (st : Store) (id : String) :
    (postWarningHandler st id).2 = st ∨
    (postWarningHandler st id).2 = updateRow st id bumpWarning := by
  unfold postWarningHandler
  split
  · rename_i row st' h
    exact Or.inr (incrementWarningCount_ok h).1
  · rename_i st' h
    exact Or.inr (incrementWarningCount_ok h).1
  · exact Or.inl rfl

theorem postWarning_sessions (st : Store) (id : String) :
    (postWarningHandler st id).2.studentSessions = st.studentSessions ∨
    (postWarningHandler st id).2.studentSessions =
      st.studentSessions.map (fun s => if s.id = id then bumpWarning s else s) := by
  rcases postWarning_store st id with h | h
  · exact Or.inl (by rw [h])
  · exact Or.inr (by rw [h]; rfl)

theorem patchStudentSession_sessions (st : Store) (id : String) (body : PartialStudentSession) :
    (patchStudentSessionHandler st id body).2.studentSessions = st.studentSessions ∨
    (patchStudentSessionHandler st id body).2.studentSessions =
      st.studentSessions.map (fun s => if s.id = id then body.applyTo s else s) := by
  unfold patchStudentSessionHandler
  split
  · rename_i row st' h
    right
    rw [(updateStudentSession_ok h).1]
  · rename_i st' h
    right
    rw [(updateStudentSession_ok h).1]
  · left; rfl

theorem postStudentSessions_sessions (st : Store) (env : Env)
    (body : Option InsertStudentSession) :
    (postStudentSessionsHandler st env body).2.studentSessions = st.studentSessions ∨
    ∃ b, body = some b ∧ (postStudentSessionsHandler st env body).2.studentSessions =
      st.studentSessions ++
        [{ id := env.uuid, studentId := b.studentId, sessionId := b.sessionId,
           warningCount := b.warningCount.getD 0, isActive := b.isActive.getD true,
           joinedAt := env.now, leftAt := none }] := by
  unfold postStudentSessionsHandler
  cases body with
  | none => left; rfl
  | some b =>
    simp only
    split
    · left; rfl
    · split
      · rename_i row st' h
        right
        refine ⟨b, rfl, ?_⟩
        rw [(createStudentSession_ok h).1, (createStudentSession_ok h).2.2]
      · left; rfl

theorem join_of_lockedOut (st : Store) (env : Env) (body : InsertStudentSession)
    (h : lockedOut st body.studentId body.sessionId) :
    ∃ t, t ∈ st.studentSessions ∧ ofPair body.studentId body.sessionId t ∧
      isLockoutRecord t ∧
      postStudentSessionsHandler st env (some body) =
        ({ status := 403,
           body := .terminated "Student has been terminated from this exam due to violations"
             true (withDetails st t) }, st) := by
  obtain ⟨s, hs, h1, h2, h3, h4⟩ := h
  cases hf : (getStudentSessionsByStudentAndExam st body.studentId body.sessionId).find?
      (fun x => terminatedTest x.toStudentSession) with
  | none =>
    have h := (lookup_find_none st _ _ terminatedTest).1 hf s hs ⟨h1, h2⟩
    rw [(terminatedTest_iff s).2 ⟨h3, h4⟩] at h
    exact absurd h (by decide)
  | some d =>
    obtain ⟨t, ht, htp, htt, hd⟩ := lookup_find_some st _ _ terminatedTest d hf
    refine ⟨t, ht, htp, (terminatedTest_iff t).1 htt, ?_⟩
    have hf2 : (getStudentSessionsByStudentAndExam st body.studentId body.sessionId).find?
        (fun s => !s.isActive && decide (s.warningCount ≥ 3)) = some d := hf
    simp only [postStudentSessionsHandler, hf2, hd]

theorem lockedOut_of_map (st st' : Store) (sid eid : String) (f : StudentSession → StudentSession)
    (hmap : st'.studentSessions = st.studentSessions.map f)
    (hf : ∀ s, ofPair sid eid s → isLockoutRecord s → ofPair sid eid (f s) ∧ isLockoutRecord (f s))
    (h : lockedOut st sid eid) : lockedOut st' sid eid := by
  obtain ⟨s, hs, h1, h2, h3, h4⟩ := h
  have := hf s ⟨h1, h2⟩ ⟨h3, h4⟩
  refine ⟨f s, ?_, this.1.1, this.1.2, this.2.1, this.2.2⟩
  rw [hmap]
  exact List.mem_map_of_mem f hs

theorem lockedOut_of_eq (st st' : Store) (sid eid : String)
    (heq : st'.studentSessions = st.studentSessions)
    (h : lockedOut st sid eid) : lockedOut st' sid eid := by
  unfold lockedOut
  rw [heq]
  exact h

theorem applyTo_keepsLockout (u : PartialStudentSession) (hu : keepsLockout u)
    (sid eid : String) (s : StudentSession) (hp : ofPair sid eid s) (hl : isLockoutRecord s) :
    ofPair sid eid (u.applyTo s) ∧ isLockoutRecord (u.applyTo s) := by
  obtain ⟨h1, h2, h3, h4⟩ := hu
  unfold ofPair isLockoutRecord PartialStudentSession.applyTo at *
  simp only [h1, h2, Option.getD_none]
  refine ⟨hp, ?_, ?_⟩
  · cases ha : u.isActive with
    | none => simpa using hl.1
    | some b =>
      cases b with
      | false => rfl
      | true => exact absurd ha h3
  · cases hw : u.warningCount with
    | none => simpa using hl.2
    | some w => simpa using h4 w (by simp [hw])

theorem lockedOut_serve (st : Store) (r : Request) (hr : r.keepsLockout) (sid eid : String)
    (h : lockedOut st sid eid) : lockedOut (serve st r).2 sid eid := by
  cases r with
  | postStudents env body => exact lockedOut_of_eq _ _ _ _ (postStudents_sessions st env body) h
  | postExamSessions env body =>
    exact lockedOut_of_eq _ _ _ _ (postExamSessions_sessions st env body) h
  | patchExamSession id body =>
    exact lockedOut_of_eq _ _ _ _ (patchExamSession_sessions st id body) h
  | postViolations clients env body =>
    exact lockedOut_of_eq _ _ _ _ (postViolations_sessions st clients env body) h
  | postWarning id =>
    rcases postWarning_sessions st id with h1 | h1
    · exact lockedOut_of_eq _ _ _ _ h1 h
    · refine lockedOut_of_map st _ sid eid _ h1 ?_ h
      intro s hp hl
      by_cases hid : s.id = id
      · simp only [hid, if_true]
        refine ⟨hp, hl.1, ?_⟩
        have := hl.2
        simp only [bumpWarning]
        omega
      · simp only [hid, if_false]
        exact ⟨hp, hl⟩
  | patchStudentSession id body =>
    rcases patchStudentSession_sessions st id body with h1 | h1
    · exact lockedOut_of_eq _ _ _ _ h1 h
    · refine lockedOut_of_map st _ sid eid _ h1 ?_ h
      intro s hp hl
      by_cases hid : s.id = id
      · simp only [hid, if_true]
        exact applyTo_keepsLockout body hr sid eid s hp hl
      · simp only [hid, if_false]
        exact ⟨hp, hl⟩
  | postStudentSessions env body =>
    rcases postStudentSessions_sessions st env body with h1 | ⟨b, _, h1⟩
    · exact lockedOut_of_eq _ _ _ _ h1 h
    · obtain ⟨s, hs, h2⟩ := h
      refine ⟨s, ?_, h2⟩
      show s ∈ (postStudentSessionsHandler st env body).2.studentSessions
      rw [h1]
      exact List.mem_append_left _ hs

theorem lockedOut_serveAll (reqs : List Request) :
    ∀ (st : Store) (sid eid : String), (∀ r ∈ reqs, r.keepsLockout) →
      lockedOut st sid eid → lockedOut (serveAll st reqs) sid eid := by
  induction reqs with
  | nil => intro st sid eid _ h; exact h
  | cons r rest ih =>
    intro st sid eid hr h
    show lockedOut (serveAll (serve st r).2 rest) sid eid
    exact ih _ sid eid (fun x hx => hr x (List.mem_cons_of_mem _ hx))
      (lockedOut_serve st r (hr r (List.mem_cons_self _ _)) sid eid h)

theorem lookupHandler_ok (st : Store) (sid eid : String) (hsid : sid ≠ "") (heid : eid ≠ "") :
    getStudentSessionsByStudentExamHandler st (some sid) (some eid) =
      { status := 200, body := .studentSessions (getStudentSessionsByStudentAndExam st sid eid) } := by
  simp [getStudentSessionsByStudentExamHandler, hsid, heid]

theorem initSessionJoin_eq (c : ClientState) (st : Store) (env : Env) (sid : String)
    (hsid : sid ≠ "") (heid : c.sessionId ≠ "") :
    initSessionJoin c st env sid =
      match (getStudentSessionsByStudentAndExam st sid c.sessionId).find?
          (fun x => terminatedTest x.toStudentSession) with
      | some _ => (accessDenied c, st)
      | none =>
        match (getStudentSessionsByStudentAndExam st sid c.sessionId).find?
            (fun x => x.toStudentSession.isActive) with
        | some activeSession =>
          ({ c with studentSessionId := activeSession.id,
                    localStorage :=
                      setItem c.localStorage (cacheKey c.sessionId) activeSession.id }, st)
        | none => initSessionCreate c st env sid := by
  unfold initSessionJoin
  rw [lookupHandler_ok st sid c.sessionId hsid heid]
  rfl

theorem terminated_find_none (st : Store) (sid eid : String) (hfree : ¬ lockedOut st sid eid) :
    (getStudentSessionsByStudentAndExam st sid eid).find?
      (fun x => terminatedTest x.toStudentSession) = none := by
  rw [lookup_find_none]
  intro t ht hp
  cases htt : terminatedTest t with
  | false => rfl
  | true =>
    have hl := (terminatedTest_iff t).1 htt
    exact absurd ⟨t, ht, hp.1, hp.2, hl.1, hl.2⟩ hfree

theorem postStudentSessions_free (st : Store) (env : Env) (b : InsertStudentSession)
    (hfree : ¬ lockedOut st b.studentId b.sessionId) :
    postStudentSessionsHandler st env (some b) =
      match createStudentSession st env b with
      | .ok (session, st') => ({ status := 201, body := .studentSession session }, st')
      | .error e => ({ status := 400, body := .error e.message }, st) := by
  have hf : (getStudentSessionsByStudentAndExam st b.studentId b.sessionId).find?
      (fun s => !s.isActive && decide (s.warningCount ≥ 3)) = none :=
    terminated_find_none st _ _ hfree
  simp only [postStudentSessionsHandler, hf]

/-- The body of the join request that `initSession` sends. -/
theorem initSessionCreate_cases (c : ClientState) (st : Store) (env : Env) (sid : String)
    (hfree : ¬ lockedOut st sid c.sessionId) :
    (∃ row st', createStudentSession st env
        { studentId := sid, sessionId := c.sessionId, warningCount := some 0,
          isActive := some true } = .ok (row, st') ∧
      initSessionCreate c st env sid =
        ({ c with studentSessionId := row.id,
                  localStorage := setItem c.localStorage (cacheKey c.sessionId) row.id },
          st')) ∨
    ((∃ e, createStudentSession st env
        { studentId := sid, sessionId := c.sessionId, warningCount := some 0,
          isActive := some true } = .error e) ∧
      initSessionCreate c st env sid = (initFailed c, st)) := by
  unfold initSessionCreate
  rw [postStudentSessions_free st env _ hfree]
  cases h : createStudentSession st env
      { studentId := sid, sessionId := c.sessionId, warningCount := some 0,
        isActive := some true } with
  | error e =>
    right
    exact ⟨⟨e, rfl⟩, by simp [apiRequestOk]⟩
  | ok p =>
    left
    obtain ⟨row, st'⟩ := p
    exact ⟨row, st', rfl, by simp [apiRequestOk]⟩

theorem storedStudent_sessionId (emailOf : String → String) (c : ClientState) (st : Store) :
    (storedStudent emailOf c st).2.sessionId = c.sessionId := by
  unfold storedStudent
  simp only
  split_ifs
  · split <;> rfl
  · rfl

theorem postStudents_created (st : Store) (env : Env) (b : InsertStudent) (student : Student)
    (h : (postStudentsHandler st env (some b)).1.body = .student student) :
    student.id = env.uuid := by
  unfold postStudentsHandler at h
  simp only at h
  split at h
  · rename_i row st' hc
    simp only [Payload.student.injEq] at h
    rw [← h, (createStudent_ok hc).2.2]
  · simp at h

theorem initSessionStudent_spec (emailOf : String → String) (c : ClientState) (st : Store)
    (env : Env) (huuid : env.uuid ≠ "") :
    (initSessionStudent emailOf c st env).2.2.studentSessions = st.studentSessions ∧
    (initSessionStudent emailOf c st env).2.1.sessionId = c.sessionId ∧
    ∀ sid, (initSessionStudent emailOf c st env).1 = some sid → sid ≠ "" := by
  have hs := storedStudent_sessionId emailOf c st
  have hp := postStudents_sessions st env
    (some { name := studentNameOf c, email := emailOf (studentNameOf c) })
  unfold initSessionStudent
  simp only
  split_ifs with h1 h2
  · split
    · rename_i student hb
      refine ⟨hp, hs, ?_⟩
      intro sid hsid
      simp only [Option.some.injEq] at hsid
      rw [← hsid, postStudents_created st env _ student hb]
      exact huuid
    · exact ⟨hp, hs, fun sid h => by simp at h⟩
  · exact ⟨hp, hs, fun sid h => by simp at h⟩
  · refine ⟨rfl, hs, ?_⟩
    intro sid hsid
    simp only [Option.some.injEq] at hsid
    rw [← hsid]
    exact h1

theorem initSessionJoin_sessions (c : ClientState) (st : Store) (env : Env) (sid : String)
    (hsid : sid ≠ "") (heid : c.sessionId ≠ "") :
    (initSessionJoin c st env sid).2.studentSessions = st.studentSessions ∨
    ∃ row, (initSessionJoin c st env sid).2.studentSessions = st.studentSessions ++ [row] ∧
      ∀ a ∈ st.studentSessions, a.studentId = row.studentId → a.sessionId = row.sessionId →
        a.isActive = false := by
  rw [initSessionJoin_eq c st env sid hsid heid]
  cases hft : (getStudentSessionsByStudentAndExam st sid c.sessionId).find?
      (fun x => terminatedTest x.toStudentSession) with
  | some d => left; rfl
  | none =>
    simp only
    cases hfa : (getStudentSessionsByStudentAndExam st sid c.sessionId).find?
        (fun x => x.toStudentSession.isActive) with
    | some d => left; rfl
    | none =>
      simp only
      have hfree : ¬ lockedOut st sid c.sessionId := by
        rintro ⟨t, ht, ht1, ht2, ht3, ht4⟩
        have := (lookup_find_none st sid c.sessionId terminatedTest).1 hft t ht ⟨ht1, ht2⟩
        rw [(terminatedTest_iff t).2 ⟨ht3, ht4⟩] at this
        exact absurd this (by decide)
      have hnone := (lookup_find_none st sid c.sessionId (fun s => s.isActive)).1 hfa
      rcases initSessionCreate_cases c st env sid hfree with ⟨row, st', hc, hr⟩ | ⟨_, hr⟩
      · right
        obtain ⟨hst', _, hrow⟩ := createStudentSession_ok hc
        refine ⟨row, ?_, ?_⟩
        · rw [hr, hst']
        · intro a ha h1 h2
          rw [hrow] at h1 h2
          exact hnone a ha ⟨h1, h2⟩
      · left
        rw [hr]

theorem initSessionFresh_sessions (emailOf : String → String) (c : ClientState) (st : Store)
    (envStudent envSession : Env) (huuid : envStudent.uuid ≠ "") (heid : c.sessionId ≠ "") :
    (initSessionFresh emailOf c st envStudent envSession).2.studentSessions =
      st.studentSessions ∨
    ∃ row, (initSessionFresh emailOf c st envStudent envSession).2.studentSessions =
        st.studentSessions ++ [row] ∧
      ∀ a ∈ st.studentSessions, a.studentId = row.studentId → a.sessionId = row.sessionId →
        a.isActive = false := by
  have hspec := initSessionStudent_spec emailOf c st envStudent huuid
  unfold initSessionFresh
  split
  · rename_i sid c2 st2 hst
    rw [hst] at hspec
    simp only at hspec
    obtain ⟨hs1, hs2, hs3⟩ := hspec
    have hc2 : c2.sessionId ≠ "" := by rw [hs2]; exact heid
    have := initSessionJoin_sessions c2 st2 envSession sid (hs3 sid rfl) hc2
    rw [hs1] at this
    exact this
  · rename_i c2 st2 hst
    left
    rw [hst] at hspec
    exact hspec.1

theorem initSession_sessions (emailOf : String → String) (c : ClientState) (st : Store)
    (envStudent envSession : Env) (huuid : envStudent.uuid ≠ "") :
    (initSession emailOf c st envStudent envSession).2.studentSessions = st.studentSessions ∨
    ∃ row, (initSession emailOf c st envStudent envSession).2.studentSessions =
        st.studentSessions ++ [row] ∧
      ∀ a ∈ st.studentSessions, a.studentId = row.studentId → a.sessionId = row.sessionId →
        a.isActive = false := by
  unfold initSession
  by_cases h1 : c.sessionId = ""
  · left
    simp only [h1, if_true]
  · simp only [h1, if_false]
    split_ifs with h2 h3
    · left
      split
      · split_ifs <;> rfl
      · rfl
      · rfl
    · exact initSessionFresh_sessions emailOf _ st envStudent envSession huuid h1
    · exact initSessionFresh_sessions emailOf _ st envStudent envSession huuid h1

theorem noTwoActive_append (l : List StudentSession) (row : StudentSession)
    (h : noTwoActive l)
    (hrow : ∀ a ∈ l, a.studentId = row.studentId → a.sessionId = row.sessionId →
      a.isActive = false) : noTwoActive (l ++ [row]) := by
  unfold noTwoActive at *
  rw [List.pairwise_append]
  refine ⟨h, List.pairwise_singleton _ _, ?_⟩
  intro a ha b hb
  rw [List.mem_singleton] at hb
  subst hb
  rintro ⟨h1, _, h3, h4⟩
  rw [hrow a ha h3 h4] at h1
  exact absurd h1 (by decide)

theorem noTwoActive_map (l : List StudentSession) (f : StudentSession → StudentSession)
    (hf : ∀ s, (f s).studentId = s.studentId ∧ (f s).sessionId = s.sessionId ∧
      ((f s).isActive = true → s.isActive = true))
    (h : noTwoActive l) : noTwoActive (l.map f) := by
  unfold noTwoActive at *
  rw [List.pairwise_map]
  refine h.imp ?_
  intro a b hab
  rintro ⟨h1, h2, h3, h4⟩
  refine hab ⟨(hf a).2.2 h1, (hf b).2.2 h2, ?_, ?_⟩
  · rw [← (hf a).1, ← (hf b).1]; exact h3
  · rw [← (hf a).2.1, ← (hf b).2.1]; exact h4

theorem applyTo_neverActivates (u : PartialStudentSession) (hu : neverActivates u)
    (s : StudentSession) :
    (u.applyTo s).studentId = s.studentId ∧ (u.applyTo s).sessionId = s.sessionId ∧
      ((u.applyTo s).isActive = true → s.isActive = true) := by
  obtain ⟨h1, h2, h3⟩ := hu
  unfold PartialStudentSession.applyTo
  simp only [h1, h2, Option.getD_none, true_and]
  cases ha : u.isActive with
  | none => simp
  | some b =>
    cases b with
    | false => simp
    | true => exact absurd ha h3

theorem noTwoActive_serve (st : Store) (r : Request) (hr : r.besideJoin)
    (h : noTwoActive st.studentSessions) : noTwoActive (serve st r).2.studentSessions := by
  cases r with
  | postStudents env body =>
    show noTwoActive (postStudentsHandler st env body).2.studentSessions
    rw [postStudents_sessions]; exact h
  | postExamSessions env body =>
    show noTwoActive (postExamSessionsHandler st env body).2.studentSessions
    rw [postExamSessions_sessions]; exact h
  | patchExamSession id body =>
    show noTwoActive (patchExamSessionHandler st id body).2.studentSessions
    rw [patchExamSession_sessions]; exact h
  | postViolations clients env body =>
    show noTwoActive (postViolationsHandler st clients env body).2.1.studentSessions
    rw [postViolations_sessions]; exact h
  | postWarning id =>
    show noTwoActive (postWarningHandler st id).2.studentSessions
    rcases postWarning_sessions st id with h1 | h1
    · rw [h1]; exact h
    · rw [h1]
      refine noTwoActive_map _ _ ?_ h
      intro s
      by_cases hid : s.id = id
      · rw [if_pos hid]
        exact ⟨rfl, rfl, fun hx => hx⟩
      · rw [if_neg hid]
        exact ⟨rfl, rfl, fun hx => hx⟩
  | patchStudentSession id body =>
    show noTwoActive (patchStudentSessionHandler st id body).2.studentSessions
    rcases patchStudentSession_sessions st id body with h1 | h1
    · rw [h1]; exact h
    · rw [h1]
      refine noTwoActive_map _ _ ?_ h
      intro s
      by_cases hid : s.id = id
      · rw [if_pos hid]
        exact applyTo_neverActivates body hr s
      · rw [if_neg hid]
        exact ⟨rfl, rfl, fun hx => hx⟩
  | postStudentSessions env body => exact absurd hr (by simp [Request.besideJoin])

theorem noTwoActive_pageStep (st : Store) (p : PageStep) (hp : p.ok)
    (h : noTwoActive st.studentSessions) : noTwoActive (pageStep st p).studentSessions := by
  cases p with
  | request r => exact noTwoActive_serve st r hp h
  | initSession emailOf c envStudent envSession =>
    show noTwoActive (initSession emailOf c st envStudent envSession).2.studentSessions
    rcases initSession_sessions emailOf c st envStudent envSession hp with h1 | ⟨row, h1, h2⟩
    · rw [h1]; exact h
    · rw [h1]; exact noTwoActive_append _ row h h2

theorem noTwoActive_pageRun (steps : List PageStep) :
    ∀ st : Store, (∀ p ∈ steps, p.ok) → noTwoActive st.studentSessions →
      noTwoActive (pageRun st steps).studentSessions := by
  induction steps with
  | nil => intro st _ h; exact h
  | cons p rest ih =>
    intro st hok h
    show noTwoActive (pageRun (pageStep st p) rest).studentSessions
    exact ih _ (fun x hx => hok x (List.mem_cons_of_mem _ hx))
      (noTwoActive_pageStep st p (hok p (List.mem_cons_self _ _)) h)

theorem activeCount_le_one (st : Store) (h : noTwoActive st.studentSessions)
    (sid eid : String) : activeCount st sid eid ≤ 1 := by
  unfold activeCount
  have hp := List.Pairwise.filter
    (fun s : StudentSession => decide (s.studentId = sid ∧ s.sessionId = eid ∧ s.isActive = true)) h
  have hall : ∀ x ∈ st.studentSessions.filter
      (fun s => decide (s.studentId = sid ∧ s.sessionId = eid ∧ s.isActive = true)),
      x.studentId = sid ∧ x.sessionId = eid ∧ x.isActive = true := by
    intro x hx
    simpa using (List.mem_filter.1 hx).2
  generalize st.studentSessions.filter
    (fun s => decide (s.studentId = sid ∧ s.sessionId = eid ∧ s.isActive = true)) = l at hp hall
  match l, hp, hall with
  | [], _, _ => simp
  | [_], _, _ => simp
  | a :: b :: rest, hp, hall =>
    have ha := hall a (by simp)
    have hb := hall b (by simp)
    have := (List.pairwise_cons.1 hp).1 b (by simp)
    exact absurd ⟨ha.2.2, hb.2.2, ha.1.trans hb.1.symm, ha.2.1.trans hb.2.1.symm⟩ this

theorem WF_append_session (st : Store) (row : StudentSession) (h : st.WF)
    (hstudent : row.studentId ∈ st.students.map (fun x => x.id))
    (hexam : row.sessionId ∈ st.examSessions.map (fun e => e.id))
    (hfresh : row.id ∉ st.studentSessions.map (fun s => s.id)) :
    Store.WF { st with studentSessions := st.studentSessions ++ [row] } := by
  obtain ⟨⟨p1, p2, p3, p4⟩, hu, f1, f2, f3⟩ := h
  refine ⟨⟨p1, p2, ?_, p4⟩, hu, ?_, ?_, ?_⟩
  · simp only [List.map_append, List.map_cons, List.map_nil]
    rw [List.nodup_append]
    refine ⟨p3, List.nodup_singleton _, ?_⟩
    intro a ha hb
    rw [List.mem_singleton] at hb
    exact hfresh (hb ▸ ha)
  · intro s hs
    rcases List.mem_append.1 hs with hs | hs
    · exact f1 s hs
    · rw [List.mem_singleton] at hs
      rw [hs]; exact hstudent
  · intro s hs
    rcases List.mem_append.1 hs with hs | hs
    · exact f2 s hs
    · rw [List.mem_singleton] at hs
      rw [hs]; exact hexam
  · intro v hv
    simp only [List.map_append]
    exact List.mem_append_left _ (f3 v hv)

theorem eq_of_id_eq (l : List StudentSession) (hnd : (l.map (fun s => s.id)).Nodup)
    (x y : StudentSession) (hx : x ∈ l) (hy : y ∈ l) (h : x.id = y.id) : x = y :=
  List.inj_on_of_nodup_map hnd hx hy h

theorem filter_id_head (l : List StudentSession) (hnd : (l.map (fun s => s.id)).Nodup)
    (s : StudentSession) (hs : s ∈ l) :
    (l.filter (fun x => x.id = s.id)).head? = some s := by
  induction l with
  | nil => simp at hs
  | cons a rest ih =>
    by_cases ha : a.id = s.id
    · have : a = s := eq_of_id_eq _ hnd a s (List.mem_cons_self _ _) hs ha
      simp [this]
    · have hne : s ≠ a := fun h => ha (by rw [h])
      have hs' : s ∈ rest := by
        rcases List.mem_cons.1 hs with h | h
        · exact absurd h hne
        · exact h
      have hnd' : (rest.map (fun s => s.id)).Nodup := by
        simp only [List.map_cons, List.nodup_cons] at hnd
        exact hnd.2
      simp [ha, ih hnd' hs']

theorem map_if_id (l : List StudentSession) (hnd : (l.map (fun s => s.id)).Nodup)
    (s : StudentSession) (hs : s ∈ l) (f : StudentSession → StudentSession) :
    l.map (fun x => if x.id = s.id then f x else x) =
      l.map (fun x => if x = s then f s else x) := by
  apply List.map_congr_left
  intro x hx
  by_cases h : x.id = s.id
  · have := eq_of_id_eq l hnd x s hx hs h
    simp [this]
  · have hne : x ≠ s := fun e => h (by rw [e])
    simp [h, hne]

theorem WF_updateRow (st : Store) (id : String) (f : StudentSession → StudentSession)
    (hf : ∀ s, (f s).id = s.id ∧ (f s).studentId = s.studentId ∧ (f s).sessionId = s.sessionId)
    (h : st.WF) : (updateRow st id f).WF := by
  obtain ⟨⟨p1, p2, p3, p4⟩, hu, f1, f2, f3⟩ := h
  have hids : (updateRow st id f).studentSessions.map (fun s => s.id) =
      st.studentSessions.map (fun s => s.id) := by
    unfold updateRow
    simp only [List.map_map]
    apply List.map_congr_left
    intro x _
    by_cases hx : x.id = id
    · simp [hx, (hf x).1]
    · simp [hx]
  have hmem : ∀ s ∈ (updateRow st id f).studentSessions, ∃ a ∈ st.studentSessions,
      s.studentId = a.studentId ∧ s.sessionId = a.sessionId := by
    intro s hs
    unfold updateRow at hs
    obtain ⟨a, ha, rfl⟩ := List.mem_map.1 hs
    refine ⟨a, ha, ?_⟩
    by_cases hx : a.id = id
    · rw [if_pos hx]; exact ⟨(hf a).2.1, (hf a).2.2⟩
    · rw [if_neg hx]; exact ⟨rfl, rfl⟩
  refine ⟨⟨p1, p2, ?_, p4⟩, hu, ?_, ?_, ?_⟩
  · rw [hids]; exact p3
  · intro s hs
    obtain ⟨a, ha, h1, _⟩ := hmem s hs
    rw [h1]; exact f1 a ha
  · intro s hs
    obtain ⟨a, ha, _, h2⟩ := hmem s hs
    rw [h2]; exact f2 a ha
  · intro v hv
    rw [hids]; exact f3 v hv

theorem WF_withViolation (st : Store) (v : Violation) (h : st.WF)
    (hsession : v.studentSessionId ∈ st.studentSessions.map (fun s => s.id))
    (hfresh : v.id ∉ st.violations.map (fun x => x.id)) : (withViolation st v).WF := by
  obtain ⟨⟨p1, p2, p3, p4⟩, hu, f1, f2, f3⟩ := h
  refine ⟨⟨p1, p2, p3, ?_⟩, hu, f1, f2, ?_⟩
  · unfold withViolation
    simp only [List.map_append, List.map_cons, List.map_nil]
    rw [List.nodup_append]
    refine ⟨p4, List.nodup_singleton _, ?_⟩
    intro a ha hb
    rw [List.mem_singleton] at hb
    exact hfresh (hb ▸ ha)
  · intro x hx
    rcases List.mem_append.1 hx with hx | hx
    · exact f3 x hx
    · rw [List.mem_singleton] at hx
      rw [hx]; exact hsession

theorem mem_updateRow (st : Store) (s : StudentSession) (f : StudentSession → StudentSession)
    (hs : s ∈ st.studentSessions) : f s ∈ (updateRow st s.id f).studentSessions := by
  unfold updateRow
  have := List.mem_map_of_mem (fun x => if x.id = s.id then f x else x) hs
  simpa using this

theorem postViolations_found (st : Store) (clients : List WebSocketClient) (env : Env)
    (b : InsertViolation) (h : st.WF)
    (hsession : b.studentSessionId ∈ st.studentSessions.map (fun s => s.id))
    (hfresh : env.uuid ∉ st.violations.map (fun x => x.id)) :
    postViolationsHandler st clients env (some b) =
      ({ status := 201, body := .violation (violationRow env b) },
       withViolation st (violationRow env b),
       broadcastViolationCreated clients (violationRow env b)) := by
  have hwf := WF_withViolation st (violationRow env b) h hsession hfresh
  unfold postViolationsHandler createViolation
  simp only
  have hc := commit_of_WF hwf
  unfold withViolation violationRow at hc
  rw [hc]
  rfl

theorem increment_found (st : Store) (s : StudentSession)
    (hnd : (st.studentSessions.map (fun x => x.id)).Nodup) (hs : s ∈ st.studentSessions)
    (hroom : s.warningCount + 1 ≤ int4Max) :
    incrementWarningCount st s.id = .ok (some (bumpWarning s), updateRow st s.id bumpWarning) := by
  rw [incrementWarningCount_room st s.id, List.head?_map, filter_id_head _ hnd s hs]
  · rfl
  · intro x hx hid
    rw [eq_of_id_eq _ hnd x s hx hs hid]
    exact hroom

theorem postWarning_found (st : Store) (s : StudentSession)
    (hnd : (st.studentSessions.map (fun x => x.id)).Nodup) (hs : s ∈ st.studentSessions)
    (hroom : s.warningCount + 1 ≤ int4Max) :
    postWarningHandler st s.id =
      ({ status := 200, body := .studentSession (bumpWarning s) },
       updateRow st s.id bumpWarning) := by
  unfold postWarningHandler
  rw [increment_found st s hnd hs hroom]

theorem postWarning_full (st : Store) (s : StudentSession) (hs : s ∈ st.studentSessions)
    (hfull : int4Max ≤ s.warningCount) :
    postWarningHandler st s.id =
      ({ status := 500, body := .error "integer out of range" }, st) := by
  unfold postWarningHandler
  rw [incrementWarningCount_full st s hs hfull]
  rfl

theorem getStudentSession_found (st : Store) (s : StudentSession)
    (hnd : (st.studentSessions.map (fun x => x.id)).Nodup) (hs : s ∈ st.studentSessions) :
    getStudentSession st s.id = some (withDetails st s) := by
  unfold getStudentSession
  rw [List.head?_map, filter_id_head _ hnd s hs]
  rfl

theorem update_found (st : Store) (s : StudentSession) (u : PartialStudentSession)
    (h : st.WF) (hs : s ∈ st.studentSessions)
    (hu : u.id = none ∧ u.studentId = none ∧ u.sessionId = none)
    (hvalues : u.isEmpty = false)
    (htime : TimeInput.refused u.joinedAt = false ∧ TimeInput.refused u.leftAt = false)
    (hjoined : u.joinedAt ≠ some .null) (hint : ∀ w ∈ u.warningCount, inInt4 w) :
    updateStudentSession st s.id u =
      .ok (some (u.applyTo s), updateRow st s.id u.applyTo) := by
  have hwf : (updateRow st s.id u.applyTo).WF := by
    apply WF_updateRow _ _ _ _ h
    intro x
    unfold PartialStudentSession.applyTo
    simp [hu.1, hu.2.1, hu.2.2]
  have hc := commit_of_WF hwf
  unfold updateRow at hc
  unfold updateStudentSession
  simp only
  rw [if_neg (by simp [hvalues]), if_neg (by simp [htime.1, htime.2]),
    if_neg (by simpa using hint), if_neg (by simp [hjoined]), hc, List.head?_map,
    filter_id_head _ h.1.2.2.1 s hs]
  rfl

theorem patch_found (st : Store) (s : StudentSession) (u : PartialStudentSession)
    (h : st.WF) (hs : s ∈ st.studentSessions)
    (hu : u.id = none ∧ u.studentId = none ∧ u.sessionId = none)
    (hvalues : u.isEmpty = false)
    (htime : TimeInput.refused u.joinedAt = false ∧ TimeInput.refused u.leftAt = false)
    (hjoined : u.joinedAt ≠ some .null) (hint : ∀ w ∈ u.warningCount, inInt4 w) :
    patchStudentSessionHandler st s.id u =
      ({ status := 200, body := .studentSession (u.applyTo s) },
       updateRow st s.id u.applyTo) := by
  unfold patchStudentSessionHandler
  rw [update_found st s u h hs hu hvalues htime hjoined hint]

theorem update_refused (st : Store) (id : String) (u : PartialStudentSession)
    (hvalues : u.isEmpty = false)
    (htext : (TimeInput.refused u.joinedAt || TimeInput.refused u.leftAt) = true) :
    updateStudentSession st id u = .error .encoder := by
  unfold updateStudentSession
  simp only
  rw [if_neg (by simp [hvalues]), if_pos htext]

theorem patch_closeBody (st : Store) (id : String) (now : Timestamp) :
    patchStudentSessionHandler st id (closeBody now) =
      ({ status := 500, body := .error "value.toISOString is not a function" }, st) := by
  unfold patchStudentSessionHandler
  rw [update_refused st id (closeBody now) rfl rfl]
  rfl

theorem bumpWarning_keys (s : StudentSession) :
    (bumpWarning s).id = s.id ∧ (bumpWarning s).studentId = s.studentId ∧
      (bumpWarning s).sessionId = s.sessionId :=
  ⟨rfl, rfl, rfl⟩

theorem getStudentSessionHandler_found (st : Store) (s : StudentSession)
    (hnd : (st.studentSessions.map (fun x => x.id)).Nodup) (hs : s ∈ st.studentSessions) :
    getStudentSessionHandler st s.id =
      { status := 200, body := .studentSessionWithDetails (withDetails st s) } := by
  unfold getStudentSessionHandler
  rw [getStudentSession_found st s hnd hs]

theorem handleViolationTraced_run (c : ClientState) (st : Store)
    (clients : List WebSocketClient) (env : Env) (now : Timestamp) (type details : String)
    (s : StudentSession) (hwf : st.WF) (hs : s ∈ st.studentSessions)
    (hact : c.isSessionActive = true) (hid : c.studentSessionId = s.id) (hne : s.id ≠ "")
    (hfresh : env.uuid ∉ st.violations.map (fun x => x.id))
    (hroom : s.warningCount + 1 ≤ int4Max) :
    handleViolationTraced c st clients env now type details =
      if s.warningCount + 1 ≥ 3 then
        (({ (if c.wsOpen then
              { c with sent := c.sent ++ [.violation type details (s.warningCount + 1)] }
            else c) with
            isSessionActive := false },
          updateRow (withViolation st (violationRow env
            { studentSessionId := s.id, type := type, details := some details }))
            s.id bumpWarning,
          broadcastViolationCreated clients (violationRow env
            { studentSessionId := s.id, type := type, details := some details })),
         [.createViolation { studentSessionId := s.id, type := type, details := some details },
          .incrementWarning s.id, .refetch s.id] ++
           (if c.wsOpen then [.send (.violation type details (s.warningCount + 1))] else []) ++
           [.setInactive, .updateStudentSession s.id (closeBody now)])
      else
        (({ (if c.wsOpen then
              { c with sent := c.sent ++ [.violation type details (s.warningCount + 1)] }
            else c) with
            toasts := c.toasts ++ ["Warning " ++ toString (s.warningCount + 1) ++ "/3"] },
          updateRow (withViolation st (violationRow env
            { studentSessionId := s.id, type := type, details := some details }))
            s.id bumpWarning,
          broadcastViolationCreated clients (violationRow env
            { studentSessionId := s.id, type := type, details := some details })),
         [.createViolation { studentSessionId := s.id, type := type, details := some details },
          .incrementWarning s.id, .refetch s.id] ++
           (if c.wsOpen then [.send (.violation type details (s.warningCount + 1))] else []) ++
           [.toast ("Warning " ++ toString (s.warningCount + 1) ++ "/3")]) := by
  have hsid : s.id ∈ st.studentSessions.map (fun x => x.id) := List.mem_map_of_mem _ hs
  have hv := postViolations_found st clients env
    { studentSessionId := s.id, type := type, details := some details } hwf hsid hfresh
  have hwf1 := WF_withViolation st (violationRow env
    { studentSessionId := s.id, type := type, details := some details }) hwf hsid hfresh
  have hs1 : s ∈ (withViolation st (violationRow env
    { studentSessionId := s.id, type := type, details := some details })).studentSessions := hs
  have hw := postWarning_found _ s hwf1.1.2.2.1 hs1 hroom
  have hwf2 := WF_updateRow _ s.id bumpWarning bumpWarning_keys hwf1
  have hs2 := mem_updateRow _ s bumpWarning hs1
  have hg := getStudentSessionHandler_found _ (bumpWarning s) hwf2.1.2.2.1 hs2
  have hbid : (bumpWarning s).id = s.id := rfl
  rw [hbid] at hg
  unfold handleViolationTraced
  rw [hid]
  simp only [hact, hne, hv, hw, hg, patch_closeBody, apiRequestOk]
  have hwc : ∀ X, (withDetails X (bumpWarning s)).warningCount = s.warningCount + 1 :=
    fun _ => rfl
  simp only [hwc]
  by_cases h3 : s.warningCount + 1 ≥ 3
  · cases hws : c.wsOpen <;> simp [h3]
  · cases hws : c.wsOpen <;> simp [h3]

theorem handleViolation_run (c : ClientState) (st : Store) (clients : List WebSocketClient)
    (env : Env) (now : Timestamp) (type details : String) (s : StudentSession)
    (hwf : st.WF) (hs : s ∈ st.studentSessions) (hact : c.isSessionActive = true)
    (hid : c.studentSessionId = s.id) (hne : s.id ≠ "")
    (hfresh : env.uuid ∉ st.violations.map (fun x => x.id))
    (hroom : s.warningCount + 1 ≤ int4Max) :
    handleViolation c st clients env now type details =
      if s.warningCount + 1 ≥ 3 then
        ({ (if c.wsOpen then
              { c with sent := c.sent ++ [.violation type details (s.warningCount + 1)] }
            else c) with
            isSessionActive := false },
          updateRow (withViolation st (violationRow env
            { studentSessionId := s.id, type := type, details := some details }))
            s.id bumpWarning,
          broadcastViolationCreated clients (violationRow env
            { studentSessionId := s.id, type := type, details := some details }))
      else
        ({ (if c.wsOpen then
              { c with sent := c.sent ++ [.violation type details (s.warningCount + 1)] }
            else c) with
            toasts := c.toasts ++ ["Warning " ++ toString (s.warningCount + 1) ++ "/3"] },
          updateRow (withViolation st (violationRow env
            { studentSessionId := s.id, type := type, details := some details }))
            s.id bumpWarning,
          broadcastViolationCreated clients (violationRow env
            { studentSessionId := s.id, type := type, details := some details })) := by
  unfold handleViolation
  rw [handleViolationTraced_run c st clients env now type details s hwf hs hact hid hne hfresh
    hroom]
  split_ifs <;> rfl

theorem handleViolation_off (c : ClientState) (st : Store) (clients : List WebSocketClient)
    (env : Env) (now : Timestamp) (type details : String) (hoff : c.isSessionActive = false) :
    handleViolation c st clients env now type details = (c, st, []) := by
  unfold handleViolation handleViolationTraced
  simp [hoff]

theorem closeBody_keys (now : Timestamp) (s : StudentSession) :
    ((closeBody now).applyTo s).id = s.id ∧ ((closeBody now).applyTo s).studentId = s.studentId ∧
      ((closeBody now).applyTo s).sessionId = s.sessionId :=
  ⟨rfl, rfl, rfl⟩

theorem handleViolation_warn (c : ClientState) (st : Store) (clients : List WebSocketClient)
    (env : Env) (now : Timestamp) (type details : String) (s : StudentSession)
    (hwf : st.WF) (hs : s ∈ st.studentSessions) (hact : c.isSessionActive = true)
    (hid : c.studentSessionId = s.id) (hne : s.id ≠ "")
    (hfresh : env.uuid ∉ st.violations.map (fun x => x.id))
    (hlow : ¬ s.warningCount + 1 ≥ 3) :
    (handleViolation c st clients env now type details).2.1.WF ∧
    bumpWarning s ∈ (handleViolation c st clients env now type details).2.1.studentSessions ∧
    (handleViolation c st clients env now type details).1.isSessionActive = true ∧
    (handleViolation c st clients env now type details).1.studentSessionId = s.id ∧
    (handleViolation c st clients env now type details).2.1.violations.map (fun x => x.id) =
      st.violations.map (fun x => x.id) ++ [env.uuid] := by
  have hsid : s.id ∈ st.studentSessions.map (fun x => x.id) := List.mem_map_of_mem _ hs
  have hwf1 := WF_withViolation st (violationRow env
    { studentSessionId := s.id, type := type, details := some details }) hwf hsid hfresh
  have hroom : s.warningCount + 1 ≤ int4Max := by
    unfold int4Max
    omega
  rw [handleViolation_run c st clients env now type details s hwf hs hact hid hne hfresh hroom,
    if_neg hlow]
  refine ⟨WF_updateRow _ s.id bumpWarning bumpWarning_keys hwf1,
    mem_updateRow _ s bumpWarning hs, ?_, ?_, ?_⟩
  · cases hws : c.wsOpen <;> simp [hact]
  · cases hws : c.wsOpen <;> simp [hid]
  · simp [updateRow, withViolation, violationRow]

theorem initSessionJoin_fresh (c : ClientState) (st : Store) (env : Env) (sid : String)
    (hsid : sid ≠ "") (heid : c.sessionId ≠ "") (hwf : st.WF)
    (hstudent : sid ∈ st.students.map (fun x => x.id))
    (hexam : c.sessionId ∈ st.examSessions.map (fun e => e.id))
    (hfresh : env.uuid ∉ st.studentSessions.map (fun s => s.id))
    (hfree : ¬ lockedOut st sid c.sessionId)
    (hnone : ∀ a ∈ st.studentSessions, ofPair sid c.sessionId a → a.isActive = false) :
    initSessionJoin c st env sid =
      ({ c with studentSessionId := env.uuid,
                localStorage := setItem c.localStorage (cacheKey c.sessionId) env.uuid },
       { st with studentSessions := st.studentSessions ++ [freshRow env sid c.sessionId] }) := by
  rw [initSessionJoin_eq c st env sid hsid heid, terminated_find_none st sid c.sessionId hfree]
  simp only
  rw [(lookup_find_none st sid c.sessionId (fun s => s.isActive)).2 hnone]
  simp only
  have hwf' := WF_append_session st (freshRow env sid c.sessionId) hwf hstudent hexam hfresh
  have hc := commit_of_WF hwf'
  unfold initSessionCreate
  rw [postStudentSessions_free st env _ hfree]
  unfold createStudentSession
  simp only [Option.getD_some]
  unfold freshRow at hc
  rw [hc]
  rfl

theorem updateRow_ids (st : Store) (id : String) (f : StudentSession → StudentSession)
    (hf : ∀ s, (f s).id = s.id) :
    (updateRow st id f).studentSessions.map (fun s => s.id) =
      st.studentSessions.map (fun s => s.id) := by
  unfold updateRow
  simp only [List.map_map]
  apply List.map_congr_left
  intro x _
  by_cases hx : x.id = id
  · simp [hx, hf x]
  · simp [hx]

theorem handleSubmit_run (c : ClientState) (st : Store) (now : Timestamp) :
    handleSubmit c st true now = ({ c with isSessionActive := false }, st) := by
  unfold handleSubmit
  simp [patch_closeBody, apiRequestOk]

theorem WF_serve (st : Store) (r : Request) (h : st.WF) : (serve st r).2.WF := by
  cases r with
  | postStudents env body =>
    show (postStudentsHandler st env body).2.WF
    unfold postStudentsHandler
    cases body with
    | none => exact h
    | some b =>
      simp only
      split
      · rename_i row st' hc
        exact (createStudent_ok hc).2.1
      · exact h
  | postExamSessions env body =>
    show (postExamSessionsHandler st env body).2.WF
    unfold postExamSessionsHandler
    cases body with
    | none => exact h
    | some b =>
      simp only
      split
      · rename_i row st' hc
        exact (createExamSession_ok hc).2
      · exact h
  | patchExamSession id body =>
    show (patchExamSessionHandler st id body).2.WF
    unfold patchExamSessionHandler
    split
    · rename_i row st' hc
      exact (updateExamSession_ok hc).2
    · rename_i st' hc
      exact (updateExamSession_ok hc).2
    · exact h
  | postStudentSessions env body =>
    show (postStudentSessionsHandler st env body).2.WF
    unfold postStudentSessionsHandler
    cases body with
    | none => exact h
    | some b =>
      simp only
      split
      · exact h
      · split
        · rename_i row st' hc
          exact (createStudentSession_ok hc).2.1
        · exact h
  | patchStudentSession id body =>
    show (patchStudentSessionHandler st id body).2.WF
    unfold patchStudentSessionHandler
    split
    · rename_i row st' hc
      exact (updateStudentSession_ok hc).2.1
    · rename_i st' hc
      exact (updateStudentSession_ok hc).2.1
    · exact h
  | postWarning id =>
    show (postWarningHandler st id).2.WF
    rcases postWarning_store st id with h1 | h1
    · rw [h1]; exact h
    · rw [h1]
      exact WF_updateRow st id bumpWarning bumpWarning_keys h
  | postViolations clients env body =>
    show (postViolationsHandler st clients env body).2.1.WF
    unfold postViolationsHandler
    cases body with
    | none => exact h
    | some b =>
      simp only
      split
      · rename_i row st' hc
        exact (createViolation_ok hc).2.1
      · exact h

theorem WF_serveAll (reqs : List Request) :
    ∀ st : Store, st.WF → (serveAll st reqs).WF := by
  induction reqs with
  | nil => intro st h; exact h
  | cons r rest ih =>
    intro st h
    show (serveAll (serve st r).2 rest).WF
    exact ih _ (WF_serve st r h)

theorem WF_empty : Store.empty.WF := by decide

theorem serve_sessions_shape (st : Store) (r : Request) :
    ∃ (f : StudentSession → StudentSession) (extra : List StudentSession),
      (serve st r).2.studentSessions = st.studentSessions.map f ++ extra ∧
      ∀ s, f s = s ∨
        (∃ id body, r = .patchStudentSession id body ∧ s.id = id ∧ f s = body.applyTo s) ∨
        (∃ id, r = .postWarning id ∧ s.id = id ∧ f s = bumpWarning s) := by
  cases r with
  | postStudents env body =>
    exact ⟨fun s => s, [], by
      show (postStudentsHandler st env body).2.studentSessions = _
      rw [postStudents_sessions]; simp, fun s => Or.inl rfl⟩
  | postExamSessions env body =>
    exact ⟨fun s => s, [], by
      show (postExamSessionsHandler st env body).2.studentSessions = _
      rw [postExamSessions_sessions]; simp, fun s => Or.inl rfl⟩
  | patchExamSession id body =>
    exact ⟨fun s => s, [], by
      show (patchExamSessionHandler st id body).2.studentSessions = _
      rw [patchExamSession_sessions]; simp, fun s => Or.inl rfl⟩
  | postViolations clients env body =>
    exact ⟨fun s => s, [], by
      show (postViolationsHandler st clients env body).2.1.studentSessions = _
      rw [postViolations_sessions]; simp, fun s => Or.inl rfl⟩
  | postWarning id =>
    rcases postWarning_sessions st id with h1 | h1
    · exact ⟨fun s => s, [], by
        show (postWarningHandler st id).2.studentSessions = _
        rw [h1]; simp, fun s => Or.inl rfl⟩
    · refine ⟨fun s => if s.id = id then bumpWarning s else s, [], ?_, ?_⟩
      · show (postWarningHandler st id).2.studentSessions = _
        rw [h1]; simp
      · intro s
        by_cases h : s.id = id
        · exact Or.inr (Or.inr ⟨id, rfl, h, by simp [h]⟩)
        · exact Or.inl (by simp [h])
  | patchStudentSession id body =>
    rcases patchStudentSession_sessions st id body with h1 | h1
    · exact ⟨fun s => s, [], by
        show (patchStudentSessionHandler st id body).2.studentSessions = _
        rw [h1]; simp, fun s => Or.inl rfl⟩
    · refine ⟨fun s => if s.id = id then body.applyTo s else s, [], ?_, ?_⟩
      · show (patchStudentSessionHandler st id body).2.studentSessions = _
        rw [h1]; simp
      · intro s
        by_cases h : s.id = id
        · exact Or.inr (Or.inl ⟨id, body, rfl, h, by simp [h]⟩)
        · exact Or.inl (by simp [h])
  | postStudentSessions env body =>
    rcases postStudentSessions_sessions st env body with h1 | ⟨b, _, h1⟩
    · exact ⟨fun s => s, [], by
        show (postStudentSessionsHandler st env body).2.studentSessions = _
        rw [h1]; simp, fun s => Or.inl rfl⟩
    · refine ⟨fun s => s,
        [{ id := env.uuid, studentId := b.studentId, sessionId := b.sessionId,
           warningCount := b.warningCount.getD 0, isActive := b.isActive.getD true,
           joinedAt := env.now, leftAt := none }], ?_, fun s => Or.inl rfl⟩
      show (postStudentSessionsHandler st env body).2.studentSessions = _
      rw [h1, List.map_id']

theorem getElem?_map_append (l extra : List StudentSession)
    (f : StudentSession → StudentSession) (i : Nat) (s : StudentSession)
    (h : l[i]? = some s) : (l.map f ++ extra)[i]? = some (f s) := by
  have hlt : i < l.length := by
    by_contra hge
    rw [List.getElem?_eq_none (by omega)] at h
    exact absurd h (by simp)
  rw [List.getElem?_append_left (by simpa using hlt), List.getElem?_map, h]
  rfl

theorem updateRow_updateRow (st : Store) (id : String) (f g : StudentSession → StudentSession)
    (hf : ∀ x, (f x).id = x.id) :
    updateRow (updateRow st id f) id g = updateRow st id (fun x => g (f x)) := by
  unfold updateRow
  simp only [List.map_map, Store.mk.injEq, true_and, and_true]
  apply List.map_congr_left
  intro x _
  by_cases h : x.id = id
  · simp [h, hf x]
  · simp [h]

theorem serve_violations (st : Store) (r : Request) :
    (serve st r).2.violations = st.violations ∨
    ∃ clients env b, r = .postViolations clients env (some b) ∧
      (serve st r).1 = { status := 201, body := .violation (violationRow env b) } ∧
      (serve st r).2.violations = st.violations ++ [violationRow env b] := by
  cases r with
  | postStudents env body =>
    left
    show (postStudentsHandler st env body).2.violations = _
    unfold postStudentsHandler
    cases body with
    | none => rfl
    | some b =>
      simp only
      split
      · rename_i row st' hc
        rw [(createStudent_ok hc).1]
      · rfl
  | postExamSessions env body =>
    left
    show (postExamSessionsHandler st env body).2.violations = _
    unfold postExamSessionsHandler
    cases body with
    | none => rfl
    | some b =>
      simp only
      split
      · rename_i row st' hc
        rw [(createExamSession_ok hc).1]
      · rfl
  | patchExamSession id body =>
    left
    show (patchExamSessionHandler st id body).2.violations = _
    unfold patchExamSessionHandler
    split
    · rename_i row st' hc
      rw [(updateExamSession_ok hc).1]
    · rename_i st' hc
      rw [(updateExamSession_ok hc).1]
    · rfl
  | postStudentSessions env body =>
    left
    show (postStudentSessionsHandler st env body).2.violations = _
    unfold postStudentSessionsHandler
    cases body with
    | none => rfl
    | some b =>
      simp only
      split
      · rfl
      · split
        · rename_i row st' hc
          rw [(createStudentSession_ok hc).1]
        · rfl
  | patchStudentSession id body =>
    left
    show (patchStudentSessionHandler st id body).2.violations = _
    unfold patchStudentSessionHandler
    split
    · rename_i row st' hc
      rw [(updateStudentSession_ok hc).1]
    · rename_i st' hc
      rw [(updateStudentSession_ok hc).1]
    · rfl
  | postWarning id =>
    left
    show (postWarningHandler st id).2.violations = _
    rcases postWarning_store st id with h1 | h1
    · rw [h1]
    · rw [h1]; rfl
  | postViolations clients env body =>
    show (postViolationsHandler st clients env body).2.1.violations = _ ∨ _
    cases body with
    | none => left; rfl
    | some b =>
      cases hc : createViolation st env b with
      | error e =>
        left
        unfold postViolationsHandler
        simp only [hc]
      | ok p =>
        right
        obtain ⟨row, st'⟩ := p
        obtain ⟨hst, _, hrow⟩ := createViolation_ok hc
        refine ⟨clients, env, b, rfl, ?_, ?_⟩
        · show (postViolationsHandler st clients env (some b)).1 = _
          unfold postViolationsHandler
          simp only [hc]
          rw [hrow]
          rfl
        · show (postViolationsHandler st clients env (some b)).2.1.violations = _
          unfold postViolationsHandler
          simp only [hc]
          rw [hst, hrow]
          rfl

theorem createViolation_missing (st : Store) (env : Env) (b : InsertViolation)
    (hmissing : b.studentSessionId ∉ st.studentSessions.map (fun s => s.id)) :
    ∃ e, createViolation st env b = .error e := by
  cases hc : createViolation st env b with
  | error e => exact ⟨e, rfl⟩
  | ok p =>
    obtain ⟨row, st'⟩ := p
    obtain ⟨hst, hwf, hrow⟩ := createViolation_ok hc
    have hfk := hwf.2.2.2.2 row (by rw [hst]; simp)
    rw [hst, hrow] at hfk
    exact absurd hfk hmissing

theorem count_fanout (l : List WebSocketClient) (p : WebSocketClient → Bool)
    (m : ServerMessage) (hnd : (l.map (fun c => c.conn)).Nodup) (c : WebSocketClient)
    (hc : c ∈ l) :
    ((l.filter p).map (fun x => (x.conn, m))).count (c.conn, m) = if p c = true then 1 else 0 := by
  induction l with
  | nil => simp at hc
  | cons a rest ih =>
    simp only [List.map_cons, List.nodup_cons] at hnd
    obtain ⟨hna, hrest⟩ := hnd
    have hzero : ∀ x : WebSocketClient, x.conn ∉ rest.map (fun c => c.conn) →
        ((rest.filter p).map (fun y => (y.conn, m))).count (x.conn, m) = 0 := by
      intro x hx
      rw [List.count_eq_zero]
      intro hmem
      obtain ⟨y, hy, hyx⟩ := List.mem_map.1 hmem
      have hyc : y.conn = x.conn := (Prod.mk.inj hyx).1
      exact hx (List.mem_map.2 ⟨y, (List.mem_filter.1 hy).1, hyc⟩)
    rcases List.mem_cons.1 hc with hca | hcr
    · subst hca
      by_cases hp : p c = true
      · simp [List.filter_cons, hp, hzero c hna]
      · simp [List.filter_cons, hp, hzero c hna]
    · have hne : a.conn ≠ c.conn := by
        intro e
        exact hna (e ▸ List.mem_map_of_mem (fun c => c.conn) hcr)
      by_cases hp : p a = true
      · simp [List.filter_cons, hp, List.count_cons, hne, ih hrest hcr]
      · simp [List.filter_cons, hp, ih hrest hcr]

theorem mem_fanout (l : List WebSocketClient) (p : WebSocketClient → Bool)
    (m m' : ServerMessage) (k : Nat)
    (h : (k, m') ∈ (l.filter p).map (fun x => (x.conn, m))) :
    m' = m ∧ ∃ c ∈ l, c.conn = k ∧ p c = true := by
  obtain ⟨y, hy, hyx⟩ := List.mem_map.1 h
  have h1 := (Prod.mk.inj hyx).1
  have h2 := (Prod.mk.inj hyx).2
  exact ⟨h2.symm, y, (List.mem_filter.1 hy).1, h1, (List.mem_filter.1 hy).2⟩

theorem postViolations_created (st : Store) (clients : List WebSocketClient) (env : Env)
    (b : InsertViolation)
    (hok : (postViolationsHandler st clients env (some b)).1.status = 201) :
    postViolationsHandler st clients env (some b) =
      ({ status := 201, body := .violation (violationRow env b) },
       withViolation st (violationRow env b),
       broadcastViolationCreated clients (violationRow env b)) := by
  cases hc : createViolation st env b with
  | error e =>
    unfold postViolationsHandler at hok
    simp only [hc] at hok
    exact absurd hok (by decide)
  | ok p =>
    obtain ⟨row, st'⟩ := p
    obtain ⟨hst, _, hrow⟩ := createViolation_ok hc
    unfold postViolationsHandler
    simp only [hc]
    rw [hst, hrow]
    rfl

theorem updateRow_missing (st : Store) (id : String) (f : StudentSession → StudentSession)
    (hmissing : id ∉ st.studentSessions.map (fun s => s.id)) : updateRow st id f = st := by
  have hno : ∀ x ∈ st.studentSessions, ¬ x.id = id :=
    fun x hx e => hmissing (List.mem_map.2 ⟨x, hx, e⟩)
  have hmap : st.studentSessions.map (fun s => if s.id = id then f s else s) =
      st.studentSessions := by
    conv_rhs => rw [← List.map_id st.studentSessions]
    apply List.map_congr_left
    intro x hx
    simp [hno x hx]
  unfold updateRow
  rw [hmap]

theorem postWarning_missing (st : Store) (id : String)
    (hmissing : id ∉ st.studentSessions.map (fun s => s.id)) :
    postWarningHandler st id =
      ({ status := 404, body := .error "Student session not found" }, st) := by
  have hno : ∀ x ∈ st.studentSessions, ¬ x.id = id :=
    fun x hx e => hmissing (List.mem_map.2 ⟨x, hx, e⟩)
  have hfilter : st.studentSessions.filter (fun s => s.id = id) = [] := by
    rw [List.filter_eq_nil_iff]
    intro x hx
    simpa using hno x hx
  unfold postWarningHandler
  rw [incrementWarningCount_room st id (fun x hx hid => absurd hid (hno x hx)), hfilter,
    updateRow_missing st id bumpWarning hmissing]
  rfl

theorem mem_updateRow_other (st : Store) (id : String) (f : StudentSession → StudentSession)
    (s : StudentSession) (hs : s ∈ st.studentSessions) (hne : s.id ≠ id) :
    s ∈ (updateRow st id f).studentSessions := by
  unfold updateRow
  refine List.mem_map.2 ⟨s, hs, ?_⟩
  rw [if_neg hne]

theorem recordWarning_room (st : Store) (s : StudentSession)
    (hnd : (st.studentSessions.map (fun x => x.id)).Nodup) (hs : s ∈ st.studentSessions)
    (hroom : s.warningCount + 1 ≤ int4Max) :
    recordWarning st s.id = updateRow st s.id bumpWarning := by
  unfold recordWarning
  rw [incrementWarningCount_room st s.id]
  intro x hx hid
  rw [eq_of_id_eq _ hnd x s hx hs hid]
  exact hroom

theorem recordWarning_full (st : Store) (s : StudentSession) (hs : s ∈ st.studentSessions)
    (hfull : int4Max ≤ s.warningCount) : recordWarning st s.id = st := by
  unfold recordWarning
  rw [incrementWarningCount_full st s hs hfull]

theorem recordWarning_cases (st : Store) (id : String) :
    recordWarning st id = st ∨ recordWarning st id = updateRow st id bumpWarning := by
  unfold recordWarning
  split
  · rename_i r st' h
    exact Or.inr (incrementWarningCount_ok h).1
  · exact Or.inl rfl

theorem recordWarning_ids (st : Store) (id : String) :
    (recordWarning st id).studentSessions.map (fun s => s.id) =
      st.studentSessions.map (fun s => s.id) := by
  rcases recordWarning_cases st id with h | h
  · rw [h]
  · rw [h]
    exact updateRow_ids st id bumpWarning (fun _ => rfl)

theorem recordWarnings_count (ids : List String) :
    ∀ (st : Store) (s : StudentSession), (st.studentSessions.map (fun x => x.id)).Nodup →
      s ∈ st.studentSessions → s.warningCount ≤ int4Max →
      ((recordWarnings st ids).studentSessions.map (fun x => x.id)).Nodup ∧
      { s with warningCount := min (s.warningCount + (ids.count s.id : Nat)) int4Max } ∈
        (recordWarnings st ids).studentSessions := by
  induction ids with
  | nil =>
    intro st s hnd hs hle
    refine ⟨hnd, ?_⟩
    have : min (s.warningCount + ((List.count s.id ([] : List String) : Nat) : Int)) int4Max =
        s.warningCount := by
      simp only [List.count_nil, Nat.cast_zero, add_zero]
      exact min_eq_left hle
    rw [this]
    exact hs
  | cons id rest ih =>
    intro st s hnd hs hle
    have hnd' : ((recordWarning st id).studentSessions.map (fun x => x.id)).Nodup := by
      rw [recordWarning_ids]; exact hnd
    have hrun : recordWarnings st (id :: rest) = recordWarnings (recordWarning st id) rest := rfl
    rw [hrun]
    by_cases h : s.id = id
    · subst h
      have hc : ((List.count s.id (s.id :: rest) : Nat) : Int) =
          ((List.count s.id rest : Nat) : Int) + 1 := by simp
      rw [hc]
      by_cases hroom : s.warningCount + 1 ≤ int4Max
      · have hst := recordWarning_room st s hnd hs hroom
        have hmem : bumpWarning s ∈ (recordWarning st s.id).studentSessions := by
          rw [hst]; exact mem_updateRow st s bumpWarning hs
        have key := ih (recordWarning st s.id) (bumpWarning s) hnd' hmem hroom
        refine ⟨key.1, ?_⟩
        have h2 := key.2
        simp only [bumpWarning] at h2
        have he : s.warningCount + (((List.count s.id rest : Nat) : Int) + 1) =
            s.warningCount + 1 + ((List.count s.id rest : Nat) : Int) := by ring
        rw [he]
        exact h2
      · have hfull : int4Max ≤ s.warningCount := by omega
        have hst := recordWarning_full st s hs hfull
        have key := ih (recordWarning st s.id) s hnd' (by rw [hst]; exact hs) hle
        refine ⟨key.1, ?_⟩
        have h2 := key.2
        have e1 : min (s.warningCount + ((List.count s.id rest : Nat) : Int)) int4Max =
            int4Max := by
          apply min_eq_right
          have : (0 : Int) ≤ ((List.count s.id rest : Nat) : Int) := Int.natCast_nonneg _
          omega
        have e2 : min (s.warningCount + (((List.count s.id rest : Nat) : Int) + 1)) int4Max =
            int4Max := by
          apply min_eq_right
          have : (0 : Int) ≤ ((List.count s.id rest : Nat) : Int) := Int.natCast_nonneg _
          omega
        rw [e2]
        rw [e1] at h2
        exact h2
    · have hmem : s ∈ (recordWarning st id).studentSessions := by
        rcases recordWarning_cases st id with h1 | h1
        · rw [h1]; exact hs
        · rw [h1]; exact mem_updateRow_other st id bumpWarning s hs h
      have key := ih (recordWarning st id) s hnd' hmem hle
      refine ⟨key.1, ?_⟩
      have hc : List.count s.id (id :: rest) = List.count s.id rest := by
        rw [List.count_cons]
        have : (id == s.id) = false := by
          simp only [beq_eq_false_iff_ne, ne_eq]
          exact fun e => h e.symm
        simp [this]
      rw [hc]
      exact key.2

/-! ## Lemmas on the socket registry -/

theorem storeSocket_conns (clients : List WebSocketClient) (w : WebSocketClient) :
    (storeSocket clients w).map (fun c => c.conn) = clients.map (fun c => c.conn) := by
  unfold storeSocket
  rw [List.map_map]
  apply List.map_congr_left
  intro x _
  by_cases h : x.conn = w.conn
  · simp [h]
  · simp [h]

theorem mem_storeSocket (clients : List WebSocketClient) (w d : WebSocketClient)
    (h : d ∈ storeSocket clients w) : (d ∈ clients ∧ d.conn ≠ w.conn) ∨ d = w := by
  unfold storeSocket at h
  obtain ⟨x, hx, rfl⟩ := List.mem_map.1 h
  by_cases hc : x.conn = w.conn
  · right; rw [if_pos hc]
  · left; rw [if_neg hc]; exact ⟨hx, hc⟩

theorem onMessage_registry (clients : List WebSocketClient) (ws : WebSocketClient)
    (frame : Incoming) (now : Timestamp) :
    (onMessage clients ws frame now).2.1 = clients ∨
    ∃ w, w.conn = ws.conn ∧ w.isAlive = ws.isAlive ∧
      (onMessage clients ws frame now).2.1 = storeSocket clients w := by
  cases frame with
  | malformed => left; rfl
  | other => left; rfl
  | joinExam sid =>
    right
    exact ⟨{ ws with sessionId := sid, role := some .student }, rfl, rfl, rfl⟩
  | adminConnect =>
    right
    exact ⟨{ ws with role := some .admin }, rfl, rfl, rfl⟩
  | violation a b c =>
    left
    unfold onMessage
    split_ifs <;> rfl

theorem hubStep_message_shape (clients : List WebSocketClient) (conn : Nat) (frame : Incoming)
    (now : Timestamp) :
    hubStep clients (.message conn frame now) = clients ∨
    ∃ ws ∈ clients, ws.conn = conn ∧ ∃ w, w.conn = conn ∧ w.isAlive = ws.isAlive ∧
      hubStep clients (.message conn frame now) = storeSocket clients w := by
  cases hfind : clients.find? (fun c => c.conn = conn) with
  | none =>
    left
    simp only [hubStep, hfind]
  | some ws =>
    have hmem := List.mem_of_find?_eq_some hfind
    have hconn : ws.conn = conn := by simpa using List.find?_some hfind
    have hstep : hubStep clients (.message conn frame now) =
        (onMessage clients ws frame now).2.1 := by
      simp only [hubStep, hfind]
    rw [hstep]
    rcases onMessage_registry clients ws frame now with h | ⟨w, h1, h2, h3⟩
    · left; exact h
    · right; exact ⟨ws, hmem, hconn, w, h1.trans hconn, h2, h3⟩

theorem onPong_conns (clients : List WebSocketClient) (conn : Nat) :
    (onPong clients conn).map (fun c => c.conn) = clients.map (fun c => c.conn) := by
  unfold onPong
  rw [List.map_map]
  apply List.map_congr_left
  intro x _
  by_cases h : x.conn = conn
  · simp [h]
  · simp [h]

theorem registered_step (clients : List WebSocketClient) (k : Nat) (e : HubEvent)
    (hreg : k ∈ clients.map (fun c => c.conn)) (hclose : e ≠ .close k) (hsweep : e ≠ .sweep) :
    k ∈ (hubStep clients e).map (fun c => c.conn) := by
  cases e with
  | connection conn =>
    show k ∈ (onConnection clients conn).map (fun c => c.conn)
    unfold onConnection
    split_ifs
    · exact hreg
    · rw [List.map_append]; exact List.mem_append_left _ hreg
  | pong conn =>
    show k ∈ (onPong clients conn).map (fun c => c.conn)
    rw [onPong_conns]
    exact hreg
  | message conn frame now =>
    rcases hubStep_message_shape clients conn frame now with h | ⟨_, _, _, w, _, _, h⟩
    · rw [h]; exact hreg
    · rw [h, storeSocket_conns]; exact hreg
  | close conn =>
    show k ∈ (onClose clients conn).map (fun c => c.conn)
    obtain ⟨c, hc, hck⟩ := List.mem_map.1 hreg
    have hne : conn ≠ k := fun e => hclose (by rw [e])
    unfold onClose
    refine List.mem_map.2 ⟨c, List.mem_filter.2 ⟨hc, ?_⟩, hck⟩
    simp only [ne_eq, decide_not, Bool.not_eq_true', decide_eq_false_iff_not]
    rw [hck]
    exact fun e => hne e.symm
  | sweep => exact absurd rfl hsweep

theorem unregistered_step (clients : List WebSocketClient) (k : Nat) (e : HubEvent)
    (hout : k ∉ clients.map (fun c => c.conn)) (hconn : e ≠ .connection k) :
    k ∉ (hubStep clients e).map (fun c => c.conn) := by
  cases e with
  | connection conn =>
    show k ∉ (onConnection clients conn).map (fun c => c.conn)
    have hne : conn ≠ k := fun e => hconn (by rw [e])
    unfold onConnection
    split_ifs
    · exact hout
    · rw [List.map_append]
      intro hmem
      rcases List.mem_append.1 hmem with h | h
      · exact hout h
      · simp only [newSocket, List.map_cons, List.map_nil, List.mem_singleton] at h
        exact hne h.symm
  | pong conn =>
    show k ∉ (onPong clients conn).map (fun c => c.conn)
    rw [onPong_conns]
    exact hout
  | message conn frame now =>
    rcases hubStep_message_shape clients conn frame now with h | ⟨_, _, _, w, _, _, h⟩
    · rw [h]; exact hout
    · rw [h, storeSocket_conns]; exact hout
  | close conn =>
    show k ∉ (onClose clients conn).map (fun c => c.conn)
    intro hmem
    obtain ⟨c, hc, hck⟩ := List.mem_map.1 hmem
    exact hout (List.mem_map.2 ⟨c, (List.mem_filter.1 hc).1, hck⟩)
  | sweep =>
    show k ∉ (sweep clients).1.map (fun c => c.conn)
    intro hmem
    unfold sweep at hmem
    obtain ⟨d, hd, hdk⟩ := List.mem_map.1 hmem
    obtain ⟨c, hc, rfl⟩ := List.mem_map.1 hd
    exact hout (List.mem_map.2 ⟨c, (List.mem_filter.1 hc).1, hdk⟩)

theorem unregistered_run (events : List HubEvent) :
    ∀ (clients : List WebSocketClient) (k : Nat), k ∉ clients.map (fun c => c.conn) →
      (∀ e ∈ events, e ≠ .connection k) → k ∉ (hubRun clients events).map (fun c => c.conn) := by
  induction events with
  | nil => intro clients k h _; exact h
  | cons e rest ih =>
    intro clients k h hev
    show k ∉ (hubRun (hubStep clients e) rest).map (fun c => c.conn)
    exact ih _ k (unregistered_step clients k e h (hev e (List.mem_cons_self _ _)))
      (fun x hx => hev x (List.mem_cons_of_mem _ hx))

theorem flag_step (clients : List WebSocketClient) (k : Nat) (b : Bool) (e : HubEvent)
    (h : ∀ c ∈ clients, c.conn = k → c.isAlive = b)
    (hpong : b = false → e ≠ .pong k) (hconn : b = false → e ≠ .connection k)
    (hsweep : b = true → e ≠ .sweep) :
    ∀ c ∈ hubStep clients e, c.conn = k → c.isAlive = b := by
  cases e with
  | connection conn =>
    show ∀ c ∈ onConnection clients conn, c.conn = k → c.isAlive = b
    unfold onConnection
    split_ifs
    · exact h
    · intro c hc hck
      rcases List.mem_append.1 hc with hc | hc
      · exact h c hc hck
      · rw [List.mem_singleton] at hc
        subst hc
        cases b with
        | true => rfl
        | false =>
          have hck' : conn = k := hck
          exact absurd (by rw [hck']) (hconn rfl)
  | pong conn =>
    show ∀ c ∈ onPong clients conn, c.conn = k → c.isAlive = b
    intro d hd hdk
    unfold onPong at hd
    obtain ⟨c, hc, rfl⟩ := List.mem_map.1 hd
    by_cases hcc : c.conn = conn
    · rw [if_pos hcc] at hdk ⊢
      have hck : c.conn = k := hdk
      cases b with
      | true => rfl
      | false => exact absurd (by rw [← hcc, hck]) (hpong rfl)
    · rw [if_neg hcc] at hdk ⊢
      exact h c hc hdk
  | message conn frame now =>
    rcases hubStep_message_shape clients conn frame now with
      hs | ⟨ws, hws, hwsc, w, hwc, hwa, hs⟩
    · rw [hs]; exact h
    · rw [hs]
      intro d hd hdk
      rcases mem_storeSocket clients w d hd with ⟨hd', _⟩ | hd'
      · exact h d hd' hdk
      · subst hd'
        rw [hwa]
        exact h ws hws (hwsc.trans (hwc.symm.trans hdk))
  | close conn =>
    show ∀ c ∈ onClose clients conn, c.conn = k → c.isAlive = b
    intro c hc hck
    exact h c (List.mem_filter.1 hc).1 hck
  | sweep =>
    show ∀ c ∈ (sweep clients).1, c.conn = k → c.isAlive = b
    intro d hd _
    unfold sweep at hd
    obtain ⟨c, _, rfl⟩ := List.mem_map.1 hd
    cases b with
    | true => exact absurd rfl (hsweep rfl)
    | false => rfl

theorem pong_sets_alive (clients : List WebSocketClient) (k : Nat) :
    ∀ c ∈ onPong clients k, c.conn = k → c.isAlive = true := by
  intro d hd hdk
  unfold onPong at hd
  obtain ⟨c, hc, rfl⟩ := List.mem_map.1 hd
  by_cases hcc : c.conn = k
  · rw [if_pos hcc]
  · rw [if_neg hcc] at hdk
    exact absurd hdk hcc

theorem sweep_keeps_alive (clients : List WebSocketClient) (k : Nat)
    (hreg : k ∈ clients.map (fun c => c.conn))
    (halive : ∀ c ∈ clients, c.conn = k → c.isAlive = true) :
    k ∈ (sweep clients).1.map (fun c => c.conn) := by
  obtain ⟨c, hc, hck⟩ := List.mem_map.1 hreg
  unfold sweep
  refine List.mem_map.2 ⟨{ c with isAlive := false }, List.mem_map.2 ⟨c, ?_, rfl⟩, hck⟩
  exact List.mem_filter.2 ⟨hc, halive c hc hck⟩

theorem sweep_drops_dead (clients : List WebSocketClient) (k : Nat)
    (hdead : ∀ c ∈ clients, c.conn = k → c.isAlive = false) :
    k ∉ (sweep clients).1.map (fun c => c.conn) ∧
    (k ∈ clients.map (fun c => c.conn) → k ∈ (sweep clients).2.1) := by
  constructor
  · intro hmem
    unfold sweep at hmem
    obtain ⟨d, hd, hdk⟩ := List.mem_map.1 hmem
    obtain ⟨c, hc, rfl⟩ := List.mem_map.1 hd
    have h1 := (List.mem_filter.1 hc).2
    have h2 := hdead c (List.mem_filter.1 hc).1 hdk
    rw [h2] at h1
    exact absurd h1 (by decide)
  · intro hreg
    obtain ⟨c, hc, hck⟩ := List.mem_map.1 hreg
    unfold sweep
    refine List.mem_map.2 ⟨c, List.mem_filter.2 ⟨hc, ?_⟩, hck⟩
    rw [hdead c hc hck]
    rfl

theorem pongs_keep_registered (events : List HubEvent) :
    ∀ (clients : List WebSocketClient) (k : Nat) (alive : Bool),
      k ∈ clients.map (fun c => c.conn) →
      (alive = true → ∀ c ∈ clients, c.conn = k → c.isAlive = true) →
      pongsBeforeEverySweep k alive events = true →
      k ∈ (hubRun clients events).map (fun c => c.conn) := by
  induction events with
  | nil => intro clients k alive hreg _ _; exact hreg
  | cons e rest ih =>
    intro clients k alive hreg halive htrack
    show k ∈ (hubRun (hubStep clients e) rest).map (fun c => c.conn)
    cases e with
    | sweep =>
      simp only [pongsBeforeEverySweep, Bool.and_eq_true] at htrack
      exact ih _ k false (sweep_keeps_alive clients k hreg (halive htrack.1))
        (fun h => absurd h (by decide)) htrack.2
    | pong j =>
      simp only [pongsBeforeEverySweep] at htrack
      refine ih _ k (alive || decide (j = k))
        (registered_step clients k _ hreg (by simp) (by simp)) ?_ htrack
      intro hflag
      by_cases hj : j = k
      · subst hj
        exact pong_sets_alive clients j
      · have ha : alive = true := by simpa [hj] using hflag
        exact flag_step clients k true _ (halive ha) (by simp) (by simp) (by simp)
    | close j =>
      simp only [pongsBeforeEverySweep, Bool.and_eq_true, decide_eq_true_eq] at htrack
      refine ih _ k alive
        (registered_step clients k _ hreg (by simpa using htrack.1) (by simp)) ?_ htrack.2
      intro ha
      exact flag_step clients k true _ (halive ha) (by simp) (by simp) (by simp)
    | connection j =>
      simp only [pongsBeforeEverySweep] at htrack
      refine ih _ k alive (registered_step clients k _ hreg (by simp) (by simp)) ?_ htrack
      intro ha
      exact flag_step clients k true _ (halive ha) (by simp) (by simp) (by simp)
    | message j frame now =>
      simp only [pongsBeforeEverySweep] at htrack
      refine ih _ k alive (registered_step clients k _ hreg (by simp) (by simp)) ?_ htrack
      intro ha
      exact flag_step clients k true _ (halive ha) (by simp) (by simp) (by simp)

theorem silent_run (events : List HubEvent) :
    ∀ (clients : List WebSocketClient) (k : Nat), silentFor k events →
      (∀ c ∈ clients, c.conn = k → c.isAlive = false) →
      (∀ c ∈ hubRun clients events, c.conn = k → c.isAlive = false) ∧
      (k ∈ clients.map (fun c => c.conn) →
        k ∈ (hubRun clients events).map (fun c => c.conn)) := by
  induction events with
  | nil => intro clients k _ h; exact ⟨h, fun x => x⟩
  | cons e rest ih =>
    intro clients k hsilent hdead
    have he := hsilent e (List.mem_cons_self _ _)
    have hrest : silentFor k rest := fun x hx => hsilent x (List.mem_cons_of_mem _ hx)
    have hstep := flag_step clients k false e hdead (fun _ => he.1) (fun _ => he.2.2.1)
      (fun h => absurd h (by decide))
    have := ih (hubStep clients e) k hrest hstep
    refine ⟨this.1, fun hreg => this.2 (registered_step clients k e hreg he.2.1 he.2.2.2)⟩

theorem eq_of_conn_eq (clients : List WebSocketClient)
    (hnd : (clients.map (fun c => c.conn)).Nodup) (x y : WebSocketClient)
    (hx : x ∈ clients) (hy : y ∈ clients) (h : x.conn = y.conn) : x = y :=
  List.inj_on_of_nodup_map hnd hx hy h

theorem no_frame_outside (clients : List WebSocketClient) (k : Nat)
    (hout : k ∉ clients.map (fun c => c.conn)) :
    (∀ v m, (k, m) ∉ broadcastViolationCreated clients v) ∧
    (∀ alert m, (k, m) ∉ broadcastViolationAlert clients alert) := by
  constructor
  · intro v m hmem
    obtain ⟨_, c, hc, hck, _⟩ := mem_fanout clients _ _ m k hmem
    exact hout (List.mem_map.2 ⟨c, hc, hck⟩)
  · intro alert m hmem
    obtain ⟨_, c, hc, hck, _⟩ := mem_fanout clients _ _ m k hmem
    exact hout (List.mem_map.2 ⟨c, hc, hck⟩)

theorem getItem_removeItem (ls : List (String × String)) (key : String) :
    getItem (removeItem ls key) key = none := by
  unfold getItem removeItem
  rw [Option.map_eq_none', List.find?_eq_none]
  intro kv hkv
  have := (List.mem_filter.1 hkv).2
  simpa using this

theorem initSession_cached (emailOf : String → String) (c : ClientState) (st : Store)
    (envStudent envSession : Env) (s : StudentSession)
    (hwf : st.WF) (hs : s ∈ st.studentSessions) (hexam : c.sessionId ≠ "")
    (hcache : getItem c.localStorage (cacheKey c.sessionId) = some s.id) (hne : s.id ≠ "")
    (hreturned : getStudentSessionsPath st s.id = getStudentSessionHandler st s.id) :
    initSession emailOf c st envStudent envSession =
      if s.isActive = false ∨ s.warningCount ≥ 3 then
        (accessDenied
          { c with localStorage := removeItem c.localStorage (cacheKey c.sessionId) }, st)
      else ({ c with studentSessionId := s.id }, st) := by
  have hg := getStudentSessionHandler_found st s hwf.1.2.2.1 hs
  rw [← hreturned] at hg
  have hok : fetchOk { status := 200, body := .studentSessionWithDetails (withDetails st s) } =
      true := rfl
  have h1 : (withDetails st s).isActive = s.isActive := rfl
  have h2 : (withDetails st s).warningCount = s.warningCount := rfl
  unfold initSession
  rw [if_neg hexam]
  simp only [hcache, Option.getD_some, hg, hok, and_true, h1, h2]
  rw [if_pos hne]

theorem fanout_targets (clients : List WebSocketClient) (m m' : ServerMessage) (k : Nat)
    (h : (k, m') ∈ (clients.filter
      (fun c => c.role = some Role.admin ∧ c.readyState = ReadyState.isOpen)).map
      (fun c => (c.conn, m))) :
    m' = m ∧ ∃ a ∈ clients, a.conn = k ∧ a.role = some Role.admin ∧
      a.readyState = ReadyState.isOpen := by
  obtain ⟨hm, a, ha, hak, hp⟩ := mem_fanout clients _ m m' k h
  exact ⟨hm, a, ha, hak, by simpa using hp⟩

theorem fanout_reaches (clients : List WebSocketClient) (m : ServerMessage)
    (a : WebSocketClient) (ha : a ∈ clients) (hrole : a.role = some Role.admin)
    (hopen : a.readyState = ReadyState.isOpen) :
    (a.conn, m) ∈ (clients.filter
      (fun c => c.role = some Role.admin ∧ c.readyState = ReadyState.isOpen)).map
      (fun c => (c.conn, m)) :=
  List.mem_map.2 ⟨a, List.mem_filter.2 ⟨ha, by simp [hrole, hopen]⟩, rfl⟩

theorem relay_frames (clients : List WebSocketClient) (ws : WebSocketClient)
    (violationType details warningCount : JsonValue) (now : Timestamp) :
    (onMessage clients ws (.violation violationType details warningCount) now).2.2 =
      if ws.sessionId.truthy = true then
        broadcastViolationAlert clients
          (.violationAlert ws.sessionId violationType details warningCount now)
      else [] := by
  unfold onMessage
  cases ws.sessionId.truthy <;> rfl

theorem getItem_setItem (ls : List (String × String)) (key value : String) :
    getItem (setItem ls key value) key = some value := by
  unfold getItem setItem
  have hnone : (removeItem ls key).find? (fun kv => kv.1 = key) = none := by
    rw [List.find?_eq_none]
    intro kv hkv
    unfold removeItem at hkv
    have := (List.mem_filter.1 hkv).2
    simpa using this
  rw [List.find?_append, hnone]
  simp

theorem path_plain (st : Store) (id : String) (h1 : id ≠ "active")
    (h2 : id ≠ "by-student-exam") :
    getStudentSessionsPath st id = getStudentSessionHandler st id := by
  unfold getStudentSessionsPath
  rw [if_neg h1, if_neg h2]

theorem initSessionCreate_cached (c : ClientState) (st : Store) (env : Env) (sid : String) :
    cachedOrKept c (initSessionCreate c st env sid).1 := by
  unfold initSessionCreate
  simp only
  split_ifs
  · split
    · exact Or.inr (getItem_setItem _ _ _)
    · exact Or.inl rfl
  · split
    · exact Or.inl rfl
    · exact Or.inl rfl

theorem initSessionJoin_cached (c : ClientState) (st : Store) (env : Env) (sid : String) :
    cachedOrKept c (initSessionJoin c st env sid).1 := by
  unfold initSessionJoin
  simp only
  split_ifs
  · split
    · split
      · exact Or.inl rfl
      · split
        · exact Or.inr (getItem_setItem _ _ _)
        · exact initSessionCreate_cached c st env sid
    · exact initSessionCreate_cached c st env sid
  · exact initSessionCreate_cached c st env sid

theorem storedStudent_page (emailOf : String → String) (c : ClientState) (st : Store) :
    (storedStudent emailOf c st).2.sessionId = c.sessionId ∧
    (storedStudent emailOf c st).2.studentSessionId = c.studentSessionId := by
  unfold storedStudent
  simp only
  split_ifs
  · split <;> exact ⟨rfl, rfl⟩
  · exact ⟨rfl, rfl⟩

theorem initSessionStudent_page (emailOf : String → String) (c : ClientState) (st : Store)
    (env : Env) :
    (initSessionStudent emailOf c st env).2.1.sessionId = c.sessionId ∧
    (initSessionStudent emailOf c st env).2.1.studentSessionId = c.studentSessionId := by
  have hs := storedStudent_page emailOf c st
  unfold initSessionStudent
  simp only
  split_ifs
  · split
    · exact hs
    · exact hs
  · exact hs
  · exact hs

theorem initSessionFresh_cached (emailOf : String → String) (c : ClientState) (st : Store)
    (envStudent envSession : Env) :
    cachedOrKept c (initSessionFresh emailOf c st envStudent envSession).1 := by
  have hp := initSessionStudent_page emailOf c st envStudent
  unfold initSessionFresh
  split
  · rename_i sid c2 st2 hst
    rw [hst] at hp
    have := initSessionJoin_cached c2 st2 envSession sid
    unfold cachedOrKept at this ⊢
    rw [hp.1, hp.2] at this
    exact this
  · rename_i c2 st2 hst
    rw [hst] at hp
    exact Or.inl hp.2

theorem initSession_cached_or_kept (emailOf : String → String) (c : ClientState) (st : Store)
    (envStudent envSession : Env) :
    cachedOrKept c (initSession emailOf c st envStudent envSession).1 := by
  have hfresh : ∀ c0 : ClientState, c0.sessionId = c.sessionId →
      c0.studentSessionId = c.studentSessionId →
      cachedOrKept c (initSessionFresh emailOf c0 st envStudent envSession).1 := by
    intro c0 h1 h2
    have := initSessionFresh_cached emailOf c0 st envStudent envSession
    unfold cachedOrKept at this ⊢
    rw [h1, h2] at this
    exact this
  unfold initSession
  by_cases h1 : c.sessionId = ""
  · simp only [h1, if_true]
    exact Or.inl rfl
  · simp only [h1, if_false]
    split_ifs with h2 h3
    · split
      · split_ifs
        · exact Or.inl rfl
        · right
          show getItem c.localStorage (cacheKey c.sessionId) = some _
          cases hg : getItem c.localStorage (cacheKey c.sessionId) with
          | none => rw [hg] at h2; simp at h2
          | some v => rfl
      · exact Or.inl rfl
      · exact Or.inl rfl
    · exact hfresh _ rfl rfl
    · exact hfresh _ rfl rfl

theorem initSessionStudent_store (emailOf : String → String) (c : ClientState) (st : Store)
    (env : Env) :
    (initSessionStudent emailOf c st env).2.2 = st ∨
    ∃ body, (initSessionStudent emailOf c st env).2.2 = (serve st (.postStudents env body)).2 := by
  unfold initSessionStudent
  simp only
  split_ifs
  · split
    · exact Or.inr ⟨_, rfl⟩
    · exact Or.inr ⟨_, rfl⟩
  · exact Or.inr ⟨_, rfl⟩
  · exact Or.inl rfl

theorem initSessionJoin_store (c : ClientState) (st : Store) (env : Env) (sid : String) :
    (initSessionJoin c st env sid).2 = st ∨
    ∃ body, (initSessionJoin c st env sid).2 = (serve st (.postStudentSessions env body)).2 := by
  have hc : ∃ body, (initSessionCreate c st env sid).2 =
      (serve st (.postStudentSessions env body)).2 := by
    refine ⟨some { studentId := sid, sessionId := c.sessionId, warningCount := some 0,
                   isActive := some true }, ?_⟩
    unfold initSessionCreate
    simp only
    split_ifs
    · split <;> rfl
    · split <;> rfl
  unfold initSessionJoin
  simp only
  split_ifs
  · split
    · split
      · exact Or.inl rfl
      · split
        · exact Or.inl rfl
        · exact Or.inr hc
    · exact Or.inr hc
  · exact Or.inr hc

theorem WF_initSession (emailOf : String → String) (c : ClientState) (st : Store)
    (envStudent envSession : Env) (hwf : st.WF) :
    (initSession emailOf c st envStudent envSession).2.WF := by
  have hfresh : ∀ c0 : ClientState,
      (initSessionFresh emailOf c0 st envStudent envSession).2.WF := by
    intro c0
    have h1 := initSessionStudent_store emailOf c0 st envStudent
    have hwf1 : (initSessionStudent emailOf c0 st envStudent).2.2.WF := by
      rcases h1 with h | ⟨body, h⟩
      · rw [h]; exact hwf
      · rw [h]; exact WF_serve st _ hwf
    unfold initSessionFresh
    split
    · rename_i sid c2 st2 hst
      rw [hst] at hwf1
      rcases initSessionJoin_store c2 st2 envSession sid with h | ⟨body, h⟩
      · rw [h]; exact hwf1
      · rw [h]; exact WF_serve st2 _ hwf1
    · rename_i c2 st2 hst
      rw [hst] at hwf1
      exact hwf1
  unfold initSession
  by_cases h1 : c.sessionId = ""
  · simp only [h1, if_true]
    exact hwf
  · simp only [h1, if_false]
    split_ifs
    · split
      · split_ifs <;> exact hwf
      · exact hwf
      · exact hwf
    · exact hfresh _
    · exact hfresh _

theorem initSession_lookup (emailOf : String → String) (c : ClientState) (st : Store)
    (envStudent envSession : Env) (sid : String) (hexam : c.sessionId ≠ "")
    (hcache : getItem c.localStorage (cacheKey c.sessionId) = none)
    (hstudent : getItem c.localStorage "studentId" = some sid) (hsid : sid ≠ "") :
    initSession emailOf c st envStudent envSession = initSessionJoin c st envSession sid := by
  have hlooked : storedStudent emailOf c st = (sid, c) := by
    unfold storedStudent
    simp only [hstudent, Option.getD_some, if_neg hsid]
  have hst : initSessionStudent emailOf c st envStudent = (some sid, c, st) := by
    unfold initSessionStudent
    simp only [hlooked, if_neg hsid]
  unfold initSession
  rw [if_neg hexam]
  simp only [hcache, Option.getD_none, ne_eq, not_true_eq_false, false_and, if_false]
  unfold initSessionFresh
  rw [hst]

theorem initSessionJoin_resume (c : ClientState) (st : Store) (env : Env) (sid : String)
    (hsid : sid ≠ "") (heid : c.sessionId ≠ "") (hfree : ¬ lockedOut st sid c.sessionId)
    (hactive : ∃ a ∈ st.studentSessions, ofPair sid c.sessionId a ∧ a.isActive = true) :
    (initSessionJoin c st env sid).2 = st ∧
    ∃ a ∈ st.studentSessions, ofPair sid c.sessionId a ∧ a.isActive = true ∧
      (initSessionJoin c st env sid).1.studentSessionId = a.id := by
  have h1 := initSessionJoin_eq c st env sid hsid heid
  rw [terminated_find_none st sid c.sessionId hfree] at h1
  simp only at h1
  cases hfa : (getStudentSessionsByStudentAndExam st sid c.sessionId).find?
      (fun x => x.toStudentSession.isActive) with
  | some d =>
    rw [hfa] at h1
    simp only at h1
    obtain ⟨t, ht, htp, hta, hd⟩ :=
      lookup_find_some st sid c.sessionId (fun s => s.isActive) d hfa
    rw [h1]
    refine ⟨rfl, t, ht, htp, hta, ?_⟩
    rw [hd]
    rfl
  | none =>
    have hnone := (lookup_find_none st sid c.sessionId (fun s => s.isActive)).1 hfa
    obtain ⟨a, ha, hap, haa⟩ := hactive
    have := hnone a ha hap
    rw [this] at haa
    exact absurd haa (by decide)

theorem handleViolations_three (c0 : ClientState) (s0 : Store)
    (clients : List WebSocketClient) (ev1 ev2 ev3 : ViolationEvent) (s : StudentSession)
    (hwf : s0.WF) (hs : s ∈ s0.studentSessions) (hact : c0.isSessionActive = true)
    (hid : c0.studentSessionId = s.id) (hne : s.id ≠ "") (hzero : s.warningCount = 0)
    (hv : ([ev1.env.uuid, ev2.env.uuid, ev3.env.uuid] ++
      s0.violations.map (fun x => x.id)).Nodup) :
    (handleViolations c0 s0 clients [ev1, ev2]).1.isSessionActive = true ∧
    (handleViolations c0 s0 clients [ev1, ev2, ev3]).1.isSessionActive = false ∧
    (handleViolations c0 s0 clients [ev1, ev2, ev3]).2.WF ∧
    bumpWarning (bumpWarning (bumpWarning s)) ∈
      (handleViolations c0 s0 clients [ev1, ev2, ev3]).2.studentSessions := by
  simp only [List.cons_append, List.nil_append, List.nodup_cons, List.mem_cons, not_or] at hv
  obtain ⟨⟨h12, h13, hf1⟩, ⟨h23, hf2⟩, hf3, _⟩ := hv
  obtain ⟨R1, hR1⟩ : ∃ R, R = handleViolation c0 s0 clients ev1.env ev1.now ev1.type
    ev1.details := ⟨_, rfl⟩
  have H1 := handleViolation_warn c0 s0 clients ev1.env ev1.now ev1.type ev1.details s
    hwf hs hact hid hne hf1 (by rw [hzero]; decide)
  rw [← hR1] at H1
  obtain ⟨H1wf, H1mem, H1act, H1id, H1v⟩ := H1
  have hf2' : ev2.env.uuid ∉ R1.2.1.violations.map (fun x => x.id) := by
    rw [H1v]
    simp only [List.mem_append, List.mem_singleton, not_or]
    exact ⟨hf2, fun e => h12 e.symm⟩
  obtain ⟨R2, hR2⟩ : ∃ R, R = handleViolation R1.1 R1.2.1 clients ev2.env ev2.now ev2.type
    ev2.details := ⟨_, rfl⟩
  have H2 := handleViolation_warn R1.1 R1.2.1 clients ev2.env ev2.now ev2.type ev2.details
    (bumpWarning s) H1wf H1mem H1act H1id hne hf2'
    (by simp only [bumpWarning]; rw [hzero]; decide)
  rw [← hR2] at H2
  obtain ⟨H2wf, H2mem, H2act, H2id, H2v⟩ := H2
  have hf3' : ev3.env.uuid ∉ R2.2.1.violations.map (fun x => x.id) := by
    rw [H2v, H1v]
    simp only [List.mem_append, List.mem_singleton, not_or]
    exact ⟨⟨hf3, fun e => h13 e.symm⟩, fun e => h23 e.symm⟩
  have hsid2 : (bumpWarning (bumpWarning s)).id ∈ R2.2.1.studentSessions.map (fun x => x.id) :=
    List.mem_map_of_mem _ H2mem
  have hcount : (bumpWarning (bumpWarning s)).warningCount + 1 = 3 := by
    simp only [bumpWarning]
    rw [hzero]
    rfl
  have H3 := handleViolation_run R2.1 R2.2.1 clients ev3.env ev3.now ev3.type ev3.details
    (bumpWarning (bumpWarning s)) H2wf H2mem H2act H2id hne hf3'
    (by rw [hcount]; decide)
  rw [if_pos (by rw [hcount])] at H3
  have hwf3a := WF_withViolation R2.2.1 (violationRow ev3.env
    { studentSessionId := (bumpWarning (bumpWarning s)).id,
      type := ev3.type, details := some ev3.details }) H2wf hsid2 hf3'
  have hwf3 := WF_updateRow _ (bumpWarning (bumpWarning s)).id
    bumpWarning bumpWarning_keys hwf3a
  have hmem3 := mem_updateRow (withViolation R2.2.1 (violationRow ev3.env
      { studentSessionId := (bumpWarning (bumpWarning s)).id,
        type := ev3.type, details := some ev3.details })) (bumpWarning (bumpWarning s))
    bumpWarning H2mem
  have hrun2 : handleViolations c0 s0 clients [ev1, ev2] = (R2.1, R2.2.1) := by
    subst hR2
    subst hR1
    rfl
  have hrun3 : handleViolations c0 s0 clients [ev1, ev2, ev3] =
      ((handleViolation R2.1 R2.2.1 clients ev3.env ev3.now ev3.type ev3.details).1,
       (handleViolation R2.1 R2.2.1 clients ev3.env ev3.now ev3.type ev3.details).2.1) := by
    subst hR2
    subst hR1
    rfl
  rw [hrun2, hrun3, H3]
  exact ⟨H2act, rfl, hwf3, hmem3⟩

/-! ## Lemmas on the clock text -/

theorem pad_two_digits : ∀ n, n < 60 →
    (padStart (toString n) 2 '0').data = [Nat.digitChar (n / 10), Nat.digitChar (n % 10)] := by
  decide

theorem pad_one_digit : ∀ n, n < 10 → padStart (toString n) 2 '0' = "0" ++ toString n := by
  decide

theorem padStart_length (t : String) (n : Nat) (p : Char) :
    (padStart t n p).length = max n t.length := by
  unfold padStart
  rw [String.length_append]
  simp only [String.length_mk, List.length_replicate]
  omega

theorem padStart_long (t : String) (n : Nat) (p : Char) (h : n ≤ t.length) :
    padStart t n p = t := by
  unfold padStart
  rw [Nat.sub_eq_zero_of_le h]
  apply String.ext
  simp

theorem toDigitsCore_length_ge (b f n : Nat) (l : List Char) :
    l.length ≤ (Nat.toDigitsCore b f n l).length := by
  induction f generalizing n l with
  | zero => simp [Nat.toDigitsCore]
  | succ f ih =>
    simp only [Nat.toDigitsCore]
    split
    · simp
    · exact le_trans (by simp) (ih _ _)

theorem repr_length_ge (n : Nat) (h : 10 ≤ n) : 2 ≤ (toString n).length := by
  show 2 ≤ (Nat.repr n).length
  simp only [Nat.repr, Nat.toDigits, List.asString, String.length]
  obtain ⟨f, rfl⟩ : ∃ f, n = f + 1 := ⟨n - 1, by omega⟩
  have h1 : (f + 1) / 10 ≠ 0 := by omega
  rw [show f + 1 + 1 = (f + 1) + 1 from rfl, Nat.toDigitsCore]
  simp only [h1, if_false]
  rw [Nat.toDigitsCore]
  split
  · simp
  · exact le_trans (by simp) (toDigitsCore_length_ge _ _ _ _)

theorem toDigitsCore_digits (f : Nat) : ∀ (n : Nat) (l : List Char), 0 < n → n < f →
    Nat.toDigitsCore 10 f n l = ((Nat.digits 10 n).reverse.map Nat.digitChar) ++ l := by
  induction f with
  | zero => intro n l _ h; omega
  | succ f ih =>
    intro n l hpos hlt
    rw [Nat.toDigitsCore, Nat.digits_def' (by decide) hpos]
    by_cases h0 : n / 10 = 0
    · simp [h0]
    · rw [if_neg h0, ih (n / 10) _ (by omega) (by omega)]
      simp

theorem toString_decimal (n : Nat) :
    (toString n).data =
      if n = 0 then ['0'] else (Nat.digits 10 n).reverse.map Nat.digitChar := by
  by_cases h : n = 0
  · subst h
    rfl
  · rw [if_neg h]
    show (Nat.repr n).data = _
    simp only [Nat.repr, Nat.toDigits, List.asString]
    rw [toDigitsCore_digits (n + 1) n [] (by omega) (by omega)]
    simp

/-! ## Claims -/

/-- C1: when the store holds a lockout record (isActive = false and
warningCount >= 3) for the pair of a valid join request, the handler of
POST /api/student-sessions answers 403 with terminated = true and a lockout
record of that pair as `session` (the given one when it is the only one), and
the store is unchanged, so no StudentSession is created. -/
theorem join_rejected_when_locked_out (st : Store) (env : Env) (body : InsertStudentSession)
    (s : StudentSession) (hs : s ∈ st.studentSessions)
    (hpair : ofPair body.studentId body.sessionId s) (hlock : isLockoutRecord s) :
    ∃ t, t ∈ st.studentSessions ∧ ofPair body.studentId body.sessionId t ∧
      isLockoutRecord t ∧
      postStudentSessionsHandler st env (some body) =
        ({ status := 403,
           body := .terminated "Student has been terminated from this exam due to violations"
             true (withDetails st t) }, st) ∧
      ((∀ u ∈ st.studentSessions, ofPair body.studentId body.sessionId u →
          isLockoutRecord u → u = s) → t = s) := by
  cases hf : (getStudentSessionsByStudentAndExam st body.studentId body.sessionId).find?
      (fun x => terminatedTest x.toStudentSession) with
  | none =>
    have h := (lookup_find_none st _ _ terminatedTest).1 hf s hs hpair
    have h2 := (terminatedTest_iff s).2 hlock
    rw [h2] at h
    exact absurd h (by decide)
  | some d =>
    obtain ⟨t, ht, htp, htt, hd⟩ := lookup_find_some st _ _ terminatedTest d hf
    have hl := (terminatedTest_iff t).1 htt
    refine ⟨t, ht, htp, hl, ?_, fun huniq => huniq t ht htp hl⟩
    have hf2 : (getStudentSessionsByStudentAndExam st body.studentId body.sessionId).find?
        (fun s => !s.isActive && decide (s.warningCount ≥ 3)) = some d := hf
    simp only [postStudentSessionsHandler, hf2, hd]

/-- Instance of C1: one student, one exam, one closed session with three
warnings; the join is answered 403 and the store stays as it was. -/
theorem join_rejected_when_locked_out_witness :
    ∃ t, t ∈ lockedStore.studentSessions ∧ ofPair "s1" "e1" t ∧ isLockoutRecord t ∧
      postStudentSessionsHandler lockedStore { uuid := "y", now := 10 } (some plainJoin) =
        ({ status := 403,
           body := .terminated "Student has been terminated from this exam due to violations"
             true (withDetails lockedStore t) }, lockedStore) ∧
      ((∀ u ∈ lockedStore.studentSessions, ofPair "s1" "e1" u → isLockoutRecord u →
          u = lockedSession) → t = lockedSession) :=
  join_rejected_when_locked_out lockedStore { uuid := "y", now := 10 } plainJoin lockedSession
    (by decide) (by decide) (by decide)

/-- C2, as stated, fails: a lockout record exists for Ann and the exam, the
request PATCH /api/student-sessions/x with isActive = true is served, and the
join that follows is answered 201. -/
theorem lockout_undone_by_patch :
    lockedOut lockedStore "s1" "e1" ∧
    (postStudentSessionsHandler (serveAll lockedStore [.patchStudentSession "x" reopenBody])
      { uuid := "y", now := 10 } (some plainJoin)).1.status = 201 := by
  decide

/-- C2, amended: once the store holds a lockout record for a pair, then after
every finite sequence of requests (student and exam creation, exam update, join,
warning increment, violation creation, and StudentSession PATCHes whose body
leaves studentId and sessionId alone, does not set isActive to true and does not
set warningCount below 3) a join for the pair is answered 403 with
terminated = true and a lockout record of the pair, and leaves the store as it
is; join requests in the sequence count as retries. -/
theorem lockout_survives_requests (st : Store) (reqs : List Request)
    (hreqs : ∀ r ∈ reqs, r.keepsLockout) (env : Env) (body : InsertStudentSession)
    (h : lockedOut st body.studentId body.sessionId) :
    ∃ t, t ∈ (serveAll st reqs).studentSessions ∧
      ofPair body.studentId body.sessionId t ∧ isLockoutRecord t ∧
      postStudentSessionsHandler (serveAll st reqs) env (some body) =
        ({ status := 403,
           body := .terminated "Student has been terminated from this exam due to violations"
             true (withDetails (serveAll st reqs) t) }, serveAll st reqs) := by
  have hfinal := lockedOut_serveAll reqs st body.studentId body.sessionId hreqs h
  exact join_of_lockedOut (serveAll st reqs) env body hfinal

/-- Instance of the amended C2: a join retry, a warning on the lockout record
and the client's close request are served, and the next join is still 403. -/
theorem lockout_survives_requests_witness :
    ∃ t, t ∈ (serveAll lockedStore
        [.postStudentSessions { uuid := "y", now := 10 } (some plainJoin), .postWarning "x",
         .patchStudentSession "x" (closeBody 11)]).studentSessions ∧
      ofPair "s1" "e1" t ∧ isLockoutRecord t ∧
      postStudentSessionsHandler (serveAll lockedStore
        [.postStudentSessions { uuid := "y", now := 10 } (some plainJoin), .postWarning "x",
         .patchStudentSession "x" (closeBody 11)]) { uuid := "z", now := 12 } (some plainJoin) =
        ({ status := 403,
           body := .terminated "Student has been terminated from this exam due to violations"
             true (withDetails (serveAll lockedStore
               [.postStudentSessions { uuid := "y", now := 10 } (some plainJoin),
                .postWarning "x", .patchStudentSession "x" (closeBody 11)]) t) },
         serveAll lockedStore
           [.postStudentSessions { uuid := "y", now := 10 } (some plainJoin), .postWarning "x",
            .patchStudentSession "x" (closeBody 11)]) :=
  lockout_survives_requests lockedStore
    [.postStudentSessions { uuid := "y", now := 10 } (some plainJoin), .postWarning "x",
     .patchStudentSession "x" (closeBody 11)]
    (by decide) { uuid := "z", now := 12 } plainJoin (by decide)

/-- C3, as stated, fails: Ann's session "a" is active with three warnings.  The
page loads in her browser and `initSession` resumes "a" and caches its id; the
page loads again, `initSession` finds the cached id, shows the lockout screen
and ends without a StudentSession id, although "a" is still active. -/
theorem resumed_session_denied_on_reload :
    (initSession sampleEmailOf returningPage overLimitStore { uuid := "s9", now := 7 }
      { uuid := "n", now := 8 }).1.studentSessionId = "a" ∧
    (initSession sampleEmailOf returningPage overLimitStore { uuid := "s9", now := 7 }
      { uuid := "n", now := 8 }).2 = overLimitStore ∧
    (initSession sampleEmailOf
      { freshPage with
          localStorage := (initSession sampleEmailOf returningPage overLimitStore
            { uuid := "s9", now := 7 } { uuid := "n", now := 8 }).1.localStorage }
      overLimitStore { uuid := "s10", now := 9 } { uuid := "n2", now := 10 }).1.studentSessionId =
        "" ∧
    (initSession sampleEmailOf
      { freshPage with
          localStorage := (initSession sampleEmailOf returningPage overLimitStore
            { uuid := "s9", now := 7 } { uuid := "n", now := 8 }).1.localStorage }
      overLimitStore { uuid := "s10", now := 9 } { uuid := "n2", now := 10 }).1.isTerminated =
        true ∧
    (getStudentSession overLimitStore "a").map (fun d => d.isActive) = some true := by
  decide

/-- C3, amended: `initSession` is called on a page that has just loaded and ends
with the id of a StudentSession `s`, which is active; the page loads again in
the same browser and `initSession` is called a second time, nothing having
happened in between.  When `s` has fewer than 3 warnings the second call ends
with the same id, and when `s` has 3 or more it shows the lockout screen and
clears the cache entry; in both cases it creates nothing: the store is the one
the first call left.  The id of `s` is not a segment that another route
answers.  On a page whose browser holds the student id but no cache entry for
the exam, `initSession` takes the lookup of lines 123-156: when the pair has no
lockout record and has an active StudentSession, the call ends with the id of
an active StudentSession of the pair and leaves the store as it was. -/
theorem page_join_twice (emailOf : String → String) (c c2 : ClientState) (st : Store)
    (envStudent envSession envStudent2 envSession2 : Env) (s : StudentSession)
    (hwf : st.WF) (hexam : c.sessionId ≠ "") (hloaded : c.studentSessionId = "")
    (hs : s ∈ (initSession emailOf c st envStudent envSession).2.studentSessions)
    (hfirst : (initSession emailOf c st envStudent envSession).1.studentSessionId = s.id)
    (hne : s.id ≠ "") (hplain : s.id ≠ "active" ∧ s.id ≠ "by-student-exam")
    (hactive : s.isActive = true)
    (hsame : c2.sessionId = c.sessionId)
    (hbrowser : c2.localStorage =
      (initSession emailOf c st envStudent envSession).1.localStorage) :
    (s.warningCount < 3 →
      initSession emailOf c2 (initSession emailOf c st envStudent envSession).2
          envStudent2 envSession2 =
        ({ c2 with studentSessionId := s.id },
         (initSession emailOf c st envStudent envSession).2)) ∧
    (s.warningCount ≥ 3 →
      initSession emailOf c2 (initSession emailOf c st envStudent envSession).2
          envStudent2 envSession2 =
        (accessDenied
          { c2 with localStorage := removeItem c2.localStorage (cacheKey c2.sessionId) },
         (initSession emailOf c st envStudent envSession).2)) ∧
    (∀ (c3 : ClientState) (st3 : Store) (env3 env4 : Env) (sid : String),
      c3.sessionId ≠ "" → getItem c3.localStorage (cacheKey c3.sessionId) = none →
      getItem c3.localStorage "studentId" = some sid → sid ≠ "" →
      ¬ lockedOut st3 sid c3.sessionId →
      (∃ a ∈ st3.studentSessions, ofPair sid c3.sessionId a ∧ a.isActive = true) →
      (initSession emailOf c3 st3 env3 env4).2 = st3 ∧
      ∃ a ∈ st3.studentSessions, ofPair sid c3.sessionId a ∧ a.isActive = true ∧
        (initSession emailOf c3 st3 env3 env4).1.studentSessionId = a.id) := by
  have hwf1 := WF_initSession emailOf c st envStudent envSession hwf
  have hcache : getItem c2.localStorage (cacheKey c2.sessionId) = some s.id := by
    rw [hbrowser, hsame]
    rcases initSession_cached_or_kept emailOf c st envStudent envSession with h | h
    · rw [hfirst, hloaded] at h
      exact absurd h hne
    · rw [hfirst] at h
      exact h
  have hrun := initSession_cached emailOf c2 _ envStudent2 envSession2 s hwf1 hs
    (by rw [hsame]; exact hexam) hcache hne (path_plain _ s.id hplain.1 hplain.2)
  refine ⟨?_, ?_, ?_⟩
  · intro hlow
    rw [hrun, if_neg]
    rintro (h | h)
    · rw [hactive] at h
      exact absurd h (by decide)
    · omega
  · intro h3
    rw [hrun, if_pos (Or.inr h3)]
  · intro c3 st3 env3 env4 sid h1 h2 h3 h4 h5 h6
    rw [initSession_lookup emailOf c3 st3 env3 env4 sid h1 h2 h3 h4]
    exact initSessionJoin_resume c3 st3 env4 sid h4 h1 h5 h6

/-- Instance of the amended C3: Ann's browser holds her student id; the page
loads, `initSession` creates the session "a", and a reload ends with "a" again
and creates nothing. -/
theorem page_join_twice_witness :
    initSession sampleEmailOf
        { freshPage with
            localStorage := (initSession sampleEmailOf returningPage baseStore
              { uuid := "s9", now := 1 } { uuid := "a", now := 2 }).1.localStorage }
        (initSession sampleEmailOf returningPage baseStore { uuid := "s9", now := 1 }
          { uuid := "a", now := 2 }).2
        { uuid := "s10", now := 3 } { uuid := "b", now := 4 } =
      ({ { freshPage with
             localStorage := (initSession sampleEmailOf returningPage baseStore
               { uuid := "s9", now := 1 } { uuid := "a", now := 2 }).1.localStorage } with
           studentSessionId := "a" },
       (initSession sampleEmailOf returningPage baseStore { uuid := "s9", now := 1 }
         { uuid := "a", now := 2 }).2) :=
  (page_join_twice sampleEmailOf returningPage
    { freshPage with
        localStorage := (initSession sampleEmailOf returningPage baseStore
          { uuid := "s9", now := 1 } { uuid := "a", now := 2 }).1.localStorage }
    baseStore { uuid := "s9", now := 1 } { uuid := "a", now := 2 } { uuid := "s10", now := 3 }
    { uuid := "b", now := 4 } (freshRow { uuid := "a", now := 2 } "s1" "e1")
    (by decide) (by decide) (by decide) (by decide) (by decide) (by decide) (by decide)
    (by decide) (by decide) (by decide)).1 (by decide)

/-- C4, as stated, fails: from the empty store the server creates a student and
an exam and serves two join requests for the pair; both are answered by a new
active StudentSession, so the pair has two active sessions. -/
theorem two_active_sessions_by_direct_joins :
    activeCount
      (serveAll Store.empty
        [.postStudents { uuid := "s1", now := 0 } (some { name := "Ann", email := "ann@exam.test" }),
         .postExamSessions { uuid := "e1", now := 0 }
           (some { title := "Algebra", description := none, duration := 60, isActive := none }),
         .postStudentSessions { uuid := "a", now := 1 } (some plainJoin),
         .postStudentSessions { uuid := "b", now := 2 } (some plainJoin)])
      "s1" "e1" = 2 := by
  decide

/-- C4, amended: in every store state reached from the empty store by runs in
which StudentSessions are created by the exam page's `initSession` only (its
lookup before create), next to any other requests (student and exam creation,
exam update, warning increment, violation creation, and StudentSession PATCHes
whose body leaves studentId and sessionId alone and does not set isActive to
true), at most one StudentSession with isActive = true exists per pair.  New
student ids are non-empty strings. -/
theorem at_most_one_active_via_page (steps : List PageStep) (hok : ∀ p ∈ steps, p.ok)
    (studentId sessionId : String) :
    activeCount (pageRun Store.empty steps) studentId sessionId ≤ 1 := by
  have h0 : noTwoActive Store.empty.studentSessions := by
    unfold noTwoActive
    exact List.Pairwise.nil
  exact activeCount_le_one _ (noTwoActive_pageRun steps Store.empty hok h0) studentId sessionId

/-- Instance of the amended C4: in `sampleRun` the second page resumes the session
of the first, and the pair has one active session. -/
theorem at_most_one_active_via_page_witness :
    activeCount (pageRun Store.empty sampleRun) "s1" "e1" ≤ 1 ∧
    activeCount (pageRun Store.empty sampleRun) "s1" "e1" = 1 :=
  ⟨at_most_one_active_via_page sampleRun (by decide) "s1" "e1", by decide⟩

/-- C5, as stated, fails: no lockout record and no active session exist for Ann
and the exam, the join body carries warningCount = 5 and isActive = false, and
the session created with status 201 has warningCount = 5 and isActive = false. -/
theorem join_takes_counters_from_body :
    ¬ lockedOut baseStore "s1" "e1" ∧ activeCount baseStore "s1" "e1" = 0 ∧
    (postStudentSessionsHandler baseStore { uuid := "a", now := 1 } (some loadedJoin)).1 =
      { status := 201,
        body := .studentSession
          { id := "a", studentId := "s1", sessionId := "e1", warningCount := 5,
            isActive := false, joinedAt := 1, leftAt := none } } := by
  decide

/-- C5, amended: for every join request with a body the schema accepts, whose
student and exam exist and for whose pair no lockout record exists, in a store
that meets its constraints, with a generated id not yet in use, the join is
answered 201 with the StudentSession it appends to the store; that session has
the warningCount of the body, or 0 when the body has none, and the isActive of
the body, or true when the body has none.  So it has warningCount = 0 and
isActive = true when the body leaves both keys out or carries 0 and true. -/
theorem join_creates_session (st : Store) (env : Env) (body : InsertStudentSession)
    (hwf : st.WF)
    (hstudent : body.studentId ∈ st.students.map (fun x => x.id))
    (hexam : body.sessionId ∈ st.examSessions.map (fun e => e.id))
    (hfresh : env.uuid ∉ st.studentSessions.map (fun s => s.id))
    (hfree : ¬ lockedOut st body.studentId body.sessionId) :
    ∃ session : StudentSession,
      postStudentSessionsHandler st env (some body) =
        ({ status := 201, body := .studentSession session },
         { st with studentSessions := st.studentSessions ++ [session] }) ∧
      session.id = env.uuid ∧ session.studentId = body.studentId ∧
      session.sessionId = body.sessionId ∧
      session.warningCount = body.warningCount.getD 0 ∧
      session.isActive = body.isActive.getD true ∧
      ((body.warningCount = none ∨ body.warningCount = some 0) → session.warningCount = 0) ∧
      ((body.isActive = none ∨ body.isActive = some true) → session.isActive = true) := by
  refine ⟨{ id := env.uuid, studentId := body.studentId, sessionId := body.sessionId,
            warningCount := body.warningCount.getD 0, isActive := body.isActive.getD true,
            joinedAt := env.now, leftAt := none }, ?_, rfl, rfl, rfl, rfl, rfl, ?_, ?_⟩
  · rw [postStudentSessions_free st env body hfree]
    unfold createStudentSession
    simp only
    rw [commit_of_WF (WF_append_session st _ hwf hstudent hexam hfresh)]
  · rintro (h | h) <;> simp [h]
  · rintro (h | h) <;> simp [h]

/-- Instance of the amended C5: Ann joins the exam with a body without the
optional keys. -/
theorem join_creates_session_witness :
    ∃ session : StudentSession,
      postStudentSessionsHandler baseStore { uuid := "a", now := 1 } (some plainJoin) =
        ({ status := 201, body := .studentSession session },
         { baseStore with studentSessions := baseStore.studentSessions ++ [session] }) ∧
      session.id = "a" ∧ session.studentId = "s1" ∧ session.sessionId = "e1" ∧
      session.warningCount = plainJoin.warningCount.getD 0 ∧
      session.isActive = plainJoin.isActive.getD true ∧
      ((plainJoin.warningCount = none ∨ plainJoin.warningCount = some 0) →
        session.warningCount = 0) ∧
      ((plainJoin.isActive = none ∨ plainJoin.isActive = some true) →
        session.isActive = true) :=
  join_creates_session baseStore { uuid := "a", now := 1 } plainJoin
    (by decide) (by decide) (by decide) (by decide) (by decide)

/-- C6, as stated, fails: the session "m" exists and its warningCount is the
largest value of the `integer` column; `incrementWarningCount` raises, the route
answers 500 and the store is as it was, the count included. -/
theorem increment_refused_at_largest_count :
    fullSession ∈ fullStore.studentSessions ∧
    incrementWarningCount fullStore "m" = .error .integerRange ∧
    postWarningHandler fullStore "m" =
      ({ status := 500, body := .error "integer out of range" }, fullStore) := by
  decide

/-- C6, amended: in a store that meets its constraints, for the id of an
existing StudentSession `s` whose warningCount is below 2147483647,
`incrementWarningCount` returns `s` with warningCount raised by exactly 1 and
every other field as it was; in the store after the call that record stands in
the place of `s`, every other StudentSession and the three other relations are
unchanged, and the route POST /api/student-sessions/:id/warning answers 200 with
that record.  At 2147483647 and above the call raises, the route answers 500
and the store is unchanged. -/
theorem increment_adds_one (st : Store) (s : StudentSession) (hwf : st.WF)
    (hs : s ∈ st.studentSessions) :
    (s.warningCount < int4Max →
      incrementWarningCount st s.id =
        .ok (some { s with warningCount := s.warningCount + 1 },
         { st with
             studentSessions := st.studentSessions.map
               (fun x => if x = s then { s with warningCount := s.warningCount + 1 } else x) }) ∧
      postWarningHandler st s.id =
        ({ status := 200,
           body := .studentSession { s with warningCount := s.warningCount + 1 } },
         { st with
             studentSessions := st.studentSessions.map
               (fun x => if x = s then { s with warningCount := s.warningCount + 1 }
                 else x) })) ∧
    (int4Max ≤ s.warningCount →
      incrementWarningCount st s.id = .error .integerRange ∧
      postWarningHandler st s.id =
        ({ status := 500, body := .error "integer out of range" }, st)) := by
  have hnd := hwf.1.2.2.1
  constructor
  · intro hroom
    have hinc : incrementWarningCount st s.id =
        .ok (some { s with warningCount := s.warningCount + 1 },
         { st with
             studentSessions := st.studentSessions.map
               (fun x => if x = s then { s with warningCount := s.warningCount + 1 }
                 else x) }) := by
      rw [increment_found st s hnd hs (by omega)]
      unfold updateRow
      rw [map_if_id _ hnd s hs bumpWarning]
      rfl
    refine ⟨hinc, ?_⟩
    unfold postWarningHandler
    rw [hinc]
  · intro hfull
    exact ⟨incrementWarningCount_full st s hs hfull, postWarning_full st s hs hfull⟩

/-- Instance of the amended C6: one warning for the session "a" of
`warnedStore`. -/
theorem increment_adds_one_witness :
    incrementWarningCount warnedStore "a" =
      .ok (some { warnedSession with warningCount := 2 + 1 },
       { warnedStore with
           studentSessions := warnedStore.studentSessions.map
             (fun x => if x = warnedSession then { warnedSession with warningCount := 2 + 1 }
               else x) }) ∧
    postWarningHandler warnedStore "a" =
      ({ status := 200,
         body := .studentSession { warnedSession with warningCount := 2 + 1 } },
       { warnedStore with
           studentSessions := warnedStore.studentSessions.map
             (fun x => if x = warnedSession then { warnedSession with warningCount := 2 + 1 }
               else x) }) :=
  (increment_adds_one warnedStore warnedSession (by decide) (by decide)).1 (by decide)

/-- C7, as stated, fails: the count of the session "m" is 2147483647; after one
`recordWarning` call for it the count is still 2147483647, not one more. -/
theorem warning_lost_at_largest_count :
    (getStudentSession fullStore "m").map (fun d => d.warningCount) = some 2147483647 ∧
    (getStudentSession (recordWarnings fullStore ["m"]) "m").map (fun d => d.warningCount) =
      some 2147483647 := by
  decide

/-- C7, amended: in a store that meets its constraints, after any sequence of
`recordWarning` calls of which N are for the existing StudentSession `s` and the
others for other ids, in any order, the record of `s` in the store is `s` with
warningCount the smaller of its initial count plus N and 2147483647, and a read
of the session by its id returns that record.  So the final count is the initial
count plus N whenever that sum is at most 2147483647; calls beyond it raise and
change nothing. -/
theorem warnings_add_up (st : Store) (s : StudentSession) (hwf : st.WF)
    (hs : s ∈ st.studentSessions) (hle : s.warningCount ≤ int4Max) (ids : List String)
    (N : Nat) (hN : ids.count s.id = N) :
    { s with warningCount := min (s.warningCount + (N : Int)) int4Max } ∈
      (recordWarnings st ids).studentSessions ∧
    (getStudentSession (recordWarnings st ids) s.id).map (fun d => d.toStudentSession) =
      some { s with warningCount := min (s.warningCount + (N : Int)) int4Max } ∧
    (s.warningCount + (N : Int) ≤ int4Max →
      (getStudentSession (recordWarnings st ids) s.id).map (fun d => d.warningCount) =
        some (s.warningCount + (N : Int))) := by
  have key := recordWarnings_count ids st s hwf.1.2.2.1 hs hle
  rw [hN] at key
  have hread : (getStudentSession (recordWarnings st ids) s.id).map
      (fun d => d.toStudentSession) =
      some { s with warningCount := min (s.warningCount + (N : Int)) int4Max } := by
    unfold getStudentSession
    have hh := filter_id_head _ key.1 _ key.2
    simp only at hh
    rw [List.head?_map, hh]
    rfl
  refine ⟨key.2, hread, ?_⟩
  intro hroom
  have := congrArg (Option.map (fun x : StudentSession => x.warningCount)) hread
  simp only [Option.map_map, Option.map_some'] at this
  rw [min_eq_left hroom] at this
  exact this

/-- Instance of the amended C7: two warnings for "a" around one for "b" take the
count of "a" from 2 to 4. -/
theorem warnings_add_up_witness :
    (getStudentSession (recordWarnings warnedStore ["a", "b", "a"]) "a").map
      (fun d => d.warningCount) = some (2 + ((2 : Nat) : Int)) :=
  (warnings_add_up warnedStore warnedSession (by decide) (by decide) (by decide)
    ["a", "b", "a"] 2 (by decide)).2.2 (by decide)

/-- C8, as stated, fails: the third warning of the open session "a" is recorded;
the answer carries warningCount = 3 with isActive = true, and so does the read
of the session that follows. -/
theorem third_warning_leaves_session_active :
    (postWarningHandler warnedStore "a").1 =
      { status := 200,
        body := .studentSession { warnedSession with warningCount := 3 } } ∧
    (getStudentSession (postWarningHandler warnedStore "a").2 "a").map
      (fun d => (d.warningCount, d.isActive)) = some (3, true) := by
  decide

/-- C8, amended: reaching 3 warnings does not close a StudentSession on the
server.  The request POST /api/student-sessions/:id/warning leaves the isActive
of every row as it was, whatever count it reaches, so a read after the increment
that reaches 3 shows isActive as before it.  What changes one way at 3 is the
flag of the exam page: a run of `handleViolation` for an open page on an
existing StudentSession `s` whose count after the increment is 3 or more raises
the count by one and clears isSessionActive, and from then on `handleViolation`
on that page does nothing. -/
theorem increment_leaves_isActive (c : ClientState) (st : Store)
    (clients : List WebSocketClient) (env : Env) (now : Timestamp) (type details : String)
    (s : StudentSession) (hwf : st.WF) (hs : s ∈ st.studentSessions)
    (hact : c.isSessionActive = true) (hid : c.studentSessionId = s.id) (hne : s.id ≠ "")
    (hfresh : env.uuid ∉ st.violations.map (fun x => x.id))
    (hroom : s.warningCount < int4Max) (h3 : s.warningCount + 1 ≥ 3) :
    (∀ (id : String) (i : Nat) (row : StudentSession), st.studentSessions[i]? = some row →
      ∃ row', (postWarningHandler st id).2.studentSessions[i]? = some row' ∧
        row'.isActive = row.isActive) ∧
    (getStudentSession (handleViolation c st clients env now type details).2.1 s.id).map
        (fun d => d.warningCount) = some (s.warningCount + 1) ∧
    (handleViolation c st clients env now type details).1.isSessionActive = false ∧
    (∀ (st2 : Store) (clients2 : List WebSocketClient) (env2 : Env) (now2 : Timestamp)
        (type2 details2 : String),
      handleViolation (handleViolation c st clients env now type details).1 st2 clients2 env2
          now2 type2 details2 =
        ((handleViolation c st clients env now type details).1, st2, [])) := by
  have hsid : s.id ∈ st.studentSessions.map (fun x => x.id) := List.mem_map_of_mem _ hs
  have hwf1 := WF_withViolation st (violationRow env
    { studentSessionId := s.id, type := type, details := some details }) hwf hsid hfresh
  have hwf2 := WF_updateRow _ s.id bumpWarning bumpWarning_keys hwf1
  have hs2 := mem_updateRow _ s bumpWarning
    (show s ∈ (withViolation st (violationRow env
      { studentSessionId := s.id, type := type, details := some details })).studentSessions
      from hs)
  have hrun := handleViolation_run c st clients env now type details s hwf hs hact hid hne
    hfresh (by omega)
  rw [if_pos h3] at hrun
  have hflag : (handleViolation c st clients env now type details).1.isSessionActive = false := by
    rw [hrun]
  refine ⟨?_, ?_, hflag, ?_⟩
  · intro id i row hi
    obtain ⟨f, extra, hshape, hf⟩ := serve_sessions_shape st (.postWarning id)
    refine ⟨f row, ?_, ?_⟩
    · show (serve st (.postWarning id)).2.studentSessions[i]? = _
      rw [hshape]
      exact getElem?_map_append _ _ f i row hi
    · rcases hf row with h | ⟨id2, body, hreq, _, _⟩ | ⟨id2, _, _, h⟩
      · rw [h]
      · exact absurd hreq (by simp)
      · rw [h]; rfl
  · have hread := getStudentSession_found _ _ hwf2.1.2.2.1 hs2
    rw [hrun]
    exact (congrArg (Option.map (fun d => d.warningCount)) hread).trans rfl
  · intro st2 clients2 env2 now2 type2 details2
    exact handleViolation_off _ st2 clients2 env2 now2 type2 details2 hflag

/-- Instance of the amended C8: the page of session "a" (two warnings) handles a
tab switch, and a copy attempt after it. -/
theorem increment_leaves_isActive_witness :
    (getStudentSession
        (handleViolation pageOfA warnedStore [] { uuid := "v", now := 7 } 8 "Tab Switch"
          "Student switched away from exam tab").2.1 "a").map (fun d => d.warningCount) =
      some (2 + 1) ∧
    (handleViolation pageOfA warnedStore [] { uuid := "v", now := 7 } 8 "Tab Switch"
      "Student switched away from exam tab").1.isSessionActive = false :=
  ⟨(increment_leaves_isActive pageOfA warnedStore [] { uuid := "v", now := 7 } 8 "Tab Switch"
      "Student switched away from exam tab" warnedSession (by decide) (by decide) rfl rfl
      (by decide) (by decide) (by decide) (by decide)).2.1,
   (increment_leaves_isActive pageOfA warnedStore [] { uuid := "v", now := 7 } 8 "Tab Switch"
      "Student switched away from exam tab" warnedSession (by decide) (by decide) rfl rfl
      (by decide) (by decide) (by decide) (by decide)).2.2.1⟩

/-- C9, as stated, fails when an ingestion is the request POST /api/violations:
after Ann's join, the third such request is answered 201 with the violation
alone (no termination flag), and the join that follows is answered 201. -/
theorem three_ingestions_do_not_terminate :
    (postViolationsHandler
        (serveAll joinedStore
          [.postViolations [] { uuid := "v1", now := 2 } (some tabSwitch),
           .postViolations [] { uuid := "v2", now := 3 } (some tabSwitch)])
        [] { uuid := "v3", now := 4 } (some tabSwitch)).1 =
      { status := 201,
        body := .violation
          { id := "v3", studentSessionId := "a", type := "Tab Switch",
            details := some "Student switched away from exam tab", timestamp := 4 } } ∧
    (postStudentSessionsHandler
        (serveAll joinedStore
          [.postViolations [] { uuid := "v1", now := 2 } (some tabSwitch),
           .postViolations [] { uuid := "v2", now := 3 } (some tabSwitch),
           .postViolations [] { uuid := "v3", now := 4 } (some tabSwitch)])
        { uuid := "b", now := 5 } (some plainJoin)).1.status = 201 := by
  decide

/-- C9, amended: student S opens the exam page of E in a browser that holds the
id of S and no cache entry for E; the pair has no StudentSession that is active
and no lockout record, and `initSession` creates a fresh session.  Then three
violations are handled by the page's `handleViolation` in sequence.  After the
second the page is still open; the third takes the warningCount to 3 and the
page clears isSessionActive.  No answer to an ingestion request carries a
termination flag: the request POST /api/violations is answered with the
violation or with an error message.  Once the close transition
(`updateStudentSession` with isActive = false and leftAt = now, a date) has been
applied to that session, a join request for (S, E) is answered 403 with
terminated = true and changes nothing. -/
theorem three_violations_on_page (emailOf : String → String) (st : Store) (c : ClientState)
    (clients : List WebSocketClient) (S : String) (envS envJ : Env)
    (ev1 ev2 ev3 : ViolationEvent) (env : Env) (body : InsertStudentSession) (now : Timestamp)
    (hwf : st.WF) (hS : S ≠ "") (hE : c.sessionId ≠ "")
    (hcache : getItem c.localStorage (cacheKey c.sessionId) = none)
    (hstored : getItem c.localStorage "studentId" = some S)
    (hstudent : S ∈ st.students.map (fun x => x.id))
    (hexam : c.sessionId ∈ st.examSessions.map (fun e => e.id))
    (hfreshJ : envJ.uuid ∉ st.studentSessions.map (fun s => s.id)) (hidne : envJ.uuid ≠ "")
    (hfree : ¬ lockedOut st S c.sessionId)
    (hnone : ∀ a ∈ st.studentSessions, ofPair S c.sessionId a → a.isActive = false)
    (hpage : c.isSessionActive = true)
    (hv : ([ev1.env.uuid, ev2.env.uuid, ev3.env.uuid] ++
      st.violations.map (fun x => x.id)).Nodup)
    (hb : body.studentId = S ∧ body.sessionId = c.sessionId) :
    (initSession emailOf c st envS envJ).1.studentSessionId = envJ.uuid ∧
    (initSession emailOf c st envS envJ).2 =
      { st with studentSessions := st.studentSessions ++ [freshRow envJ S c.sessionId] } ∧
    (handleViolations (initSession emailOf c st envS envJ).1 (initSession emailOf c st envS envJ).2
      clients [ev1, ev2]).1.isSessionActive = true ∧
    (handleViolations (initSession emailOf c st envS envJ).1 (initSession emailOf c st envS envJ).2
      clients [ev1, ev2, ev3]).1.isSessionActive = false ∧
    (getStudentSession
        (handleViolations (initSession emailOf c st envS envJ).1
          (initSession emailOf c st envS envJ).2 clients [ev1, ev2, ev3]).2 envJ.uuid).map
        (fun d => d.warningCount) = some 3 ∧
    (∀ (st2 : Store) (clients2 : List WebSocketClient) (env2 : Env)
        (b2 : Option InsertViolation),
      (∃ v, (postViolationsHandler st2 clients2 env2 b2).1 =
          { status := 201, body := .violation v }) ∨
      (∃ m, (postViolationsHandler st2 clients2 env2 b2).1 =
          { status := 400, body := .error m })) ∧
    ∃ t, postStudentSessionsHandler
        (afterUpdate
          (handleViolations (initSession emailOf c st envS envJ).1
            (initSession emailOf c st envS envJ).2 clients [ev1, ev2, ev3]).2
          envJ.uuid (closeUpdate now)) env (some body) =
      ({ status := 403,
         body := .terminated "Student has been terminated from this exam due to violations"
           true t },
       afterUpdate
          (handleViolations (initSession emailOf c st envS envJ).1
            (initSession emailOf c st envS envJ).2 clients [ev1, ev2, ev3]).2
          envJ.uuid (closeUpdate now)) := by
  have hj := initSessionJoin_fresh c st envJ S hS hE hwf hstudent hexam hfreshJ hfree hnone
  have hwf0 := WF_append_session st (freshRow envJ S c.sessionId) hwf hstudent hexam hfreshJ
  rw [initSession_lookup emailOf c st envS envJ S hE hcache hstored hS, hj]
  have hs0 : freshRow envJ S c.sessionId ∈
      (st.studentSessions ++ [freshRow envJ S c.sessionId]) := by simp
  obtain ⟨K2, K3, Kwf, Kmem⟩ := handleViolations_three
    { c with studentSessionId := envJ.uuid,
             localStorage := setItem c.localStorage (cacheKey c.sessionId) envJ.uuid }
    { st with studentSessions := st.studentSessions ++ [freshRow envJ S c.sessionId] }
    clients ev1 ev2 ev3 (freshRow envJ S c.sessionId) hwf0 hs0 hpage rfl hidne rfl hv
  refine ⟨rfl, rfl, K2, K3, ?_, ?_, ?_⟩
  · have hread := getStudentSession_found _ _ Kwf.1.2.2.1 Kmem
    exact (congrArg (Option.map (fun d => d.warningCount)) hread).trans rfl
  · intro st2 clients2 env2 b2
    unfold postViolationsHandler
    cases b2 with
    | none => exact Or.inr ⟨_, rfl⟩
    | some b =>
      simp only
      cases createViolation st2 env2 b with
      | ok p => exact Or.inl ⟨_, rfl⟩
      | error e => exact Or.inr ⟨_, rfl⟩
  · have hid3 : (bumpWarning (bumpWarning (bumpWarning (freshRow envJ S c.sessionId)))).id =
        envJ.uuid := rfl
    generalize (handleViolations _ _ clients [ev1, ev2, ev3]).2 = R at Kwf Kmem ⊢
    have hup := update_found R _ (closeUpdate now) Kwf Kmem ⟨rfl, rfl, rfl⟩ rfl ⟨rfl, rfl⟩
      (by simp [closeUpdate]) (by simp [closeUpdate])
    rw [hid3] at hup
    have hafter : afterUpdate R envJ.uuid (closeUpdate now) =
        updateRow R envJ.uuid (closeUpdate now).applyTo := by
      unfold afterUpdate
      rw [hup]
    rw [hafter]
    have hmem4 := mem_updateRow R _ (closeUpdate now).applyTo Kmem
    rw [hid3] at hmem4
    have hlock : lockedOut (updateRow R envJ.uuid (closeUpdate now).applyTo)
        body.studentId body.sessionId :=
      ⟨_, hmem4, hb.1.symm, hb.2.symm, rfl,
        by simp [closeUpdate, PartialStudentSession.applyTo, bumpWarning, freshRow]⟩
    obtain ⟨t, _, _, _, ht⟩ := join_of_lockedOut _ env body hlock
    exact ⟨_, ht⟩

/-- Instance of the amended C9: the page loads in Ann's browser, `initSession`
creates the session "a", and the page handles three violations; once the
session is closed, the next join is answered 403. -/
theorem three_violations_on_page_witness :
    (handleViolations joinedPage.1 joinedPage.2 [] [signal1, signal2]).1.isSessionActive =
      true ∧
    (handleViolations joinedPage.1 joinedPage.2 []
      [signal1, signal2, signal3]).1.isSessionActive = false ∧
    (getStudentSession
        (handleViolations joinedPage.1 joinedPage.2 [] [signal1, signal2, signal3]).2
        "a").map (fun d => d.warningCount) = some 3 ∧
    ∃ t, postStudentSessionsHandler
        (afterUpdate
          (handleViolations joinedPage.1 joinedPage.2 [] [signal1, signal2, signal3]).2
          "a" (closeUpdate 4)) { uuid := "b", now := 5 } (some plainJoin) =
      ({ status := 403,
         body := .terminated "Student has been terminated from this exam due to violations"
           true t },
       afterUpdate
          (handleViolations joinedPage.1 joinedPage.2 [] [signal1, signal2, signal3]).2
          "a" (closeUpdate 4)) :=
  have h := three_violations_on_page sampleEmailOf baseStore returningPage [] "s1"
    { uuid := "s9", now := 0 } { uuid := "a", now := 1 } signal1 signal2 signal3
    { uuid := "b", now := 5 } plainJoin 4
    (by decide) (by decide) (by decide) (by decide) (by decide) (by decide) (by decide)
    (by decide) (by decide) (by decide) (by decide) (by decide) (by decide)
    (by decide)
  ⟨h.2.2.1, h.2.2.2.1, h.2.2.2.2.1, h.2.2.2.2.2.2⟩


/-- The close request on the code, in the scenario of three violations: Ann
joins the exam and the page handles three violations.  The third run raises the
count to 3 and clears the flag of the page, but its close request is answered
500: the body carries leftAt as text, which the encoder of the timestamp column
refuses.  The session stays active with three warnings, "Exam Terminated" is not
shown, and the join that follows is answered 201 with a second session. -/
theorem three_violations_leave_session_open :
    joinedPage.1.studentSessionId = "a" ∧
    (handleViolations joinedPage.1 joinedPage.2 [] [signal1, signal2, signal3]).1.isSessionActive =
      false ∧
    (handleViolations joinedPage.1 joinedPage.2 [] [signal1, signal2, signal3]).1.toasts =
      ["Warning 1/3", "Warning 2/3"] ∧
    (patchStudentSessionHandler
      (handleViolations joinedPage.1 joinedPage.2 [] [signal1, signal2, signal3]).2 "a"
      (closeBody 4)).1.status = 500 ∧
    (getStudentSession
        (handleViolations joinedPage.1 joinedPage.2 [] [signal1, signal2, signal3]).2
        "a").map (fun d => (d.warningCount, d.isActive, d.leftAt)) = some (3, true, none) ∧
    (postStudentSessionsHandler
        (handleViolations joinedPage.1 joinedPage.2 [] [signal1, signal2, signal3]).2
        { uuid := "b", now := 5 } (some plainJoin)).1 =
      { status := 201,
        body := .studentSession (freshRow { uuid := "b", now := 5 } "s1" "e1") } := by
  decide

/-- C10 on the code: Ann joins the exam, one violation is handled
(warningCount = 1), and she submits.  The close request of `handleSubmit` is
answered 500: the body carries leftAt as text, which the encoder of the
timestamp column refuses.  The page clears its flag and shows no
"Exam Submitted"; the session is still active, with warningCount = 1 and no
leftAt.  The join that follows is answered 201 with a new active session.  The
close transition with a date (`closeUpdate`) would have left the session
inactive with warningCount = 1 and the pair without a lockout record. -/
theorem submit_leaves_session_open :
    (getStudentSession warnedOnce.2 "a").map (fun d => (d.warningCount, d.isActive)) =
      some (1, true) ∧
    (patchStudentSessionHandler warnedOnce.2 "a" (closeBody 9)) =
      ({ status := 500, body := .error "value.toISOString is not a function" },
       warnedOnce.2) ∧
    handleSubmit warnedOnce.1 warnedOnce.2 true 9 =
      ({ warnedOnce.1 with isSessionActive := false }, warnedOnce.2) ∧
    "Exam Submitted" ∉ (handleSubmit warnedOnce.1 warnedOnce.2 true 9).1.toasts ∧
    (getStudentSession (handleSubmit warnedOnce.1 warnedOnce.2 true 9).2 "a").map
        (fun d => (d.warningCount, d.isActive, d.leftAt)) = some (1, true, none) ∧
    (postStudentSessionsHandler (handleSubmit warnedOnce.1 warnedOnce.2 true 9).2
        { uuid := "b", now := 10 } (some plainJoin)).1 =
      { status := 201,
        body := .studentSession (freshRow { uuid := "b", now := 10 } "s1" "e1") } ∧
    (getStudentSession (afterUpdate warnedOnce.2 "a" (closeUpdate 9)) "a").map
        (fun d => (d.warningCount, d.isActive, d.leftAt)) = some (1, false, some 9) ∧
    ¬ lockedOut (afterUpdate warnedOnce.2 "a" (closeUpdate 9)) "s1" "e1" := by
  decide

/-- C11, as stated, fails: the session "x" is closed with leftAt = 9.  The close
transition at time 12 is no error but changes the store; and the close
transition at time 10 and again at time 12 leaves another store than the one at
time 10 alone. -/
theorem second_close_moves_leftAt :
    (lockedStore.studentSessions.map (fun s => (s.isActive, s.leftAt))) = [(false, some 9)] ∧
    (updateStudentSession lockedStore "x" (closeUpdate 12)).toOption.map (fun p => p.1) =
      some (some { lockedSession with leftAt := some 12 }) ∧
    afterUpdate lockedStore "x" (closeUpdate 12) ≠ lockedStore ∧
    afterUpdate (afterUpdate lockedStore "x" (closeUpdate 10)) "x" (closeUpdate 12) ≠
      afterUpdate lockedStore "x" (closeUpdate 10) := by
  decide

/-- C11, amended: in a store that meets its constraints, for an existing
StudentSession `s`, open or closed, the close transition (`updateStudentSession`
with isActive = false and leftAt = now, a date) is no error and returns `s`
closed at that time; twice in a row it leaves the store that the second alone
would leave, so isActive is false as after one close and leftAt holds the time
of the last one; when both carry the same time the second changes nothing. -/
theorem close_twice (st : Store) (s : StudentSession) (now1 now2 : Timestamp)
    (hwf : st.WF) (hs : s ∈ st.studentSessions) :
    updateStudentSession st s.id (closeUpdate now1) =
      .ok (some { s with isActive := false, leftAt := some now1 },
        afterUpdate st s.id (closeUpdate now1)) ∧
    updateStudentSession (afterUpdate st s.id (closeUpdate now1)) s.id (closeUpdate now2) =
      .ok (some { s with isActive := false, leftAt := some now2 },
        afterUpdate st s.id (closeUpdate now2)) ∧
    afterUpdate (afterUpdate st s.id (closeUpdate now1)) s.id (closeUpdate now2) =
      afterUpdate st s.id (closeUpdate now2) ∧
    (now2 = now1 →
      afterUpdate (afterUpdate st s.id (closeUpdate now1)) s.id (closeUpdate now2) =
        afterUpdate st s.id (closeUpdate now1)) := by
  have hkeys : ∀ now x, ((closeUpdate now).applyTo x).id = x.id ∧
      ((closeUpdate now).applyTo x).studentId = x.studentId ∧
      ((closeUpdate now).applyTo x).sessionId = x.sessionId := fun _ _ => ⟨rfl, rfl, rfl⟩
  have hupd : ∀ (st0 : Store) (s0 : StudentSession) (now : Timestamp), st0.WF →
      s0 ∈ st0.studentSessions →
      updateStudentSession st0 s0.id (closeUpdate now) =
        .ok (some ((closeUpdate now).applyTo s0), updateRow st0 s0.id (closeUpdate now).applyTo) :=
    fun st0 s0 now h0 hs0 =>
      update_found st0 s0 (closeUpdate now) h0 hs0 ⟨rfl, rfl, rfl⟩ rfl ⟨rfl, rfl⟩
        (by simp [closeUpdate]) (by simp [closeUpdate])
  have hafter : ∀ (st0 : Store) (s0 : StudentSession) (now : Timestamp), st0.WF →
      s0 ∈ st0.studentSessions →
      afterUpdate st0 s0.id (closeUpdate now) = updateRow st0 s0.id (closeUpdate now).applyTo := by
    intro st0 s0 now h0 hs0
    unfold afterUpdate
    rw [hupd st0 s0 now h0 hs0]
  have hwf1 := WF_updateRow st s.id (closeUpdate now1).applyTo (hkeys now1) hwf
  have hs1 := mem_updateRow st s (closeUpdate now1).applyTo hs
  have hid : ((closeUpdate now1).applyTo s).id = s.id := rfl
  have h12 := hupd _ ((closeUpdate now1).applyTo s) now2 hwf1 hs1
  rw [hid, updateRow_updateRow st s.id _ _ (fun x => (hkeys now1 x).1)] at h12
  have hcomp : (fun x => (closeUpdate now2).applyTo ((closeUpdate now1).applyTo x)) =
      (closeUpdate now2).applyTo := rfl
  rw [hcomp] at h12
  have ha12 := hafter _ ((closeUpdate now1).applyTo s) now2 hwf1 hs1
  rw [hid, updateRow_updateRow st s.id _ _ (fun x => (hkeys now1 x).1), hcomp] at ha12
  rw [hafter st s now1 hwf hs, hafter st s now2 hwf hs]
  refine ⟨?_, ?_, ha12, ?_⟩
  · rw [hupd st s now1 hwf hs]
    rfl
  · rw [h12]
    rfl
  · intro he
    rw [ha12, he]

/-- Instance of the amended C11: the open session "a" is closed at times 10
and 12. -/
theorem close_twice_witness :
    updateStudentSession warnedStore warnedSession.id (closeUpdate 10) =
      .ok (some { warnedSession with isActive := false, leftAt := some 10 },
        afterUpdate warnedStore warnedSession.id (closeUpdate 10)) ∧
    afterUpdate (afterUpdate warnedStore warnedSession.id (closeUpdate 10)) warnedSession.id
        (closeUpdate 12) =
      afterUpdate warnedStore warnedSession.id (closeUpdate 12) :=
  ⟨(close_twice warnedStore warnedSession 10 12 (by decide) (by decide)).1,
   (close_twice warnedStore warnedSession 10 12 (by decide) (by decide)).2.2.1⟩

/-- C12, as stated, fails: the session "x" is closed; the request
PATCH /api/student-sessions/x with isActive = true is served and the row is
active afterwards. -/
theorem closed_session_reopened_by_patch :
    (lockedStore.studentSessions[0]?).map (fun s => s.isActive) = some false ∧
    ((serve lockedStore (.patchStudentSession "x" reopenBody)).2.studentSessions[0]?).map
      (fun s => s.isActive) = some true := by
  decide

/-- C12, amended: rows keep their place in the table.  For every row of
`student_sessions` with isActive = false and every request other than a PATCH
of a StudentSession whose body sets isActive to true (student and exam
creation, exam update, join, warning increment, violation creation, any other
PATCH), the row at the same place after the request has isActive = false. -/
theorem closed_stays_closed (st : Store) (r : Request) (i : Nat) (s : StudentSession)
    (hi : st.studentSessions[i]? = some s) (hclosed : s.isActive = false)
    (hr : r.neverReopens) :
    ∃ s', (serve st r).2.studentSessions[i]? = some s' ∧ s'.isActive = false := by
  obtain ⟨f, extra, hshape, hf⟩ := serve_sessions_shape st r
  refine ⟨f s, ?_, ?_⟩
  · rw [hshape]
    exact getElem?_map_append _ _ f i s hi
  · rcases hf s with h | ⟨id, body, hreq, _, h⟩ | ⟨id, _, _, h⟩
    · rw [h]; exact hclosed
    · rw [h]
      subst hreq
      have hb : body.isActive ≠ some true := hr
      unfold PartialStudentSession.applyTo
      cases ha : body.isActive with
      | none => simpa using hclosed
      | some b =>
        cases b with
        | false => rfl
        | true => exact absurd ha hb
    · rw [h]; exact hclosed

/-- Instance of the amended C12: a warning for the closed session "x". -/
theorem closed_stays_closed_witness :
    ∃ s', (serve lockedStore (.postWarning "x")).2.studentSessions[0]? = some s' ∧
      s'.isActive = false :=
  closed_stays_closed lockedStore (.postWarning "x") 0 lockedSession (by decide) (by decide)
    (by decide)

/-- C13, as stated, fails: the session "a" has warningCount = 2; the request
PATCH /api/student-sessions/a with warningCount = 0 is served and the row has
warningCount = 0 afterwards. -/
theorem count_lowered_by_patch :
    (warnedStore.studentSessions[0]?).map (fun s => s.warningCount) = some 2 ∧
    ((serve warnedStore (.patchStudentSession "a" resetCountBody)).2.studentSessions[0]?).map
      (fun s => s.warningCount) = some 0 := by
  decide

/-- C13, amended: rows keep their place in the table.  For every row `s` of
`student_sessions` and every request other than a PATCH of `s` whose body
carries a warningCount below the one of `s`, the row at the same place after the
request has a warningCount that is not below the one before. -/
theorem count_never_drops (st : Store) (r : Request) (i : Nat) (s : StudentSession)
    (hi : st.studentSessions[i]? = some s) (hr : r.keepsCount s) :
    ∃ s', (serve st r).2.studentSessions[i]? = some s' ∧ s.warningCount ≤ s'.warningCount := by
  obtain ⟨f, extra, hshape, hf⟩ := serve_sessions_shape st r
  refine ⟨f s, ?_, ?_⟩
  · rw [hshape]
    exact getElem?_map_append _ _ f i s hi
  · rcases hf s with h | ⟨id, body, hreq, hid, h⟩ | ⟨id, _, _, h⟩
    · rw [h]
    · rw [h]
      subst hreq
      have hb : s.id = id → ∀ w ∈ body.warningCount, s.warningCount ≤ w := hr
      unfold PartialStudentSession.applyTo
      cases hw : body.warningCount with
      | none => simp
      | some w => simpa using hb hid w (by simp [hw])
    · rw [h]
      simp only [bumpWarning]
      omega

/-- Instance of the amended C13: the client's close request for the session
"a". -/
theorem count_never_drops_witness :
    ∃ s', (serve warnedStore (.patchStudentSession "a" (closeBody 9))).2.studentSessions[0]? =
        some s' ∧ warnedSession.warningCount ≤ s'.warningCount :=
  count_never_drops warnedStore (.patchStudentSession "a" (closeBody 9)) 0 warnedSession
    (by decide) (by decide)

/-- C14, as stated, fails: the session "a" is not active any more (it was closed
with two warnings) while a page on it still has its flag set; the page handles a
copy attempt, the count after the increment is 3, and the run takes the
terminating branch: it clears the flag and sends the close request. -/
theorem inactive_session_terminated :
    (getStudentSession submittedStore "a").map (fun d => d.isActive) = some false ∧
    pageOfA.isSessionActive = true ∧
    (handleViolation pageOfA submittedStore [] { uuid := "v", now := 7 } 8 "Copy Attempt"
      "Student attempted to copy content").1.isSessionActive = false ∧
    (handleViolationTraced pageOfA submittedStore [] { uuid := "v", now := 7 } 8 "Copy Attempt"
      "Student attempted to copy content").2 =
      [.createViolation { studentSessionId := "a", type := "Copy Attempt",
                          details := some "Student attempted to copy content" },
       .incrementWarning "a", .refetch "a",
       .send (.violation "Copy Attempt" "Student attempted to copy content" 3),
       .setInactive, .updateStudentSession "a" (closeBody 8)] := by
  decide

/-- C14, amended: the decision of `handleViolation`, for a page on an existing
StudentSession `s` whose requests for the violation and the warning succeed.
The only activity test is the flag isSessionActive of the page; the isActive of
the StudentSession is not read.  A page whose flag is false does nothing.  A
page whose flag is true terminates exactly when the count after the increment is
3 or more: then it clears its flag and sends the close request, and shows no
warning; for a count below 3 the flag stays set, the StudentSession keeps its
isActive, the page shows the warning "Warning n/3" and sends no close
request. -/
theorem termination_decision (c : ClientState) (st : Store) (clients : List WebSocketClient)
    (env : Env) (now : Timestamp) (type details : String) (s : StudentSession)
    (hwf : st.WF) (hs : s ∈ st.studentSessions) (hid : c.studentSessionId = s.id)
    (hne : s.id ≠ "") (hfresh : env.uuid ∉ st.violations.map (fun x => x.id))
    (hroom : s.warningCount < int4Max) :
    (c.isSessionActive = false →
      handleViolationTraced c st clients env now type details = ((c, st, []), [])) ∧
    (c.isSessionActive = true → s.warningCount + 1 ≥ 3 →
      (handleViolation c st clients env now type details).1.isSessionActive = false ∧
      (∃ rest, (handleViolationTraced c st clients env now type details).2 =
        [.createViolation { studentSessionId := s.id, type := type, details := some details },
         .incrementWarning s.id, .refetch s.id] ++
          (if c.wsOpen then [.send (.violation type details (s.warningCount + 1))] else []) ++
          [.setInactive, .updateStudentSession s.id (closeBody now)] ++ rest) ∧
      (∀ n : Int, PageEffect.toast ("Warning " ++ toString n ++ "/3") ∉
        (handleViolationTraced c st clients env now type details).2)) ∧
    (c.isSessionActive = true → s.warningCount + 1 < 3 →
      (handleViolation c st clients env now type details).1.isSessionActive = true ∧
      (handleViolation c st clients env now type details).1.toasts =
        c.toasts ++ ["Warning " ++ toString (s.warningCount + 1) ++ "/3"] ∧
      (getStudentSession (handleViolation c st clients env now type details).2.1 s.id).map
          (fun d => d.toStudentSession) =
        some { s with warningCount := s.warningCount + 1 } ∧
      (handleViolationTraced c st clients env now type details).2 =
        [.createViolation { studentSessionId := s.id, type := type, details := some details },
         .incrementWarning s.id, .refetch s.id] ++
          (if c.wsOpen then [.send (.violation type details (s.warningCount + 1))] else []) ++
          [.toast ("Warning " ++ toString (s.warningCount + 1) ++ "/3")]) := by
  have hsid : s.id ∈ st.studentSessions.map (fun x => x.id) := List.mem_map_of_mem _ hs
  have hwf1 := WF_withViolation st (violationRow env
    { studentSessionId := s.id, type := type, details := some details }) hwf hsid hfresh
  have hwf2 := WF_updateRow _ s.id bumpWarning bumpWarning_keys hwf1
  have hs2 := mem_updateRow _ s bumpWarning
    (show s ∈ (withViolation st (violationRow env
      { studentSessionId := s.id, type := type, details := some details })).studentSessions
      from hs)
  refine ⟨?_, ?_, ?_⟩
  · intro hoff
    unfold handleViolationTraced
    simp [hoff]
  · intro hact h3
    have htr := handleViolationTraced_run c st clients env now type details s hwf hs hact hid
      hne hfresh (by omega)
    rw [if_pos h3] at htr
    have hrun := handleViolation_run c st clients env now type details s hwf hs hact hid hne
      hfresh (by omega)
    rw [if_pos h3] at hrun
    refine ⟨by rw [hrun], ⟨[], by rw [htr]; simp⟩, ?_⟩
    intro n hmem
    rw [htr] at hmem
    cases hws : c.wsOpen <;> simp [hws] at hmem
  · intro hact hlow
    have hlow' : ¬ s.warningCount + 1 ≥ 3 := by omega
    have htr := handleViolationTraced_run c st clients env now type details s hwf hs hact hid
      hne hfresh (by omega)
    rw [if_neg hlow'] at htr
    have hrun := handleViolation_run c st clients env now type details s hwf hs hact hid hne
      hfresh (by omega)
    rw [if_neg hlow'] at hrun
    have hread := getStudentSession_found _ _ hwf2.1.2.2.1 hs2
    refine ⟨?_, ?_, ?_, by rw [htr]⟩
    · rw [hrun]
      cases hws : c.wsOpen <;> simp [hact]
    · rw [hrun]
    · rw [hrun]
      exact (congrArg (Option.map (fun d => d.toStudentSession)) hread).trans rfl

/-- Instance of the amended C14: the page of the open session "b" (no warning
yet) handles a copy attempt and shows "Warning 1/3". -/
theorem termination_decision_witness :
    (handleViolation { freshPage with studentSessionId := "b" } warnedStore []
      { uuid := "v", now := 7 } 8 "Copy Attempt"
      "Student attempted to copy content").1.isSessionActive = true ∧
    (handleViolation { freshPage with studentSessionId := "b" } warnedStore []
      { uuid := "v", now := 7 } 8 "Copy Attempt"
      "Student attempted to copy content").1.toasts =
      freshPage.toasts ++ ["Warning " ++ toString (otherSession.warningCount + 1) ++ "/3"] :=
  ⟨((termination_decision { freshPage with studentSessionId := "b" } warnedStore []
      { uuid := "v", now := 7 } 8 "Copy Attempt" "Student attempted to copy content"
      otherSession (by decide) (by decide) rfl (by decide) (by decide) (by decide)).2.2
      rfl (by decide)).1,
   ((termination_decision { freshPage with studentSessionId := "b" } warnedStore []
      { uuid := "v", now := 7 } 8 "Copy Attempt" "Student attempted to copy content"
      otherSession (by decide) (by decide) rfl (by decide) (by decide) (by decide)).2.2
      rfl (by decide)).2.1⟩

/-- C15, as stated, fails when an ingestion is the request POST /api/violations:
it is answered 201 with the violation alone, and the warningCount of the session
"a" is 0 before and after. -/
theorem ingestion_request_keeps_count :
    (joinedStore.studentSessions[0]?).map (fun s => (s.id, s.warningCount)) = some ("a", 0) ∧
    (postViolationsHandler joinedStore [] { uuid := "v1", now := 2 } (some tabSwitch)).1 =
      { status := 201,
        body := .violation
          { id := "v1", studentSessionId := "a", type := "Tab Switch",
            details := some "Student switched away from exam tab", timestamp := 2 } } ∧
    ((postViolationsHandler joinedStore [] { uuid := "v1", now := 2 }
        (some tabSwitch)).2.1.studentSessions[0]?).map (fun s => (s.id, s.warningCount)) =
      some ("a", 0) := by
  decide

/-- C15, amended: the request POST /api/violations for an existing session inserts
the violation, answers 201 with it and leaves every StudentSession as it was.
The increment is the next request of the exam page's `handleViolation`: a run
for an open page on an existing StudentSession `s` whose requests succeed (the
count of `s` is below the largest `integer`) raises the warningCount of `s` by
exactly 1, puts the count after the increment into the `violation` frame it
sends when its socket is open, and reports termination by clearing
isSessionActive, which it does exactly when that count is 3 or more. -/
theorem violation_run_adds_one (c : ClientState) (st : Store) (clients : List WebSocketClient)
    (env : Env) (now : Timestamp) (type details : String) (s : StudentSession)
    (hwf : st.WF) (hs : s ∈ st.studentSessions) (hact : c.isSessionActive = true)
    (hid : c.studentSessionId = s.id) (hne : s.id ≠ "")
    (hfresh : env.uuid ∉ st.violations.map (fun x => x.id))
    (hroom : s.warningCount < int4Max) :
    (postViolationsHandler st clients env
        (some { studentSessionId := s.id, type := type, details := some details })).1 =
      { status := 201,
        body := .violation (violationRow env
          { studentSessionId := s.id, type := type, details := some details }) } ∧
    (postViolationsHandler st clients env
        (some { studentSessionId := s.id, type := type,
                details := some details })).2.1.studentSessions = st.studentSessions ∧
    (getStudentSession (handleViolation c st clients env now type details).2.1 s.id).map
        (fun d => d.warningCount) = some (s.warningCount + 1) ∧
    (c.wsOpen = true →
      (handleViolation c st clients env now type details).1.sent =
        c.sent ++ [.violation type details (s.warningCount + 1)]) ∧
    ((handleViolation c st clients env now type details).1.isSessionActive = false ↔
      s.warningCount + 1 ≥ 3) := by
  have hsid : s.id ∈ st.studentSessions.map (fun x => x.id) := List.mem_map_of_mem _ hs
  have hv := postViolations_found st clients env
    { studentSessionId := s.id, type := type, details := some details } hwf hsid hfresh
  have hwf1 := WF_withViolation st (violationRow env
    { studentSessionId := s.id, type := type, details := some details }) hwf hsid hfresh
  have hwf2 := WF_updateRow _ s.id bumpWarning bumpWarning_keys hwf1
  have hs2 := mem_updateRow _ s bumpWarning
    (show s ∈ (withViolation st (violationRow env
      { studentSessionId := s.id, type := type, details := some details })).studentSessions
      from hs)
  have hrun := handleViolation_run c st clients env now type details s hwf hs hact hid hne
    hfresh (by omega)
  have hread := getStudentSession_found _ _ hwf2.1.2.2.1 hs2
  refine ⟨by rw [hv], by rw [hv]; rfl, ?_, ?_, ?_⟩
  · by_cases h3 : s.warningCount + 1 ≥ 3
    · rw [hrun, if_pos h3]
      exact (congrArg (Option.map (fun d => d.warningCount)) hread).trans rfl
    · rw [hrun, if_neg h3]
      exact (congrArg (Option.map (fun d => d.warningCount)) hread).trans rfl
  · intro hws
    rw [hrun]
    by_cases h3 : s.warningCount + 1 ≥ 3
    · rw [if_pos h3]; simp [hws]
    · rw [if_neg h3]; simp [hws]
  · rw [hrun]
    by_cases h3 : s.warningCount + 1 ≥ 3
    · rw [if_pos h3]
      cases hws : c.wsOpen <;> simp [h3]
    · rw [if_neg h3]
      cases hws : c.wsOpen <;> simp [h3, hact]

/-- Instance of the amended C15: the page of session "a" (two warnings) handles
a tab switch. -/
theorem violation_run_adds_one_witness :
    (getStudentSession
        (handleViolation pageOfA warnedStore [] { uuid := "v", now := 7 } 8 "Tab Switch"
          "Student switched away from exam tab").2.1 "a").map (fun d => d.warningCount) =
      some 3 ∧
    (handleViolation pageOfA warnedStore [] { uuid := "v", now := 7 } 8 "Tab Switch"
      "Student switched away from exam tab").1.sent =
      [.violation "Tab Switch" "Student switched away from exam tab" 3] :=
  ⟨(violation_run_adds_one pageOfA warnedStore [] { uuid := "v", now := 7 } 8 "Tab Switch"
      "Student switched away from exam tab" warnedSession (by decide) (by decide) rfl rfl
      (by decide) (by decide) (by decide)).2.2.1,
   (violation_run_adds_one pageOfA warnedStore [] { uuid := "v", now := 7 } 8 "Tab Switch"
      "Student switched away from exam tab" warnedSession (by decide) (by decide) rfl rfl
      (by decide) (by decide) (by decide)).2.2.2.1 rfl⟩

/-- C16: a violation whose studentSessionId matches no StudentSession is refused:
the foreign key of `violations` makes the insert fail, the handler of
POST /api/violations answers 400 with the error message, the store is unchanged
(no Violation is persisted) and no frame is sent to any socket.  In a store that
meets its constraints, with an unused generated id, the error is the
foreign-key error. -/
theorem violation_for_unknown_session (st : Store) (clients : List WebSocketClient)
    (env : Env) (body : InsertViolation)
    (hmissing : body.studentSessionId ∉ st.studentSessions.map (fun s => s.id)) :
    ∃ e : DbError,
      postViolationsHandler st clients env (some body) =
        ({ status := 400, body := .error e.message }, st, []) ∧
      (st.WF → env.uuid ∉ st.violations.map (fun x => x.id) → e = .foreignKey) := by
  obtain ⟨e, he⟩ := createViolation_missing st env body hmissing
  refine ⟨e, ?_, ?_⟩
  · unfold postViolationsHandler
    simp only [he]
  · intro hwf hfresh
    unfold createViolation commit at he
    simp only at he
    have hpk : Store.primaryKeysOk
        { st with violations := st.violations ++
            [{ id := env.uuid, studentSessionId := body.studentSessionId, type := body.type,
               details := body.details, timestamp := env.now }] } := by
      obtain ⟨p1, p2, p3, p4⟩ := hwf.1
      refine ⟨p1, p2, p3, ?_⟩
      simp only [List.map_append, List.map_cons, List.map_nil]
      rw [List.nodup_append]
      refine ⟨p4, List.nodup_singleton _, ?_⟩
      intro a ha hb
      rw [List.mem_singleton] at hb
      exact hfresh (hb ▸ ha)
    have hue : Store.uniqueEmailOk
        { st with violations := st.violations ++
            [{ id := env.uuid, studentSessionId := body.studentSessionId, type := body.type,
               details := body.details, timestamp := env.now }] } := hwf.2.1
    simp only [hpk, hue, not_true_eq_false, if_false] at he
    split_ifs at he
    simp only [Except.error.injEq] at he
    exact he.symm

/-- Instance of C16: a violation for the session "zz", which does not exist. -/
theorem violation_for_unknown_session_witness :
    ∃ e : DbError,
      postViolationsHandler joinedStore [] { uuid := "v1", now := 2 }
          (some { studentSessionId := "zz", type := "Tab Switch", details := none }) =
        ({ status := 400, body := .error e.message }, joinedStore, []) ∧
      (joinedStore.WF → "v1" ∉ joinedStore.violations.map (fun x => x.id) →
        e = .foreignKey) :=
  violation_for_unknown_session joinedStore [] { uuid := "v1", now := 2 }
    { studentSessionId := "zz", type := "Tab Switch", details := none } (by decide)

/-- C17, as stated, fails: the session "a" was submitted with warningCount = 2 and
is no lockout record; the request POST /api/student-sessions/a/warning is
answered 200 with warningCount = 3, and the pair is locked out afterwards. -/
theorem warning_counts_on_closed_session :
    ¬ lockedOut submittedStore "s1" "e1" ∧
    (postWarningHandler submittedStore "a").1 =
      { status := 200,
        body := .studentSession { submittedSession with warningCount := 3 } } ∧
    lockedOut (postWarningHandler submittedStore "a").2 "s1" "e1" := by
  decide

/-- C17, amended: for a StudentSession `s` with isActive = false, in a store that
meets its constraints, the request POST /api/violations leaves every
StudentSession as it was, whatever its body; the request
POST /api/student-sessions/:id/warning, when the warningCount of `s` is below
2147483647, is answered 200 and raises the warningCount of `s` by 1, leaving
isActive = false; and the exam page's `handleViolation` sends no request at all
once its isSessionActive is false. -/
theorem closed_session_frame (st : Store) (s : StudentSession) (hwf : st.WF)
    (hs : s ∈ st.studentSessions) (hclosed : s.isActive = false) :
    (∀ clients env body,
      (postViolationsHandler st clients env body).2.1.studentSessions = st.studentSessions) ∧
    (s.warningCount < int4Max →
      postWarningHandler st s.id =
        ({ status := 200,
           body := .studentSession
             { s with warningCount := s.warningCount + 1, isActive := false } },
         updateRow st s.id bumpWarning)) ∧
    (∀ c clients env now type details, c.isSessionActive = false →
      handleViolation c st clients env now type details = (c, st, [])) := by
  refine ⟨fun clients env body => postViolations_sessions st clients env body, ?_, ?_⟩
  · intro hroom
    rw [postWarning_found st s hwf.1.2.2.1 hs (by omega)]
    simp only [bumpWarning, ← hclosed]
  · intro c clients env now type details hoff
    exact handleViolation_off c st clients env now type details hoff

/-- Instance of the amended C17: the submitted session "a". -/
theorem closed_session_frame_witness :
    postWarningHandler submittedStore submittedSession.id =
      ({ status := 200,
         body := .studentSession
           { submittedSession with warningCount := submittedSession.warningCount + 1,
                                   isActive := false } },
       updateRow submittedStore submittedSession.id bumpWarning) :=
  (closed_session_frame submittedStore submittedSession (by decide) (by decide) rfl).2.1
    (by decide)

/-- C18: the violation log is append-only.  Each of the six other writing
operations of the storage (createStudent, createExamSession, updateExamSession,
createStudentSession, updateStudentSession, incrementWarningCount), when it
succeeds, leaves the relation `violations` as it was; every request that is not
a POST /api/violations leaves it as it was, and so does a POST /api/violations
that is not answered 201.  A `createViolation` that succeeds returns a Violation
with the studentSessionId, type and details of the request and leaves the store
with exactly that Violation added after the stored ones, which stay in place
field for field, and with the three other relations unchanged; a POST
/api/violations answered 201 does the same.  In a store that meets its
constraints, for an existing StudentSession and an unused generated id,
`createViolation` succeeds. -/
theorem violations_append_only (st : Store) (env : Env) (b : InsertViolation) :
    ((∀ e x row st2, createStudent st e x = .ok (row, st2) → st2.violations = st.violations) ∧
     (∀ e x row st2, createExamSession st e x = .ok (row, st2) →
        st2.violations = st.violations) ∧
     (∀ id u row st2, updateExamSession st id u = .ok (row, st2) →
        st2.violations = st.violations) ∧
     (∀ e x row st2, createStudentSession st e x = .ok (row, st2) →
        st2.violations = st.violations) ∧
     (∀ id u row st2, updateStudentSession st id u = .ok (row, st2) →
        st2.violations = st.violations) ∧
     (∀ id row st2, incrementWarningCount st id = .ok (row, st2) →
        st2.violations = st.violations)) ∧
    (∀ r : Request, (∀ clients env2 b2, r ≠ .postViolations clients env2 (some b2)) →
      (serve st r).2.violations = st.violations) ∧
    (∀ clients, (postViolationsHandler st clients env (some b)).1.status ≠ 201 →
      (postViolationsHandler st clients env (some b)).2.1 = st) ∧
    (∀ v st2, createViolation st env b = .ok (v, st2) →
      st2 = { st with violations := st.violations ++ [v] } ∧
      v.studentSessionId = b.studentSessionId ∧ v.type = b.type ∧ v.details = b.details ∧
      v.id = env.uuid ∧ v.timestamp = env.now) ∧
    (∀ clients, (postViolationsHandler st clients env (some b)).1.status = 201 →
      (postViolationsHandler st clients env (some b)).1.body = .violation (violationRow env b) ∧
      (postViolationsHandler st clients env (some b)).2.1 =
        { st with violations := st.violations ++ [violationRow env b] }) ∧
    (st.WF → b.studentSessionId ∈ st.studentSessions.map (fun s => s.id) →
      env.uuid ∉ st.violations.map (fun x => x.id) →
      createViolation st env b =
        .ok (violationRow env b, { st with violations := st.violations ++ [violationRow env b] })
      ∧ ∀ clients, (postViolationsHandler st clients env (some b)).1.status = 201) := by
  refine ⟨⟨?_, ?_, ?_, ?_, ?_, ?_⟩, ?_, ?_, ?_, ?_, ?_⟩
  · intro e x row st2 h
    rw [(createStudent_ok h).1]
  · intro e x row st2 h
    rw [(createExamSession_ok h).1]
  · intro id u row st2 h
    rw [(updateExamSession_ok h).1]
  · intro e x row st2 h
    rw [(createStudentSession_ok h).1]
  · intro id u row st2 h
    rw [(updateStudentSession_ok h).1]
  · intro id row st2 h
    rw [(incrementWarningCount_ok h).1]
    rfl
  · intro r hr
    rcases serve_violations st r with h | ⟨clients, env2, b2, hreq, _, _⟩
    · exact h
    · exact absurd hreq (hr clients env2 b2)
  · intro clients hstatus
    unfold postViolationsHandler at hstatus ⊢
    cases hc : createViolation st env b with
    | error e => simp only [hc]
    | ok p => simp only [hc] at hstatus; exact absurd rfl hstatus
  · intro v st2 hc
    obtain ⟨h1, _, h3⟩ := createViolation_ok hc
    refine ⟨h1, ?_, ?_, ?_, ?_, ?_⟩ <;> rw [h3]
  · intro clients hok
    have hrun := postViolations_created st clients env b hok
    rw [hrun]
    exact ⟨rfl, rfl⟩
  · intro hwf hsession hfresh
    have hfound := postViolations_found st [] env b hwf hsession hfresh
    have hwfv := WF_withViolation st (violationRow env b) hwf hsession hfresh
    have hc := commit_of_WF hwfv
    unfold withViolation violationRow at hc
    refine ⟨?_, ?_⟩
    · unfold createViolation
      simp only
      rw [hc]
      rfl
    · intro clients
      rw [postViolations_found st clients env b hwf hsession hfresh]

/-- Instance of C18: a tab switch of the session "a" is stored in `joinedStore`. -/
theorem violations_append_only_witness :
    createViolation joinedStore { uuid := "v1", now := 2 } tabSwitch =
      .ok (violationRow { uuid := "v1", now := 2 } tabSwitch,
        { joinedStore with
            violations := joinedStore.violations ++
              [violationRow { uuid := "v1", now := 2 } tabSwitch] }) ∧
    (serve joinedStore (.postWarning "a")).2.violations = joinedStore.violations :=
  ⟨((violations_append_only joinedStore { uuid := "v1", now := 2 } tabSwitch).2.2.2.2.2
      (by decide) (by decide) (by decide)).1,
   (violations_append_only joinedStore { uuid := "v1", now := 2 } tabSwitch).2.1
      (.postWarning "a") (fun _ _ _ h => by cases h)⟩

/-- C19: for every registry (a set: no socket twice) and every request
POST /api/violations answered 201, the violation of the answer is persisted, and
the frames sent are: exactly one `violation_created` with that violation to each
registered socket whose role is admin and which is open, and nothing else, so
none to students, to sockets without a role, to sockets that are not open or to
sockets that are not registered.  A socket that connects and announces itself as
admin afterwards is sent nothing by these two events. -/
theorem violation_created_fanout (st : Store) (clients : List WebSocketClient) (env : Env)
    (body : InsertViolation) (now : Timestamp)
    (hnd : (clients.map (fun c => c.conn)).Nodup)
    (hok : (postViolationsHandler st clients env (some body)).1.status = 201) :
    (postViolationsHandler st clients env (some body)).1.body =
      .violation (violationRow env body) ∧
    violationRow env body ∈ (postViolationsHandler st clients env (some body)).2.1.violations ∧
    (∀ c ∈ clients,
      (postViolationsHandler st clients env (some body)).2.2.count
          (c.conn, .violationCreated (violationRow env body)) =
        if c.role = some .admin ∧ c.readyState = .isOpen then 1 else 0) ∧
    (∀ k m, (k, m) ∈ (postViolationsHandler st clients env (some body)).2.2 →
      m = .violationCreated (violationRow env body) ∧
      ∃ c ∈ clients, c.conn = k ∧ c.role = some .admin ∧ c.readyState = .isOpen) ∧
    (∀ k, k ∉ clients.map (fun c => c.conn) →
      (∀ m, (k, m) ∉ (postViolationsHandler st clients env (some body)).2.2) ∧
      (onMessage (onConnection clients k) (newSocket k) .adminConnect now).2.2 = []) := by
  have hrun := postViolations_created st clients env body hok
  have hmem : ∀ k m, (k, m) ∈ (postViolationsHandler st clients env (some body)).2.2 →
      m = .violationCreated (violationRow env body) ∧
      ∃ c ∈ clients, c.conn = k ∧ c.role = some .admin ∧ c.readyState = .isOpen := by
    intro k m hkm
    rw [hrun] at hkm
    obtain ⟨h1, c, hc, hck, hp⟩ := mem_fanout clients _ _ m k hkm
    exact ⟨h1, c, hc, hck, by simpa using hp⟩
  refine ⟨by rw [hrun], ?_, ?_, hmem, ?_⟩
  · rw [hrun]
    simp [withViolation]
  · intro c hc
    rw [hrun]
    have := count_fanout clients
      (fun c => decide (c.role = some Role.admin ∧ c.readyState = ReadyState.isOpen))
      (.violationCreated (violationRow env body)) hnd c hc
    simpa [broadcastViolationCreated] using this
  · intro k hk
    refine ⟨?_, rfl⟩
    intro m hkm
    obtain ⟨_, c, hc, hck, _⟩ := hmem k m hkm
    exact hk (List.mem_map.2 ⟨c, hc, hck⟩)

/-- Instance of C19: a violation for the session "a" is ingested while
`sampleClients` is the registry; the open admin 1 gets one frame, the student 2
gets none. -/
theorem violation_created_fanout_witness :
    (postViolationsHandler joinedStore sampleClients { uuid := "v1", now := 2 }
        (some tabSwitch)).2.2.count
        (1, .violationCreated (violationRow { uuid := "v1", now := 2 } tabSwitch)) = 1 ∧
    (postViolationsHandler joinedStore sampleClients { uuid := "v1", now := 2 }
        (some tabSwitch)).2.2.count
        (2, .violationCreated (violationRow { uuid := "v1", now := 2 } tabSwitch)) = 0 ∧
    (postViolationsHandler joinedStore sampleClients { uuid := "v1", now := 2 }
        (some tabSwitch)).2.2 =
      [(1, .violationCreated (violationRow { uuid := "v1", now := 2 } tabSwitch))] :=
  ⟨(violation_created_fanout joinedStore sampleClients { uuid := "v1", now := 2 } tabSwitch 3
      (by decide) (by decide)).2.2.1
      { conn := 1, isAlive := true, sessionId := .undefined, role := some .admin,
        readyState := .isOpen } (by decide),
   (violation_created_fanout joinedStore sampleClients { uuid := "v1", now := 2 } tabSwitch 3
      (by decide) (by decide)).2.2.1
      { conn := 2, isAlive := true, sessionId := .string "e1", role := some .student,
        readyState := .isOpen } (by decide),
   by decide⟩

/-- C20: a `violation` frame arrives on the socket `ws`, and the registry is a
set.  When `ws` has a sessionId bound (the value a `join_exam` frame left in
`ws.sessionId` is truthy), the frames sent are: exactly one `violation_alert` to
each registered socket whose role is admin and which is open, and nothing else;
the alert carries the sessionId of `ws` and the violationType, details and
warningCount of the frame received.  When `ws` has no sessionId bound, nothing is
sent.  The handler changes neither `ws` nor the registry. -/
theorem violation_alert_fanout (clients : List WebSocketClient) (ws : WebSocketClient)
    (violationType details warningCount : JsonValue) (now : Timestamp)
    (hnd : (clients.map (fun c => c.conn)).Nodup) :
    (ws.sessionId.truthy = true →
      (∀ c ∈ clients,
        (onMessage clients ws (.violation violationType details warningCount) now).2.2.count
            (c.conn, .violationAlert ws.sessionId violationType details warningCount now) =
          if c.role = some .admin ∧ c.readyState = .isOpen then 1 else 0) ∧
      (∀ k m,
        (k, m) ∈ (onMessage clients ws (.violation violationType details warningCount) now).2.2 →
        m = .violationAlert ws.sessionId violationType details warningCount now ∧
        ∃ c ∈ clients, c.conn = k ∧ c.role = some .admin ∧ c.readyState = .isOpen)) ∧
    (ws.sessionId.truthy = false →
      (onMessage clients ws (.violation violationType details warningCount) now).2.2 = []) ∧
    (onMessage clients ws (.violation violationType details warningCount) now).1 = ws ∧
    (onMessage clients ws (.violation violationType details warningCount) now).2.1 = clients := by
  refine ⟨?_, ?_, ?_, ?_⟩
  · intro hbound
    have hrun : (onMessage clients ws (.violation violationType details warningCount) now).2.2 =
        broadcastViolationAlert clients
          (.violationAlert ws.sessionId violationType details warningCount now) := by
      simp [onMessage, hbound]
    rw [hrun]
    refine ⟨?_, ?_⟩
    · intro c hc
      have := count_fanout clients
        (fun c => decide (c.role = some Role.admin ∧ c.readyState = ReadyState.isOpen))
        (.violationAlert ws.sessionId violationType details warningCount now) hnd c hc
      simpa [broadcastViolationAlert] using this
    · intro k m hkm
      obtain ⟨h1, c, hc, hck, hp⟩ := mem_fanout clients _ _ m k hkm
      exact ⟨h1, c, hc, hck, by simpa using hp⟩
  · intro hunbound
    simp [onMessage, hunbound]
  · unfold onMessage
    split_ifs <;> rfl
  · unfold onMessage
    split_ifs <;> rfl

/-- Instance of C20: the student socket 2, bound to "e1", reports a tab switch
with count 1 while `sampleClients` is the registry: the open admin 1 alone gets
the alert. -/
theorem violation_alert_fanout_witness :
    (onMessage sampleClients
        { conn := 2, isAlive := true, sessionId := .string "e1", role := some .student,
          readyState := .isOpen }
        (ClientMessage.violation "Tab Switch" "Student switched away from exam tab"
          1).toIncoming 5).2.2 =
      [(1, .violationAlert (.string "e1") (.string "Tab Switch")
            (.string "Student switched away from exam tab") (.number 1) 5)] ∧
    (onMessage sampleClients
        { conn := 2, isAlive := true, sessionId := .string "e1", role := some .student,
          readyState := .isOpen }
        (.violation (.string "Tab Switch") (.string "Student switched away from exam tab")
          (.number 1)) 5).2.2.count
        (1, .violationAlert (.string "e1") (.string "Tab Switch")
            (.string "Student switched away from exam tab") (.number 1) 5) = 1 :=
  ⟨by decide,
   ((violation_alert_fanout sampleClients
      { conn := 2, isAlive := true, sessionId := .string "e1", role := some .student,
        readyState := .isOpen }
      (.string "Tab Switch") (.string "Student switched away from exam tab") (.number 1) 5
      (by decide)).1 rfl).1
      { conn := 1, isAlive := true, sessionId := .undefined, role := some .admin,
        readyState := .isOpen } (by decide)⟩

/-- C22: removing a socket from the registry on `close` is idempotent: twice
leaves the registry that once leaves; removing a socket that is not registered
leaves the registry as it is; every other socket stays, and the socket itself
is gone. -/
theorem deregister_idempotent (clients : List WebSocketClient) (conn : Nat) :
    onClose (onClose clients conn) conn = onClose clients conn ∧
    (conn ∉ clients.map (fun c => c.conn) → onClose clients conn = clients) ∧
    (∀ c ∈ clients, c.conn ≠ conn → c ∈ onClose clients conn) ∧
    (∀ c ∈ onClose clients conn, c ∈ clients) ∧
    conn ∉ (onClose clients conn).map (fun c => c.conn) := by
  unfold onClose
  refine ⟨?_, ?_, ?_, ?_, ?_⟩
  · rw [List.filter_filter]
    apply List.filter_congr
    intro x _
    simp
  · intro hnot
    rw [List.filter_eq_self]
    intro c hc
    have : c.conn ≠ conn := fun e => hnot (List.mem_map.2 ⟨c, hc, e⟩)
    simpa using this
  · intro c hc hne
    exact List.mem_filter.2 ⟨hc, by simpa using hne⟩
  · intro c hc
    exact (List.mem_filter.1 hc).1
  · intro hmem
    obtain ⟨c, hc, hcc⟩ := List.mem_map.1 hmem
    have := (List.mem_filter.1 hc).2
    simp only [ne_eq, decide_not, Bool.not_eq_true', decide_eq_false_iff_not] at this
    exact this hcc

/-- C23: a frame that `JSON.parse` rejects, the frame `null`, and a frame whose
type is none of "join_exam", "admin_connect" and "violation" are dropped: the
handler ends normally, sends nothing, and leaves the sender and the whole
registry (membership, readyState, role and sessionId of every socket) as they
were. -/
theorem bad_frame_dropped (clients : List WebSocketClient) (ws : WebSocketClient)
    (raw : RawFrame) (now : Timestamp)
    (hbad : raw = .unparsable ∨ raw = .nullValue ∨
      ∃ d, raw = .data d ∧ d.type ≠ .string "join_exam" ∧ d.type ≠ .string "admin_connect" ∧
        d.type ≠ .string "violation") :
    onFrame clients ws raw now = (ws, clients, []) := by
  rcases hbad with h | h | ⟨d, h, h1, h2, h3⟩
  · subst h; rfl
  · subst h; rfl
  · subst h
    unfold onFrame classify
    simp only [h1, h2, h3, if_false]
    rfl

/-- Instance of C23: a frame of type "ping" on the student socket 2. -/
theorem bad_frame_dropped_witness :
    onFrame sampleClients
        { conn := 2, isAlive := true, sessionId := .string "e1", role := some .student,
          readyState := .isOpen }
        (.data { type := .string "ping", sessionId := .undefined, violationType := .undefined,
                 details := .undefined, warningCount := .undefined }) 5 =
      ({ conn := 2, isAlive := true, sessionId := .string "e1", role := some .student,
         readyState := .isOpen }, sampleClients, []) :=
  bad_frame_dropped sampleClients
    { conn := 2, isAlive := true, sessionId := .string "e1", role := some .student,
      readyState := .isOpen }
    (.data { type := .string "ping", sessionId := .undefined, violationType := .undefined,
             details := .undefined, warningCount := .undefined }) 5
    (Or.inr (Or.inr ⟨_, rfl, by decide, by decide, by decide⟩))

/-- C25, as stated, fails: the id "m" is the id of a StudentSession, yet the
route answers 500, not 200: the count of "m" is the largest value of the
`integer` column. -/
theorem warning_route_refuses_largest_count :
    "m" ∈ fullStore.studentSessions.map (fun s => s.id) ∧
    (postWarningHandler fullStore "m").1.status = 500 ∧
    (postWarningHandler fullStore "m").2 = fullStore := by
  decide

/-- C25, amended: in a store that meets its constraints, the handler of
POST /api/student-sessions/:id/warning answers 404 and leaves the store
unchanged when the id matches no StudentSession; it answers 200 with the updated
record exactly when the id is the one of a StudentSession whose warningCount is
below 2147483647; for a StudentSession at 2147483647 or above it answers 500 and
leaves the store unchanged. -/
theorem warning_route_status (st : Store) (id : String) (hwf : st.WF) :
    (id ∉ st.studentSessions.map (fun s => s.id) →
      postWarningHandler st id =
        ({ status := 404, body := .error "Student session not found" }, st)) ∧
    (∀ s ∈ st.studentSessions, s.id = id → s.warningCount < int4Max →
      postWarningHandler st id =
        ({ status := 200,
           body := .studentSession { s with warningCount := s.warningCount + 1 } },
         updateRow st id bumpWarning)) ∧
    (∀ s ∈ st.studentSessions, s.id = id → int4Max ≤ s.warningCount →
      postWarningHandler st id =
        ({ status := 500, body := .error "integer out of range" }, st)) ∧
    ((postWarningHandler st id).1.status = 200 ↔
      ∃ s ∈ st.studentSessions, s.id = id ∧ s.warningCount < int4Max) := by
  have hfound : ∀ s ∈ st.studentSessions, s.id = id → s.warningCount < int4Max →
      postWarningHandler st id =
        ({ status := 200,
           body := .studentSession { s with warningCount := s.warningCount + 1 } },
         updateRow st id bumpWarning) := by
    intro s hs hid hroom
    rw [← hid]
    exact postWarning_found st s hwf.1.2.2.1 hs (by omega)
  have hfull : ∀ s ∈ st.studentSessions, s.id = id → int4Max ≤ s.warningCount →
      postWarningHandler st id =
        ({ status := 500, body := .error "integer out of range" }, st) := by
    intro s hs hid hfull
    rw [← hid]
    exact postWarning_full st s hs hfull
  refine ⟨postWarning_missing st id, hfound, hfull, ?_⟩
  constructor
  · intro h200
    by_cases hmem : id ∈ st.studentSessions.map (fun s => s.id)
    · obtain ⟨s, hs, hid⟩ := List.mem_map.1 hmem
      refine ⟨s, hs, hid, ?_⟩
      by_contra hnot
      rw [hfull s hs hid (by omega)] at h200
      simp at h200
    · rw [postWarning_missing st id hmem] at h200
      simp at h200
  · rintro ⟨s, hs, hid, hroom⟩
    rw [hfound s hs hid hroom]

/-- Instance of the amended C25: warnings for the ids "a" (a session of
`warnedStore`) and "zz" (no session). -/
theorem warning_route_status_witness :
    (postWarningHandler warnedStore "a").1.status = 200 ∧
    postWarningHandler warnedStore "zz" =
      ({ status := 404, body := .error "Student session not found" }, warnedStore) :=
  ⟨(warning_route_status warnedStore "a" (by decide)).2.2.2.2
      ⟨warnedSession, by decide, rfl, by decide⟩,
   (warning_route_status warnedStore "zz" (by decide)).1 (by decide)⟩

/-- C26, as stated, fails: a new socket sends join_exam for "e1" and is a student
bound to "e1"; its next frame admin_connect makes it an admin, and a further
join_exam for "e2" binds it to "e2". -/
theorem later_frames_rebind_socket :
    hubRun [newSocket 7] [.message 7 (.joinExam (.string "e1")) 1] =
      [{ newSocket 7 with sessionId := .string "e1", role := some .student }] ∧
    hubRun [newSocket 7] [.message 7 (.joinExam (.string "e1")) 1, .message 7 .adminConnect 2] =
      [{ newSocket 7 with sessionId := .string "e1", role := some .admin }] ∧
    hubRun [newSocket 7]
        [.message 7 (.joinExam (.string "e1")) 1, .message 7 .adminConnect 2,
         .message 7 (.joinExam (.string "e2")) 3] =
      [{ newSocket 7 with sessionId := .string "e2", role := some .student }] := by
  decide

/-- C26, amended: the role and the sessionId of a socket are those its latest
frames declared.  Every join_exam frame, the first or a later one, sets the
sessionId of the socket to the one of the frame and its role to student; every
admin_connect frame sets its role to admin and leaves its sessionId; both write
the socket back into the registry and send nothing. -/
theorem frames_set_role (clients : List WebSocketClient) (ws : WebSocketClient)
    (sessionId : JsonValue) (now : Timestamp) :
    onMessage clients ws (.joinExam sessionId) now =
      ({ ws with sessionId := sessionId, role := some .student },
       storeSocket clients { ws with sessionId := sessionId, role := some .student }, []) ∧
    onMessage clients ws .adminConnect now =
      ({ ws with role := some .admin }, storeSocket clients { ws with role := some .admin },
       []) ∧
    (∀ c ∈ clients, c.conn ≠ ws.conn →
      c ∈ (onMessage clients ws (.joinExam sessionId) now).2.1 ∧
      c ∈ (onMessage clients ws .adminConnect now).2.1) := by
  refine ⟨rfl, rfl, ?_⟩
  intro c hc hne
  have hmem : ∀ w : WebSocketClient, w.conn = ws.conn → c ∈ storeSocket clients w := by
    intro w hw
    unfold storeSocket
    refine List.mem_map.2 ⟨c, hc, ?_⟩
    rw [hw, if_neg hne]
  exact ⟨hmem _ rfl, hmem _ rfl⟩

/-- C28: the lockout check of the join handler is scoped to the pair of the
request: the answer is 403 exactly when the store holds a StudentSession with the
studentId and the sessionId of the body that is inactive with warningCount >= 3.
Lockout records of the same student in another exam, or of another student in
the same exam, are not such rows and cause no rejection. -/
theorem lockout_scoped_to_pair (st : Store) (env : Env) (body : InsertStudentSession) :
    (postStudentSessionsHandler st env (some body)).1.status = 403 ↔
      ∃ s ∈ st.studentSessions, s.studentId = body.studentId ∧ s.sessionId = body.sessionId ∧
        s.isActive = false ∧ s.warningCount ≥ 3 := by
  constructor
  · intro h403
    by_contra hfree
    have hrun := postStudentSessions_free st env body hfree
    rw [hrun] at h403
    split at h403 <;> simp at h403
  · intro hlocked
    obtain ⟨t, _, _, _, ht⟩ := join_of_lockedOut st env body hlocked
    rw [ht]

/-- C27: one liveness sweep over a registry that is a set removes and terminates
exactly the sockets whose isAlive is false when it runs; every other socket
stays registered with isAlive set to false and is pinged; nothing else is in the
registry afterwards.  Consequently a registered socket that is not closed and
from which a pong arrives before every sweep is registered after any sequence
of events. -/
theorem sweep_removes_exactly_dead (clients : List WebSocketClient)
    (hnd : (clients.map (fun c => c.conn)).Nodup) :
    (∀ c ∈ clients, c.isAlive = false →
      c.conn ∉ (sweep clients).1.map (fun x => x.conn) ∧ c.conn ∈ (sweep clients).2.1 ∧
      c.conn ∉ (sweep clients).2.2) ∧
    (∀ c ∈ clients, c.isAlive = true →
      { c with isAlive := false } ∈ (sweep clients).1 ∧ c.conn ∈ (sweep clients).2.2 ∧
      c.conn ∉ (sweep clients).2.1) ∧
    (∀ d ∈ (sweep clients).1, ∃ c ∈ clients, c.isAlive = true ∧ d = { c with isAlive := false }) ∧
    (∀ (k : Nat) (alive : Bool) (events : List HubEvent),
      k ∈ clients.map (fun c => c.conn) →
      (alive = true → ∀ c ∈ clients, c.conn = k → c.isAlive = true) →
      pongsBeforeEverySweep k alive events = true →
      k ∈ (hubRun clients events).map (fun c => c.conn)) := by
  refine ⟨?_, ?_, ?_, ?_⟩
  · intro c hc hdead
    have hall : ∀ x ∈ clients, x.conn = c.conn → x.isAlive = false := by
      intro x hx hxc
      rw [eq_of_conn_eq clients hnd x c hx hc hxc]
      exact hdead
    have hdrop := sweep_drops_dead clients c.conn hall
    refine ⟨hdrop.1, hdrop.2 (List.mem_map_of_mem (fun x => x.conn) hc), ?_⟩
    intro hping
    unfold sweep at hping
    obtain ⟨x, hx, hxc⟩ := List.mem_map.1 hping
    have h1 := (List.mem_filter.1 hx).2
    rw [hall x (List.mem_filter.1 hx).1 hxc] at h1
    exact absurd h1 (by decide)
  · intro c hc halive
    unfold sweep
    refine ⟨List.mem_map.2 ⟨c, List.mem_filter.2 ⟨hc, halive⟩, rfl⟩,
      List.mem_map.2 ⟨c, List.mem_filter.2 ⟨hc, halive⟩, rfl⟩, ?_⟩
    intro hterm
    obtain ⟨x, hx, hxc⟩ := List.mem_map.1 hterm
    have h1 := (List.mem_filter.1 hx).2
    rw [eq_of_conn_eq clients hnd x c (List.mem_filter.1 hx).1 hc hxc, halive] at h1
    exact absurd h1 (by decide)
  · intro d hd
    unfold sweep at hd
    obtain ⟨c, hc, rfl⟩ := List.mem_map.1 hd
    exact ⟨c, (List.mem_filter.1 hc).1, (List.mem_filter.1 hc).2, rfl⟩
  · intro k alive events hreg halive htrack
    exact pongs_keep_registered events clients k alive hreg halive htrack

/-- Instance of C27: in `sampleClients` the socket 2 pongs before each of two
sweeps and is registered afterwards. -/
theorem sweep_removes_exactly_dead_witness :
    2 ∈ (hubRun sampleClients [.pong 2, .sweep, .message 2 .other 3, .pong 2, .sweep]).map
      (fun c => c.conn) :=
  (sweep_removes_exactly_dead sampleClients (by decide)).2.2.2 2 false
    [.pong 2, .sweep, .message 2 .other 3, .pong 2, .sweep] (by decide)
    (fun h => absurd h (by decide)) (by decide)

/-- C21: a registered socket that stays silent across two consecutive sweeps (no
pong from it, no close of it and no new socket under its name between them) is
not in the registry after the second sweep; one of the two sweeps has terminated it; and as long as no new
socket connects under its name it stays out of the registry, so that no
`violation_created` and no `violation_alert` is sent to it, whatever happens
later. -/
theorem silent_socket_reaped (clients : List WebSocketClient) (k : Nat)
    (between later : List HubEvent)
    (hreg : k ∈ clients.map (fun c => c.conn)) (hsilent : silentFor k between)
    (hlater : ∀ e ∈ later, e ≠ .connection k) :
    k ∉ (sweep (hubRun (sweep clients).1 between)).1.map (fun c => c.conn) ∧
    (k ∈ (sweep clients).2.1 ∨ k ∈ (sweep (hubRun (sweep clients).1 between)).2.1) ∧
    k ∉ (hubRun (sweep (hubRun (sweep clients).1 between)).1 later).map (fun c => c.conn) ∧
    (∀ v m, (k, m) ∉
      broadcastViolationCreated (hubRun (sweep (hubRun (sweep clients).1 between)).1 later) v) ∧
    (∀ alert m, (k, m) ∉
      broadcastViolationAlert (hubRun (sweep (hubRun (sweep clients).1 between)).1 later)
        alert) := by
  have hdead1 : ∀ c ∈ (sweep clients).1, c.conn = k → c.isAlive = false := by
    intro d hd _
    unfold sweep at hd
    obtain ⟨c, _, rfl⟩ := List.mem_map.1 hd
    rfl
  have hrun := silent_run between (sweep clients).1 k hsilent hdead1
  have hdrop := sweep_drops_dead (hubRun (sweep clients).1 between) k hrun.1
  have hout := unregistered_run later _ k hdrop.1 hlater
  have hframes := no_frame_outside _ k hout
  refine ⟨hdrop.1, ?_, hout, hframes.1, hframes.2⟩
  by_cases hstill : k ∈ (sweep clients).1.map (fun c => c.conn)
  · exact Or.inr (hdrop.2 (hrun.2 hstill))
  · left
    obtain ⟨c, hc, hck⟩ := List.mem_map.1 hreg
    have hcdead : c.isAlive = false := by
      cases ha : c.isAlive with
      | false => rfl
      | true =>
        refine absurd ?_ hstill
        unfold sweep
        exact List.mem_map.2 ⟨{ c with isAlive := false },
          List.mem_map.2 ⟨c, List.mem_filter.2 ⟨hc, ha⟩, rfl⟩, hck⟩
    unfold sweep
    refine List.mem_map.2 ⟨c, List.mem_filter.2 ⟨hc, ?_⟩, hck⟩
    rw [hcdead]
    rfl

/-- Instance of C21: the student socket 2 of `sampleClients` sends a frame but no
pong between two sweeps; later an admin connects and a sweep runs. -/
theorem silent_socket_reaped_witness :
    2 ∉ (sweep (hubRun (sweep sampleClients).1
        [.message 2 (.violation (.string "Tab Switch") .undefined (.number 1)) 5,
         .pong 1])).1.map (fun c => c.conn) ∧
    (2 ∈ (sweep sampleClients).2.1 ∨
      2 ∈ (sweep (hubRun (sweep sampleClients).1
        [.message 2 (.violation (.string "Tab Switch") .undefined (.number 1)) 5,
         .pong 1])).2.1) ∧
    2 ∉ (hubRun (sweep (hubRun (sweep sampleClients).1
        [.message 2 (.violation (.string "Tab Switch") .undefined (.number 1)) 5,
         .pong 1])).1 [.connection 9, .message 9 .adminConnect 6, .sweep]).map
      (fun c => c.conn) :=
  ⟨(silent_socket_reaped sampleClients 2
      [.message 2 (.violation (.string "Tab Switch") .undefined (.number 1)) 5, .pong 1]
      [.connection 9, .message 9 .adminConnect 6, .sweep]
      (by decide) (by decide) (by decide)).1,
   (silent_socket_reaped sampleClients 2
      [.message 2 (.violation (.string "Tab Switch") .undefined (.number 1)) 5, .pong 1]
      [.connection 9, .message 9 .adminConnect 6, .sweep]
      (by decide) (by decide) (by decide)).2.1,
   (silent_socket_reaped sampleClients 2
      [.message 2 (.violation (.string "Tab Switch") .undefined (.number 1)) 5, .pong 1]
      [.connection 9, .message 9 .adminConnect 6, .sweep]
      (by decide) (by decide) (by decide)).2.2.1⟩

/-- C30: for every whole number of seconds `s` that is not negative,
`formatTime s` is the text H:M:S, where H = s / 3600 is written in decimal and
padded on the left with zeros to at least two characters (one zero in front of
a single digit, nothing in front of two digits or more), M = (s mod 3600) / 60
and S = s mod 60 are written as exactly two decimal digits, M < 60, S < 60, and
3600 * H + 60 * M + S = s. -/
theorem formatTime_shape (s : Nat) :
    formatTime s =
      padStart (toString (s / 3600)) 2 '0' ++ ":" ++ padStart (toString (s % 3600 / 60)) 2 '0' ++
        ":" ++ padStart (toString (s % 60)) 2 '0' ∧
    (toString (s / 3600)).data =
      (if s / 3600 = 0 then ['0'] else (Nat.digits 10 (s / 3600)).reverse.map Nat.digitChar) ∧
    (padStart (toString (s / 3600)) 2 '0').length = max 2 (toString (s / 3600)).length ∧
    (s / 3600 < 10 → padStart (toString (s / 3600)) 2 '0' = "0" ++ toString (s / 3600)) ∧
    (10 ≤ s / 3600 → padStart (toString (s / 3600)) 2 '0' = toString (s / 3600)) ∧
    (padStart (toString (s % 3600 / 60)) 2 '0').data =
      [Nat.digitChar (s % 3600 / 60 / 10), Nat.digitChar (s % 3600 / 60 % 10)] ∧
    (padStart (toString (s % 60)) 2 '0').data =
      [Nat.digitChar (s % 60 / 10), Nat.digitChar (s % 60 % 10)] ∧
    s % 3600 / 60 < 60 ∧ s % 60 < 60 ∧
    3600 * (s / 3600) + 60 * (s % 3600 / 60) + s % 60 = s := by
  have hm : s % 3600 / 60 < 60 := by omega
  have hs : s % 60 < 60 := by omega
  exact ⟨rfl, toString_decimal _, padStart_length _ _ _, pad_one_digit _,
    fun h => padStart_long _ _ _ (repr_length_ge _ h), pad_two_digits _ hm, pad_two_digits _ hs,
    hm, hs, by omega⟩

/-- C29: the page finds the id of the StudentSession `s` cached for its exam and
the server returns `s` (the request GET /api/student-sessions/ followed by the
cached id is answered 200 with `s`).  Then `initSession` shows the lockout screen
and removes the cache entry exactly when `s` is inactive or has
warningCount >= 3, and otherwise takes the cached id as its StudentSession id; in
both cases no request changes the store (the join request is not sent).  A
session that was submitted with warningCount < 3 is therefore locked out on this
path, although the test of the join handler is false on it and, when the pair
has no lockout record, the join handler does not answer 403. -/
theorem cached_session_validation (emailOf : String → String) (c : ClientState) (st : Store)
    (envStudent envSession : Env) (s : StudentSession)
    (hwf : st.WF) (hs : s ∈ st.studentSessions) (hexam : c.sessionId ≠ "")
    (hcache : getItem c.localStorage (cacheKey c.sessionId) = some s.id) (hne : s.id ≠ "")
    (hreturned : getStudentSessionsPath st s.id =
      { status := 200, body := .studentSessionWithDetails (withDetails st s) }) :
    (s.isActive = false ∨ s.warningCount ≥ 3 →
      initSession emailOf c st envStudent envSession =
        (accessDenied
          { c with localStorage := removeItem c.localStorage (cacheKey c.sessionId) }, st) ∧
      (initSession emailOf c st envStudent envSession).1.isTerminated = true ∧
      (initSession emailOf c st envStudent envSession).1.isSessionActive = false ∧
      getItem (initSession emailOf c st envStudent envSession).1.localStorage
        (cacheKey c.sessionId) = none) ∧
    (¬ (s.isActive = false ∨ s.warningCount ≥ 3) →
      initSession emailOf c st envStudent envSession = ({ c with studentSessionId := s.id }, st)) ∧
    (initSession emailOf c st envStudent envSession).2 = st ∧
    (s.isActive = false → s.warningCount < 3 →
      (initSession emailOf c st envStudent envSession).1.isTerminated = true ∧
      terminatedTest s = false ∧
      (¬ lockedOut st s.studentId s.sessionId →
        ∀ (env : Env) (body : InsertStudentSession),
          body.studentId = s.studentId → body.sessionId = s.sessionId →
          (postStudentSessionsHandler st env (some body)).1.status ≠ 403)) := by
  have hpath : getStudentSessionsPath st s.id = getStudentSessionHandler st s.id := by
    rw [hreturned, getStudentSessionHandler_found st s hwf.1.2.2.1 hs]
  have hrun := initSession_cached emailOf c st envStudent envSession s hwf hs hexam hcache hne
    hpath
  refine ⟨?_, ?_, ?_, ?_⟩
  · intro hdeny
    rw [hrun, if_pos hdeny]
    exact ⟨rfl, rfl, rfl, getItem_removeItem _ _⟩
  · intro hkeep
    rw [hrun, if_neg hkeep]
  · rw [hrun]
    split <;> rfl
  · intro hinactive hlow
    rw [hrun, if_pos (Or.inl hinactive)]
    refine ⟨rfl, ?_, ?_⟩
    · unfold terminatedTest
      simp only [hinactive, Bool.not_false, Bool.true_and, decide_eq_false_iff_not, not_le]
      exact hlow
    · intro hfree env body h1 h2
      have hfree2 : ¬ lockedOut st body.studentId body.sessionId := by rw [h1, h2]; exact hfree
      rw [postStudentSessions_free st env body hfree2]
      split <;> simp

/-- Instance of C29: the page has the id of `submittedSession` (inactive,
warningCount 2) in its cache; it shows the lockout screen, while the join handler
would create a session for the same pair. -/
theorem cached_session_validation_witness :
    (initSession (fun n => n ++ "@exam.test")
        { freshPage with localStorage := [("studentSession_e1", "a")] } submittedStore
        { uuid := "s9", now := 7 } { uuid := "n", now := 8 }).1.isTerminated = true ∧
    terminatedTest submittedSession = false ∧
    (postStudentSessionsHandler submittedStore { uuid := "n", now := 8 }
      (some { studentId := "s1", sessionId := "e1", warningCount := some 0,
              isActive := some true })).1.status ≠ 403 :=
  ⟨((cached_session_validation (fun n => n ++ "@exam.test")
      { freshPage with localStorage := [("studentSession_e1", "a")] } submittedStore
      { uuid := "s9", now := 7 } { uuid := "n", now := 8 } submittedSession
      (by decide) (by decide) (by decide) (by decide) (by decide) (by decide)).2.2.2 rfl
      (by decide)).1,
   ((cached_session_validation (fun n => n ++ "@exam.test")
      { freshPage with localStorage := [("studentSession_e1", "a")] } submittedStore
      { uuid := "s9", now := 7 } { uuid := "n", now := 8 } submittedSession
      (by decide) (by decide) (by decide) (by decide) (by decide) (by decide)).2.2.2 rfl
      (by decide)).2.1,
   ((cached_session_validation (fun n => n ++ "@exam.test")
      { freshPage with localStorage := [("studentSession_e1", "a")] } submittedStore
      { uuid := "s9", now := 7 } { uuid := "n", now := 8 } submittedSession
      (by decide) (by decide) (by decide) (by decide) (by decide) (by decide)).2.2.2 rfl
      (by decide)).2.2
      (by decide) { uuid := "n", now := 8 }
      { studentId := "s1", sessionId := "e1", warningCount := some 0, isActive := some true }
      rfl rfl⟩

/-- C24, as stated, fails: the page of the session "a" handles the third
violation and decides to terminate (it clears its flag and sends the close
request), while the registry holds the open socket of the page (2, bound to the
exam "e1") and an open student socket bound to "a" (5).  The frames sent are one
`violation_created` and one `violation_alert`, both to the admin socket 1; no
frame goes to a student socket, and the server has no `force_logout` frame to
send. -/
theorem termination_sends_no_logout :
    (handleViolationTraced pageOfA warnedStore examClients { uuid := "v", now := 7 } 8
      "Tab Switch" "Student switched away from exam tab").2 =
      [.createViolation tabSwitch, .incrementWarning "a", .refetch "a",
       .send (.violation "Tab Switch" "Student switched away from exam tab" 3),
       .setInactive, .updateStudentSession "a" (closeBody 8)] ∧
    (handleViolation pageOfA warnedStore examClients { uuid := "v", now := 7 } 8 "Tab Switch"
      "Student switched away from exam tab").1.isSessionActive = false ∧
    (getStudentSession (handleViolation pageOfA warnedStore examClients { uuid := "v", now := 7 }
      8 "Tab Switch" "Student switched away from exam tab").2.1 "a").map
        (fun d => d.warningCount) = some 3 ∧
    (handleViolation pageOfA warnedStore examClients { uuid := "v", now := 7 } 8 "Tab Switch"
      "Student switched away from exam tab").2.2 =
      [(1, .violationCreated (violationRow { uuid := "v", now := 7 } tabSwitch))] ∧
    (handleViolation pageOfA warnedStore examClients { uuid := "v", now := 7 } 8 "Tab Switch"
      "Student switched away from exam tab").1.sent =
      [.violation "Tab Switch" "Student switched away from exam tab" 3] ∧
    (onMessage examClients
      { conn := 2, isAlive := true, sessionId := .string "e1", role := some .student,
        readyState := .isOpen }
      (ClientMessage.violation "Tab Switch" "Student switched away from exam tab"
        3).toIncoming 9).2.2 =
      [(1, .violationAlert (.string "e1") (.string "Tab Switch")
        (.string "Student switched away from exam tab") (.number 3) 9)] := by
  decide

/-- C24, amended: a run of `handleViolation` on an open page for an existing
StudentSession `s` whose count after the increment is 3 or more (and is an
`integer`) has these effects, in this order: the request POST /api/violations,
which stores the violation and whose handler sends `violation_created` to the
admin sockets that are open (persist, notify); the request POST .../warning
(count); the refetch; the `violation` frame with the count after the increment
when the socket of the page is open, which the hub relays from a bound socket
as `violation_alert` to the admin sockets that are open (notify); then
`setIsSessionActive(false)` (decide); and last the close request.  The frames
of the run are the `violation_created` frames of the first request.  Every open
admin socket gets both frames, every frame goes to an open admin socket, and in
a registry that is a set no socket with another role gets a frame; there is no
`force_logout` frame. -/
theorem termination_alerts_admins (c : ClientState) (st : Store)
    (clients : List WebSocketClient) (env : Env) (now : Timestamp) (type details : String)
    (s : StudentSession) (ws : WebSocketClient) (alertTime : Timestamp)
    (hwf : st.WF) (hs : s ∈ st.studentSessions) (hact : c.isSessionActive = true)
    (hid : c.studentSessionId = s.id) (hne : s.id ≠ "")
    (hfresh : env.uuid ∉ st.violations.map (fun x => x.id))
    (h3 : s.warningCount + 1 ≥ 3) (hroom : s.warningCount < int4Max) :
    (handleViolationTraced c st clients env now type details).2 =
      [.createViolation { studentSessionId := s.id, type := type, details := some details },
       .incrementWarning s.id, .refetch s.id] ++
        (if c.wsOpen then [.send (.violation type details (s.warningCount + 1))] else []) ++
        [.setInactive, .updateStudentSession s.id (closeBody now)] ∧
    postViolationsHandler st clients env
        (some { studentSessionId := s.id, type := type, details := some details }) =
      ({ status := 201,
         body := .violation (violationRow env
           { studentSessionId := s.id, type := type, details := some details }) },
       withViolation st (violationRow env
         { studentSessionId := s.id, type := type, details := some details }),
       broadcastViolationCreated clients (violationRow env
         { studentSessionId := s.id, type := type, details := some details })) ∧
    (handleViolation c st clients env now type details).2.1.violations =
      st.violations ++ [violationRow env
        { studentSessionId := s.id, type := type, details := some details }] ∧
    (getStudentSession (handleViolation c st clients env now type details).2.1 s.id).map
        (fun d => d.warningCount) = some (s.warningCount + 1) ∧
    (handleViolation c st clients env now type details).1.isSessionActive = false ∧
    (handleViolation c st clients env now type details).1.sent =
      c.sent ++ (if c.wsOpen then [.violation type details (s.warningCount + 1)] else []) ∧
    (handleViolation c st clients env now type details).2.2 =
      broadcastViolationCreated clients (violationRow env
        { studentSessionId := s.id, type := type, details := some details }) ∧
    (∀ a ∈ clients, a.role = some Role.admin → a.readyState = ReadyState.isOpen →
      (a.conn, ServerMessage.violationCreated (violationRow env
        { studentSessionId := s.id, type := type, details := some details })) ∈
        (handleViolation c st clients env now type details).2.2 ∧
      (ws.sessionId.truthy = true →
        (a.conn, ServerMessage.violationAlert ws.sessionId (.string type) (.string details)
          (.number (s.warningCount + 1)) alertTime) ∈
          (onMessage clients ws
            (ClientMessage.violation type details (s.warningCount + 1)).toIncoming
            alertTime).2.2)) ∧
    (∀ k m, (k, m) ∈ (handleViolation c st clients env now type details).2.2 ++
        (onMessage clients ws
          (ClientMessage.violation type details (s.warningCount + 1)).toIncoming
          alertTime).2.2 →
      ∃ a ∈ clients, a.conn = k ∧ a.role = some Role.admin ∧
        a.readyState = ReadyState.isOpen) ∧
    ((clients.map (fun x => x.conn)).Nodup →
      ∀ b ∈ clients, b.role ≠ some Role.admin → ∀ m,
        (b.conn, m) ∉ (handleViolation c st clients env now type details).2.2 ++
          (onMessage clients ws
            (ClientMessage.violation type details (s.warningCount + 1)).toIncoming
            alertTime).2.2) := by
  have hsid : s.id ∈ st.studentSessions.map (fun x => x.id) := List.mem_map_of_mem _ hs
  have hv := postViolations_found st clients env
    { studentSessionId := s.id, type := type, details := some details } hwf hsid hfresh
  have hwf1 := WF_withViolation st (violationRow env
    { studentSessionId := s.id, type := type, details := some details }) hwf hsid hfresh
  have hwf2 := WF_updateRow _ s.id bumpWarning bumpWarning_keys hwf1
  have hs2 := mem_updateRow _ s bumpWarning
    (show s ∈ (withViolation st (violationRow env
      { studentSessionId := s.id, type := type, details := some details })).studentSessions
      from hs)
  have hread := getStudentSession_found _ _ hwf2.1.2.2.1 hs2
  have htrace := handleViolationTraced_run c st clients env now type details s hwf hs hact hid
    hne hfresh (by omega)
  rw [if_pos h3] at htrace
  have hrun := handleViolation_run c st clients env now type details s hwf hs hact hid hne hfresh
    (by omega)
  rw [if_pos h3] at hrun
  have hrelay := relay_frames clients ws (.string type) (.string details)
    (.number (s.warningCount + 1)) alertTime
  have htargets : ∀ k m, (k, m) ∈ (handleViolation c st clients env now type details).2.2 ++
      (onMessage clients ws
        (ClientMessage.violation type details (s.warningCount + 1)).toIncoming
        alertTime).2.2 →
      ∃ a ∈ clients, a.conn = k ∧ a.role = some Role.admin ∧
        a.readyState = ReadyState.isOpen := by
    intro k m hmem
    rw [hrun] at hmem
    rcases List.mem_append.1 hmem with h | h
    · exact (fanout_targets clients _ m k h).2
    · simp only [ClientMessage.toIncoming] at h
      rw [hrelay] at h
      split at h
      · exact (fanout_targets clients _ m k h).2
      · simp at h
  refine ⟨?_, hv, ?_, ?_, ?_, ?_, ?_, ?_, htargets, ?_⟩
  · rw [htrace]
  · rw [hrun]
    rfl
  · rw [hrun]
    exact (congrArg (Option.map (fun d => d.warningCount)) hread).trans rfl
  · rw [hrun]
  · rw [hrun]
    cases c.wsOpen <;> simp
  · rw [hrun]
  · intro a ha hrole hopen
    constructor
    · rw [hrun]
      exact fanout_reaches clients _ a ha hrole hopen
    · intro hbound
      simp only [ClientMessage.toIncoming]
      rw [hrelay, if_pos hbound]
      exact fanout_reaches clients _ a ha hrole hopen
  · intro hnd b hb hrole m hmem
    obtain ⟨a, ha, hak, harole, _⟩ := htargets b.conn m hmem
    rw [eq_of_conn_eq clients hnd a b ha hb hak] at harole
    exact hrole harole

/-- Instance of the amended C24: the third violation of the session "a" with
the registry `examClients`; the `violation_created` frame does not go to the
student socket 5, bound to "a". -/
theorem termination_alerts_admins_witness :
    ((5 : Nat), ServerMessage.violationCreated (violationRow { uuid := "v", now := 7 } tabSwitch)) ∉
      (handleViolation pageOfA warnedStore examClients { uuid := "v", now := 7 } 8
        "Tab Switch" "Student switched away from exam tab").2.2 ++
      (onMessage examClients
        { conn := 2, isAlive := true, sessionId := .string "e1", role := some .student,
          readyState := .isOpen }
        (ClientMessage.violation "Tab Switch" "Student switched away from exam tab"
          (warnedSession.warningCount + 1)).toIncoming 9).2.2 :=
  (termination_alerts_admins pageOfA warnedStore examClients { uuid := "v", now := 7 } 8
    "Tab Switch" "Student switched away from exam tab" warnedSession
    { conn := 2, isAlive := true, sessionId := .string "e1", role := some .student,
      readyState := .isOpen } 9
    (by decide) (by decide) rfl rfl (by decide) (by decide) (by decide)
    (by decide)).2.2.2.2.2.2.2.2.2
    (by decide)
    { conn := 5, isAlive := true, sessionId := .string "a", role := some .student,
      readyState := .isOpen } (by decide) (by decide)
    (ServerMessage.violationCreated (violationRow { uuid := "v", now := 7 } tabSwitch))

end ExamProctoring
